import Mathlib

/-!
# JavaParser: the generated parser interface of `jast`

The sources are the three headers ANTLR 4.13.2 generated from `antlr/java/JavaParser.g4`:
`JavaParser.h` (token types, rule indices, one context class per production with its typed
accessors, the rule functions and the semantic predicates), `JavaParserVisitor.h` (the abstract
visitor) and `JavaParserBaseVisitor.h` (its default implementation).

The declarations of the headers are embedded name for name and in the order of the source: the
enumerators and the context classes as enumerations, what a class declares as a record of data.
The one piece of executable code among the sources, the bodies of `JavaParserBaseVisitor`, is
embedded as functions.
-/

namespace JavaParser

/-! ## Token types and rule indices (`JavaParser.h`, the two anonymous enums) -/

/-- The enumerators of the token-type enum of `JavaParser`, in source order. -/
inductive TokenType
  | ABSTRACT | ASSERT | BOOLEAN | BREAK | BYTE | CASE | CATCH | CHAR | CLASS | CONST | CONTINUE
  | DEFAULT | DO | DOUBLE | ELSE | ENUM | EXTENDS | FINAL | FINALLY | FLOAT | FOR | IF | GOTO
  | IMPLEMENTS | IMPORT | INSTANCEOF | INT | INTERFACE | LONG | NATIVE | NEW | PACKAGE | PRIVATE
  | PROTECTED | PUBLIC | RETURN | SHORT | STATIC | STRICTFP | SUPER | SWITCH | SYNCHRONIZED | THIS
  | THROW | THROWS | TRANSIENT | TRY | VOID | VOLATILE | WHILE | MODULE | OPEN | REQUIRES | EXPORTS
  | OPENS | TO | USES | PROVIDES | WITH | TRANSITIVE | VAR | YIELD | RECORD | SEALED | PERMITS
  | NON_SEALED | DECIMAL_LITERAL | HEX_LITERAL | OCT_LITERAL | BINARY_LITERAL | FLOAT_LITERAL
  | HEX_FLOAT_LITERAL | BOOL_LITERAL | CHAR_LITERAL | STRING_LITERAL | TEXT_BLOCK | NULL_LITERAL
  | LPAREN | RPAREN | LBRACE | RBRACE | LBRACK | RBRACK | SEMI | COMMA | DOT | ASSIGN | GT | LT
  | BANG | TILDE | QUESTION | COLON | EQUAL | LE | GE | NOTEQUAL | AND | OR | INC | DEC | ADD | SUB
  | MUL | DIV | BITAND | BITOR | CARET | MOD | ADD_ASSIGN | SUB_ASSIGN | MUL_ASSIGN | DIV_ASSIGN
  | AND_ASSIGN | OR_ASSIGN | XOR_ASSIGN | MOD_ASSIGN | LSHIFT_ASSIGN | RSHIFT_ASSIGN
  | URSHIFT_ASSIGN | ARROW | COLONCOLON | AT | ELLIPSIS | WS | COMMENT | LINE_COMMENT | IDENTIFIER
  deriving DecidableEq, Repr

/-- The integer code the enum gives a token type. -/
def TokenType.code : TokenType → Nat
  | TokenType.ABSTRACT => 1
  | TokenType.ASSERT => 2
  | TokenType.BOOLEAN => 3
  | TokenType.BREAK => 4
  | TokenType.BYTE => 5
  | TokenType.CASE => 6
  | TokenType.CATCH => 7
  | TokenType.CHAR => 8
  | TokenType.CLASS => 9
  | TokenType.CONST => 10
  | TokenType.CONTINUE => 11
  | TokenType.DEFAULT => 12
  | TokenType.DO => 13
  | TokenType.DOUBLE => 14
  | TokenType.ELSE => 15
  | TokenType.ENUM => 16
  | TokenType.EXTENDS => 17
  | TokenType.FINAL => 18
  | TokenType.FINALLY => 19
  | TokenType.FLOAT => 20
  | TokenType.FOR => 21
  | TokenType.IF => 22
  | TokenType.GOTO => 23
  | TokenType.IMPLEMENTS => 24
  | TokenType.IMPORT => 25
  | TokenType.INSTANCEOF => 26
  | TokenType.INT => 27
  | TokenType.INTERFACE => 28
  | TokenType.LONG => 29
  | TokenType.NATIVE => 30
  | TokenType.NEW => 31
  | TokenType.PACKAGE => 32
  | TokenType.PRIVATE => 33
  | TokenType.PROTECTED => 34
  | TokenType.PUBLIC => 35
  | TokenType.RETURN => 36
  | TokenType.SHORT => 37
  | TokenType.STATIC => 38
  | TokenType.STRICTFP => 39
  | TokenType.SUPER => 40
  | TokenType.SWITCH => 41
  | TokenType.SYNCHRONIZED => 42
  | TokenType.THIS => 43
  | TokenType.THROW => 44
  | TokenType.THROWS => 45
  | TokenType.TRANSIENT => 46
  | TokenType.TRY => 47
  | TokenType.VOID => 48
  | TokenType.VOLATILE => 49
  | TokenType.WHILE => 50
  | TokenType.MODULE => 51
  | TokenType.OPEN => 52
  | TokenType.REQUIRES => 53
  | TokenType.EXPORTS => 54
  | TokenType.OPENS => 55
  | TokenType.TO => 56
  | TokenType.USES => 57
  | TokenType.PROVIDES => 58
  | TokenType.WITH => 59
  | TokenType.TRANSITIVE => 60
  | TokenType.VAR => 61
  | TokenType.YIELD => 62
  | TokenType.RECORD => 63
  | TokenType.SEALED => 64
  | TokenType.PERMITS => 65
  | TokenType.NON_SEALED => 66
  | TokenType.DECIMAL_LITERAL => 67
  | TokenType.HEX_LITERAL => 68
  | TokenType.OCT_LITERAL => 69
  | TokenType.BINARY_LITERAL => 70
  | TokenType.FLOAT_LITERAL => 71
  | TokenType.HEX_FLOAT_LITERAL => 72
  | TokenType.BOOL_LITERAL => 73
  | TokenType.CHAR_LITERAL => 74
  | TokenType.STRING_LITERAL => 75
  | TokenType.TEXT_BLOCK => 76
  | TokenType.NULL_LITERAL => 77
  | TokenType.LPAREN => 78
  | TokenType.RPAREN => 79
  | TokenType.LBRACE => 80
  | TokenType.RBRACE => 81
  | TokenType.LBRACK => 82
  | TokenType.RBRACK => 83
  | TokenType.SEMI => 84
  | TokenType.COMMA => 85
  | TokenType.DOT => 86
  | TokenType.ASSIGN => 87
  | TokenType.GT => 88
  | TokenType.LT => 89
  | TokenType.BANG => 90
  | TokenType.TILDE => 91
  | TokenType.QUESTION => 92
  | TokenType.COLON => 93
  | TokenType.EQUAL => 94
  | TokenType.LE => 95
  | TokenType.GE => 96
  | TokenType.NOTEQUAL => 97
  | TokenType.AND => 98
  | TokenType.OR => 99
  | TokenType.INC => 100
  | TokenType.DEC => 101
  | TokenType.ADD => 102
  | TokenType.SUB => 103
  | TokenType.MUL => 104
  | TokenType.DIV => 105
  | TokenType.BITAND => 106
  | TokenType.BITOR => 107
  | TokenType.CARET => 108
  | TokenType.MOD => 109
  | TokenType.ADD_ASSIGN => 110
  | TokenType.SUB_ASSIGN => 111
  | TokenType.MUL_ASSIGN => 112
  | TokenType.DIV_ASSIGN => 113
  | TokenType.AND_ASSIGN => 114
  | TokenType.OR_ASSIGN => 115
  | TokenType.XOR_ASSIGN => 116
  | TokenType.MOD_ASSIGN => 117
  | TokenType.LSHIFT_ASSIGN => 118
  | TokenType.RSHIFT_ASSIGN => 119
  | TokenType.URSHIFT_ASSIGN => 120
  | TokenType.ARROW => 121
  | TokenType.COLONCOLON => 122
  | TokenType.AT => 123
  | TokenType.ELLIPSIS => 124
  | TokenType.WS => 125
  | TokenType.COMMENT => 126
  | TokenType.LINE_COMMENT => 127
  | TokenType.IDENTIFIER => 128

/-- The name of a token type, as the enum spells it. -/
def TokenType.name : TokenType → String
  | TokenType.ABSTRACT => "ABSTRACT"
  | TokenType.ASSERT => "ASSERT"
  | TokenType.BOOLEAN => "BOOLEAN"
  | TokenType.BREAK => "BREAK"
  | TokenType.BYTE => "BYTE"
  | TokenType.CASE => "CASE"
  | TokenType.CATCH => "CATCH"
  | TokenType.CHAR => "CHAR"
  | TokenType.CLASS => "CLASS"
  | TokenType.CONST => "CONST"
  | TokenType.CONTINUE => "CONTINUE"
  | TokenType.DEFAULT => "DEFAULT"
  | TokenType.DO => "DO"
  | TokenType.DOUBLE => "DOUBLE"
  | TokenType.ELSE => "ELSE"
  | TokenType.ENUM => "ENUM"
  | TokenType.EXTENDS => "EXTENDS"
  | TokenType.FINAL => "FINAL"
  | TokenType.FINALLY => "FINALLY"
  | TokenType.FLOAT => "FLOAT"
  | TokenType.FOR => "FOR"
  | TokenType.IF => "IF"
  | TokenType.GOTO => "GOTO"
  | TokenType.IMPLEMENTS => "IMPLEMENTS"
  | TokenType.IMPORT => "IMPORT"
  | TokenType.INSTANCEOF => "INSTANCEOF"
  | TokenType.INT => "INT"
  | TokenType.INTERFACE => "INTERFACE"
  | TokenType.LONG => "LONG"
  | TokenType.NATIVE => "NATIVE"
  | TokenType.NEW => "NEW"
  | TokenType.PACKAGE => "PACKAGE"
  | TokenType.PRIVATE => "PRIVATE"
  | TokenType.PROTECTED => "PROTECTED"
  | TokenType.PUBLIC => "PUBLIC"
  | TokenType.RETURN => "RETURN"
  | TokenType.SHORT => "SHORT"
  | TokenType.STATIC => "STATIC"
  | TokenType.STRICTFP => "STRICTFP"
  | TokenType.SUPER => "SUPER"
  | TokenType.SWITCH => "SWITCH"
  | TokenType.SYNCHRONIZED => "SYNCHRONIZED"
  | TokenType.THIS => "THIS"
  | TokenType.THROW => "THROW"
  | TokenType.THROWS => "THROWS"
  | TokenType.TRANSIENT => "TRANSIENT"
  | TokenType.TRY => "TRY"
  | TokenType.VOID => "VOID"
  | TokenType.VOLATILE => "VOLATILE"
  | TokenType.WHILE => "WHILE"
  | TokenType.MODULE => "MODULE"
  | TokenType.OPEN => "OPEN"
  | TokenType.REQUIRES => "REQUIRES"
  | TokenType.EXPORTS => "EXPORTS"
  | TokenType.OPENS => "OPENS"
  | TokenType.TO => "TO"
  | TokenType.USES => "USES"
  | TokenType.PROVIDES => "PROVIDES"
  | TokenType.WITH => "WITH"
  | TokenType.TRANSITIVE => "TRANSITIVE"
  | TokenType.VAR => "VAR"
  | TokenType.YIELD => "YIELD"
  | TokenType.RECORD => "RECORD"
  | TokenType.SEALED => "SEALED"
  | TokenType.PERMITS => "PERMITS"
  | TokenType.NON_SEALED => "NON_SEALED"
  | TokenType.DECIMAL_LITERAL => "DECIMAL_LITERAL"
  | TokenType.HEX_LITERAL => "HEX_LITERAL"
  | TokenType.OCT_LITERAL => "OCT_LITERAL"
  | TokenType.BINARY_LITERAL => "BINARY_LITERAL"
  | TokenType.FLOAT_LITERAL => "FLOAT_LITERAL"
  | TokenType.HEX_FLOAT_LITERAL => "HEX_FLOAT_LITERAL"
  | TokenType.BOOL_LITERAL => "BOOL_LITERAL"
  | TokenType.CHAR_LITERAL => "CHAR_LITERAL"
  | TokenType.STRING_LITERAL => "STRING_LITERAL"
  | TokenType.TEXT_BLOCK => "TEXT_BLOCK"
  | TokenType.NULL_LITERAL => "NULL_LITERAL"
  | TokenType.LPAREN => "LPAREN"
  | TokenType.RPAREN => "RPAREN"
  | TokenType.LBRACE => "LBRACE"
  | TokenType.RBRACE => "RBRACE"
  | TokenType.LBRACK => "LBRACK"
  | TokenType.RBRACK => "RBRACK"
  | TokenType.SEMI => "SEMI"
  | TokenType.COMMA => "COMMA"
  | TokenType.DOT => "DOT"
  | TokenType.ASSIGN => "ASSIGN"
  | TokenType.GT => "GT"
  | TokenType.LT => "LT"
  | TokenType.BANG => "BANG"
  | TokenType.TILDE => "TILDE"
  | TokenType.QUESTION => "QUESTION"
  | TokenType.COLON => "COLON"
  | TokenType.EQUAL => "EQUAL"
  | TokenType.LE => "LE"
  | TokenType.GE => "GE"
  | TokenType.NOTEQUAL => "NOTEQUAL"
  | TokenType.AND => "AND"
  | TokenType.OR => "OR"
  | TokenType.INC => "INC"
  | TokenType.DEC => "DEC"
  | TokenType.ADD => "ADD"
  | TokenType.SUB => "SUB"
  | TokenType.MUL => "MUL"
  | TokenType.DIV => "DIV"
  | TokenType.BITAND => "BITAND"
  | TokenType.BITOR => "BITOR"
  | TokenType.CARET => "CARET"
  | TokenType.MOD => "MOD"
  | TokenType.ADD_ASSIGN => "ADD_ASSIGN"
  | TokenType.SUB_ASSIGN => "SUB_ASSIGN"
  | TokenType.MUL_ASSIGN => "MUL_ASSIGN"
  | TokenType.DIV_ASSIGN => "DIV_ASSIGN"
  | TokenType.AND_ASSIGN => "AND_ASSIGN"
  | TokenType.OR_ASSIGN => "OR_ASSIGN"
  | TokenType.XOR_ASSIGN => "XOR_ASSIGN"
  | TokenType.MOD_ASSIGN => "MOD_ASSIGN"
  | TokenType.LSHIFT_ASSIGN => "LSHIFT_ASSIGN"
  | TokenType.RSHIFT_ASSIGN => "RSHIFT_ASSIGN"
  | TokenType.URSHIFT_ASSIGN => "URSHIFT_ASSIGN"
  | TokenType.ARROW => "ARROW"
  | TokenType.COLONCOLON => "COLONCOLON"
  | TokenType.AT => "AT"
  | TokenType.ELLIPSIS => "ELLIPSIS"
  | TokenType.WS => "WS"
  | TokenType.COMMENT => "COMMENT"
  | TokenType.LINE_COMMENT => "LINE_COMMENT"
  | TokenType.IDENTIFIER => "IDENTIFIER"

/-- Every token type, in source order. -/
def tokenTypes : List TokenType := [
  TokenType.ABSTRACT, TokenType.ASSERT, TokenType.BOOLEAN, TokenType.BREAK, TokenType.BYTE,
  TokenType.CASE, TokenType.CATCH, TokenType.CHAR, TokenType.CLASS, TokenType.CONST,
  TokenType.CONTINUE, TokenType.DEFAULT, TokenType.DO, TokenType.DOUBLE, TokenType.ELSE,
  TokenType.ENUM, TokenType.EXTENDS, TokenType.FINAL, TokenType.FINALLY, TokenType.FLOAT,
  TokenType.FOR, TokenType.IF, TokenType.GOTO, TokenType.IMPLEMENTS, TokenType.IMPORT,
  TokenType.INSTANCEOF, TokenType.INT, TokenType.INTERFACE, TokenType.LONG, TokenType.NATIVE,
  TokenType.NEW, TokenType.PACKAGE, TokenType.PRIVATE, TokenType.PROTECTED, TokenType.PUBLIC,
  TokenType.RETURN, TokenType.SHORT, TokenType.STATIC, TokenType.STRICTFP, TokenType.SUPER,
  TokenType.SWITCH, TokenType.SYNCHRONIZED, TokenType.THIS, TokenType.THROW, TokenType.THROWS,
  TokenType.TRANSIENT, TokenType.TRY, TokenType.VOID, TokenType.VOLATILE, TokenType.WHILE,
  TokenType.MODULE, TokenType.OPEN, TokenType.REQUIRES, TokenType.EXPORTS, TokenType.OPENS,
  TokenType.TO, TokenType.USES, TokenType.PROVIDES, TokenType.WITH, TokenType.TRANSITIVE,
  TokenType.VAR, TokenType.YIELD, TokenType.RECORD, TokenType.SEALED, TokenType.PERMITS,
  TokenType.NON_SEALED, TokenType.DECIMAL_LITERAL, TokenType.HEX_LITERAL, TokenType.OCT_LITERAL,
  TokenType.BINARY_LITERAL, TokenType.FLOAT_LITERAL, TokenType.HEX_FLOAT_LITERAL,
  TokenType.BOOL_LITERAL, TokenType.CHAR_LITERAL, TokenType.STRING_LITERAL, TokenType.TEXT_BLOCK,
  TokenType.NULL_LITERAL, TokenType.LPAREN, TokenType.RPAREN, TokenType.LBRACE, TokenType.RBRACE,
  TokenType.LBRACK, TokenType.RBRACK, TokenType.SEMI, TokenType.COMMA, TokenType.DOT,
  TokenType.ASSIGN, TokenType.GT, TokenType.LT, TokenType.BANG, TokenType.TILDE, TokenType.QUESTION,
  TokenType.COLON, TokenType.EQUAL, TokenType.LE, TokenType.GE, TokenType.NOTEQUAL, TokenType.AND,
  TokenType.OR, TokenType.INC, TokenType.DEC, TokenType.ADD, TokenType.SUB, TokenType.MUL,
  TokenType.DIV, TokenType.BITAND, TokenType.BITOR, TokenType.CARET, TokenType.MOD,
  TokenType.ADD_ASSIGN, TokenType.SUB_ASSIGN, TokenType.MUL_ASSIGN, TokenType.DIV_ASSIGN,
  TokenType.AND_ASSIGN, TokenType.OR_ASSIGN, TokenType.XOR_ASSIGN, TokenType.MOD_ASSIGN,
  TokenType.LSHIFT_ASSIGN, TokenType.RSHIFT_ASSIGN, TokenType.URSHIFT_ASSIGN, TokenType.ARROW,
  TokenType.COLONCOLON, TokenType.AT, TokenType.ELLIPSIS, TokenType.WS, TokenType.COMMENT,
  TokenType.LINE_COMMENT, TokenType.IDENTIFIER
]

/-- The enumerators of the rule-index enum of `JavaParser`, in source order. -/
inductive Rule
  | RuleCompilationUnit | RuleDeclarationStart | RuleStatementStart | RuleExpressionStart
  | RuleDirectiveStart | RuleOrdinaryCompilationUnit | RuleModularCompilationUnit
  | RulePackageDeclaration | RuleImportDeclaration | RuleTypeDeclaration | RuleModifier
  | RuleClassOrInterfaceModifier | RuleVariableModifier | RuleClassDeclaration | RuleClassExtends
  | RuleClassImplements | RuleClassPermits | RuleTypeParameters | RuleTypeParameter | RuleTypeBound
  | RuleEnumDeclaration | RuleEnumConstants | RuleEnumConstant | RuleEnumBodyDeclarations
  | RuleInterfaceDeclaration | RuleClassBody | RuleInterfaceBody | RuleClassBodyDeclaration
  | RuleMemberDeclaration | RuleMethodDeclaration | RuleDims | RuleDim | RuleThrows_
  | RuleMethodBody | RuleTypeTypeOrVoid | RuleConstructorDeclaration
  | RuleCompactConstructorDeclaration | RuleFieldDeclaration | RuleInterfaceBodyDeclaration
  | RuleInterfaceMemberDeclaration | RuleConstDeclaration | RuleInterfaceMethodModifier
  | RuleInterfaceMethodDeclaration | RuleVariableDeclarators | RuleVariableDeclarator
  | RuleVariableDeclaratorId | RuleVariableInitializer | RuleArrayInitializer
  | RuleClassOrInterfaceType | RuleCoit | RuleTypeArgument | RuleQualifiedNameList
  | RuleFormalParameters | RuleReceiverParameter | RuleFormalParameterList | RuleFormalParameter
  | RuleLastFormalParameter | RuleLambdaLVTIList | RuleLambdaLVTIParameter | RuleQualifiedName
  | RuleLiteral | RuleIntegerLiteral | RuleFloatLiteral | RuleAnnotation | RuleElementValuePairs
  | RuleElementValuePair | RuleElementValue | RuleElementValueArrayInitializer
  | RuleAnnotationTypeDeclaration | RuleAnnotationTypeBody | RuleAnnotationTypeElementDeclaration
  | RuleAnnotationTypeElementRest | RuleAnnotationConstantDeclaration
  | RuleAnnotationMethodDeclaration | RuleDefaultValue | RuleModuleDeclaration | RuleModuleBody
  | RuleModuleDirective | RuleRequiresModifier | RuleRecordDeclaration | RuleRecordComponentList
  | RuleRecordComponent | RuleRecordBody | RuleRecordBodyDeclaration | RuleBlock
  | RuleBlockStatement | RuleLocalVariableDeclaration | RuleIdentifier | RuleTypeIdentifier
  | RuleLocalTypeDeclaration | RuleStatement | RuleSwitchBlock | RuleCatchClause | RuleCatchType
  | RuleFinallyBlock | RuleResourceSpecification | RuleResources | RuleResource
  | RuleSwitchBlockStatementGroup | RuleSwitchLabel | RuleForInit | RuleParExpression
  | RuleExpressionList | RuleMethodCall | RulePostfixExpression | RulePrefixExpression
  | RuleTypeExpression | RuleMultiplicativeExpression | RuleAdditiveExpression | RuleShiftExpression
  | RuleRelationalExpression | RuleEqualityExpression | RuleBitwiseAndExpression
  | RuleBitwiseXorExpression | RuleBitwiseOrExpression | RuleLogicalAndExpression
  | RuleLogicalOrExpression | RuleTernaryExpression | RuleAssignmentExpression | RuleExpression
  | RulePattern | RuleLambdaExpression | RuleLambdaParameters | RuleLambdaBody | RulePrimary
  | RuleSwitchExpression | RuleSwitchLabeledRule | RuleGuardedPattern | RuleSwitchRuleOutcome
  | RuleClassType | RuleCreator | RuleObjectCreator | RuleCreatedName | RuleCoitDiamond
  | RuleInnerCreator | RuleDimExpr | RuleArrayCreator | RuleExplicitGenericInvocation
  | RuleTypeArgumentsOrDiamond | RuleNonWildcardTypeArgumentsOrDiamond
  | RuleNonWildcardTypeArguments | RuleTypeList | RuleTypeType | RulePrimitiveType
  | RuleTypeArguments | RuleSuperSuffix | RuleExplicitGenericInvocationSuffix | RuleArguments
  deriving DecidableEq, Repr

/-- The integer value the enum gives a rule. -/
def Rule.index : Rule → Nat
  | Rule.RuleCompilationUnit => 0
  | Rule.RuleDeclarationStart => 1
  | Rule.RuleStatementStart => 2
  | Rule.RuleExpressionStart => 3
  | Rule.RuleDirectiveStart => 4
  | Rule.RuleOrdinaryCompilationUnit => 5
  | Rule.RuleModularCompilationUnit => 6
  | Rule.RulePackageDeclaration => 7
  | Rule.RuleImportDeclaration => 8
  | Rule.RuleTypeDeclaration => 9
  | Rule.RuleModifier => 10
  | Rule.RuleClassOrInterfaceModifier => 11
  | Rule.RuleVariableModifier => 12
  | Rule.RuleClassDeclaration => 13
  | Rule.RuleClassExtends => 14
  | Rule.RuleClassImplements => 15
  | Rule.RuleClassPermits => 16
  | Rule.RuleTypeParameters => 17
  | Rule.RuleTypeParameter => 18
  | Rule.RuleTypeBound => 19
  | Rule.RuleEnumDeclaration => 20
  | Rule.RuleEnumConstants => 21
  | Rule.RuleEnumConstant => 22
  | Rule.RuleEnumBodyDeclarations => 23
  | Rule.RuleInterfaceDeclaration => 24
  | Rule.RuleClassBody => 25
  | Rule.RuleInterfaceBody => 26
  | Rule.RuleClassBodyDeclaration => 27
  | Rule.RuleMemberDeclaration => 28
  | Rule.RuleMethodDeclaration => 29
  | Rule.RuleDims => 30
  | Rule.RuleDim => 31
  | Rule.RuleThrows_ => 32
  | Rule.RuleMethodBody => 33
  | Rule.RuleTypeTypeOrVoid => 34
  | Rule.RuleConstructorDeclaration => 35
  | Rule.RuleCompactConstructorDeclaration => 36
  | Rule.RuleFieldDeclaration => 37
  | Rule.RuleInterfaceBodyDeclaration => 38
  | Rule.RuleInterfaceMemberDeclaration => 39
  | Rule.RuleConstDeclaration => 40
  | Rule.RuleInterfaceMethodModifier => 41
  | Rule.RuleInterfaceMethodDeclaration => 42
  | Rule.RuleVariableDeclarators => 43
  | Rule.RuleVariableDeclarator => 44
  | Rule.RuleVariableDeclaratorId => 45
  | Rule.RuleVariableInitializer => 46
  | Rule.RuleArrayInitializer => 47
  | Rule.RuleClassOrInterfaceType => 48
  | Rule.RuleCoit => 49
  | Rule.RuleTypeArgument => 50
  | Rule.RuleQualifiedNameList => 51
  | Rule.RuleFormalParameters => 52
  | Rule.RuleReceiverParameter => 53
  | Rule.RuleFormalParameterList => 54
  | Rule.RuleFormalParameter => 55
  | Rule.RuleLastFormalParameter => 56
  | Rule.RuleLambdaLVTIList => 57
  | Rule.RuleLambdaLVTIParameter => 58
  | Rule.RuleQualifiedName => 59
  | Rule.RuleLiteral => 60
  | Rule.RuleIntegerLiteral => 61
  | Rule.RuleFloatLiteral => 62
  | Rule.RuleAnnotation => 63
  | Rule.RuleElementValuePairs => 64
  | Rule.RuleElementValuePair => 65
  | Rule.RuleElementValue => 66
  | Rule.RuleElementValueArrayInitializer => 67
  | Rule.RuleAnnotationTypeDeclaration => 68
  | Rule.RuleAnnotationTypeBody => 69
  | Rule.RuleAnnotationTypeElementDeclaration => 70
  | Rule.RuleAnnotationTypeElementRest => 71
  | Rule.RuleAnnotationConstantDeclaration => 72
  | Rule.RuleAnnotationMethodDeclaration => 73
  | Rule.RuleDefaultValue => 74
  | Rule.RuleModuleDeclaration => 75
  | Rule.RuleModuleBody => 76
  | Rule.RuleModuleDirective => 77
  | Rule.RuleRequiresModifier => 78
  | Rule.RuleRecordDeclaration => 79
  | Rule.RuleRecordComponentList => 80
  | Rule.RuleRecordComponent => 81
  | Rule.RuleRecordBody => 82
  | Rule.RuleRecordBodyDeclaration => 83
  | Rule.RuleBlock => 84
  | Rule.RuleBlockStatement => 85
  | Rule.RuleLocalVariableDeclaration => 86
  | Rule.RuleIdentifier => 87
  | Rule.RuleTypeIdentifier => 88
  | Rule.RuleLocalTypeDeclaration => 89
  | Rule.RuleStatement => 90
  | Rule.RuleSwitchBlock => 91
  | Rule.RuleCatchClause => 92
  | Rule.RuleCatchType => 93
  | Rule.RuleFinallyBlock => 94
  | Rule.RuleResourceSpecification => 95
  | Rule.RuleResources => 96
  | Rule.RuleResource => 97
  | Rule.RuleSwitchBlockStatementGroup => 98
  | Rule.RuleSwitchLabel => 99
  | Rule.RuleForInit => 100
  | Rule.RuleParExpression => 101
  | Rule.RuleExpressionList => 102
  | Rule.RuleMethodCall => 103
  | Rule.RulePostfixExpression => 104
  | Rule.RulePrefixExpression => 105
  | Rule.RuleTypeExpression => 106
  | Rule.RuleMultiplicativeExpression => 107
  | Rule.RuleAdditiveExpression => 108
  | Rule.RuleShiftExpression => 109
  | Rule.RuleRelationalExpression => 110
  | Rule.RuleEqualityExpression => 111
  | Rule.RuleBitwiseAndExpression => 112
  | Rule.RuleBitwiseXorExpression => 113
  | Rule.RuleBitwiseOrExpression => 114
  | Rule.RuleLogicalAndExpression => 115
  | Rule.RuleLogicalOrExpression => 116
  | Rule.RuleTernaryExpression => 117
  | Rule.RuleAssignmentExpression => 118
  | Rule.RuleExpression => 119
  | Rule.RulePattern => 120
  | Rule.RuleLambdaExpression => 121
  | Rule.RuleLambdaParameters => 122
  | Rule.RuleLambdaBody => 123
  | Rule.RulePrimary => 124
  | Rule.RuleSwitchExpression => 125
  | Rule.RuleSwitchLabeledRule => 126
  | Rule.RuleGuardedPattern => 127
  | Rule.RuleSwitchRuleOutcome => 128
  | Rule.RuleClassType => 129
  | Rule.RuleCreator => 130
  | Rule.RuleObjectCreator => 131
  | Rule.RuleCreatedName => 132
  | Rule.RuleCoitDiamond => 133
  | Rule.RuleInnerCreator => 134
  | Rule.RuleDimExpr => 135
  | Rule.RuleArrayCreator => 136
  | Rule.RuleExplicitGenericInvocation => 137
  | Rule.RuleTypeArgumentsOrDiamond => 138
  | Rule.RuleNonWildcardTypeArgumentsOrDiamond => 139
  | Rule.RuleNonWildcardTypeArguments => 140
  | Rule.RuleTypeList => 141
  | Rule.RuleTypeType => 142
  | Rule.RulePrimitiveType => 143
  | Rule.RuleTypeArguments => 144
  | Rule.RuleSuperSuffix => 145
  | Rule.RuleExplicitGenericInvocationSuffix => 146
  | Rule.RuleArguments => 147

/-- The name of a rule-index enumerator. -/
def Rule.name : Rule → String
  | Rule.RuleCompilationUnit => "RuleCompilationUnit"
  | Rule.RuleDeclarationStart => "RuleDeclarationStart"
  | Rule.RuleStatementStart => "RuleStatementStart"
  | Rule.RuleExpressionStart => "RuleExpressionStart"
  | Rule.RuleDirectiveStart => "RuleDirectiveStart"
  | Rule.RuleOrdinaryCompilationUnit => "RuleOrdinaryCompilationUnit"
  | Rule.RuleModularCompilationUnit => "RuleModularCompilationUnit"
  | Rule.RulePackageDeclaration => "RulePackageDeclaration"
  | Rule.RuleImportDeclaration => "RuleImportDeclaration"
  | Rule.RuleTypeDeclaration => "RuleTypeDeclaration"
  | Rule.RuleModifier => "RuleModifier"
  | Rule.RuleClassOrInterfaceModifier => "RuleClassOrInterfaceModifier"
  | Rule.RuleVariableModifier => "RuleVariableModifier"
  | Rule.RuleClassDeclaration => "RuleClassDeclaration"
  | Rule.RuleClassExtends => "RuleClassExtends"
  | Rule.RuleClassImplements => "RuleClassImplements"
  | Rule.RuleClassPermits => "RuleClassPermits"
  | Rule.RuleTypeParameters => "RuleTypeParameters"
  | Rule.RuleTypeParameter => "RuleTypeParameter"
  | Rule.RuleTypeBound => "RuleTypeBound"
  | Rule.RuleEnumDeclaration => "RuleEnumDeclaration"
  | Rule.RuleEnumConstants => "RuleEnumConstants"
  | Rule.RuleEnumConstant => "RuleEnumConstant"
  | Rule.RuleEnumBodyDeclarations => "RuleEnumBodyDeclarations"
  | Rule.RuleInterfaceDeclaration => "RuleInterfaceDeclaration"
  | Rule.RuleClassBody => "RuleClassBody"
  | Rule.RuleInterfaceBody => "RuleInterfaceBody"
  | Rule.RuleClassBodyDeclaration => "RuleClassBodyDeclaration"
  | Rule.RuleMemberDeclaration => "RuleMemberDeclaration"
  | Rule.RuleMethodDeclaration => "RuleMethodDeclaration"
  | Rule.RuleDims => "RuleDims"
  | Rule.RuleDim => "RuleDim"
  | Rule.RuleThrows_ => "RuleThrows_"
  | Rule.RuleMethodBody => "RuleMethodBody"
  | Rule.RuleTypeTypeOrVoid => "RuleTypeTypeOrVoid"
  | Rule.RuleConstructorDeclaration => "RuleConstructorDeclaration"
  | Rule.RuleCompactConstructorDeclaration => "RuleCompactConstructorDeclaration"
  | Rule.RuleFieldDeclaration => "RuleFieldDeclaration"
  | Rule.RuleInterfaceBodyDeclaration => "RuleInterfaceBodyDeclaration"
  | Rule.RuleInterfaceMemberDeclaration => "RuleInterfaceMemberDeclaration"
  | Rule.RuleConstDeclaration => "RuleConstDeclaration"
  | Rule.RuleInterfaceMethodModifier => "RuleInterfaceMethodModifier"
  | Rule.RuleInterfaceMethodDeclaration => "RuleInterfaceMethodDeclaration"
  | Rule.RuleVariableDeclarators => "RuleVariableDeclarators"
  | Rule.RuleVariableDeclarator => "RuleVariableDeclarator"
  | Rule.RuleVariableDeclaratorId => "RuleVariableDeclaratorId"
  | Rule.RuleVariableInitializer => "RuleVariableInitializer"
  | Rule.RuleArrayInitializer => "RuleArrayInitializer"
  | Rule.RuleClassOrInterfaceType => "RuleClassOrInterfaceType"
  | Rule.RuleCoit => "RuleCoit"
  | Rule.RuleTypeArgument => "RuleTypeArgument"
  | Rule.RuleQualifiedNameList => "RuleQualifiedNameList"
  | Rule.RuleFormalParameters => "RuleFormalParameters"
  | Rule.RuleReceiverParameter => "RuleReceiverParameter"
  | Rule.RuleFormalParameterList => "RuleFormalParameterList"
  | Rule.RuleFormalParameter => "RuleFormalParameter"
  | Rule.RuleLastFormalParameter => "RuleLastFormalParameter"
  | Rule.RuleLambdaLVTIList => "RuleLambdaLVTIList"
  | Rule.RuleLambdaLVTIParameter => "RuleLambdaLVTIParameter"
  | Rule.RuleQualifiedName => "RuleQualifiedName"
  | Rule.RuleLiteral => "RuleLiteral"
  | Rule.RuleIntegerLiteral => "RuleIntegerLiteral"
  | Rule.RuleFloatLiteral => "RuleFloatLiteral"
  | Rule.RuleAnnotation => "RuleAnnotation"
  | Rule.RuleElementValuePairs => "RuleElementValuePairs"
  | Rule.RuleElementValuePair => "RuleElementValuePair"
  | Rule.RuleElementValue => "RuleElementValue"
  | Rule.RuleElementValueArrayInitializer => "RuleElementValueArrayInitializer"
  | Rule.RuleAnnotationTypeDeclaration => "RuleAnnotationTypeDeclaration"
  | Rule.RuleAnnotationTypeBody => "RuleAnnotationTypeBody"
  | Rule.RuleAnnotationTypeElementDeclaration => "RuleAnnotationTypeElementDeclaration"
  | Rule.RuleAnnotationTypeElementRest => "RuleAnnotationTypeElementRest"
  | Rule.RuleAnnotationConstantDeclaration => "RuleAnnotationConstantDeclaration"
  | Rule.RuleAnnotationMethodDeclaration => "RuleAnnotationMethodDeclaration"
  | Rule.RuleDefaultValue => "RuleDefaultValue"
  | Rule.RuleModuleDeclaration => "RuleModuleDeclaration"
  | Rule.RuleModuleBody => "RuleModuleBody"
  | Rule.RuleModuleDirective => "RuleModuleDirective"
  | Rule.RuleRequiresModifier => "RuleRequiresModifier"
  | Rule.RuleRecordDeclaration => "RuleRecordDeclaration"
  | Rule.RuleRecordComponentList => "RuleRecordComponentList"
  | Rule.RuleRecordComponent => "RuleRecordComponent"
  | Rule.RuleRecordBody => "RuleRecordBody"
  | Rule.RuleRecordBodyDeclaration => "RuleRecordBodyDeclaration"
  | Rule.RuleBlock => "RuleBlock"
  | Rule.RuleBlockStatement => "RuleBlockStatement"
  | Rule.RuleLocalVariableDeclaration => "RuleLocalVariableDeclaration"
  | Rule.RuleIdentifier => "RuleIdentifier"
  | Rule.RuleTypeIdentifier => "RuleTypeIdentifier"
  | Rule.RuleLocalTypeDeclaration => "RuleLocalTypeDeclaration"
  | Rule.RuleStatement => "RuleStatement"
  | Rule.RuleSwitchBlock => "RuleSwitchBlock"
  | Rule.RuleCatchClause => "RuleCatchClause"
  | Rule.RuleCatchType => "RuleCatchType"
  | Rule.RuleFinallyBlock => "RuleFinallyBlock"
  | Rule.RuleResourceSpecification => "RuleResourceSpecification"
  | Rule.RuleResources => "RuleResources"
  | Rule.RuleResource => "RuleResource"
  | Rule.RuleSwitchBlockStatementGroup => "RuleSwitchBlockStatementGroup"
  | Rule.RuleSwitchLabel => "RuleSwitchLabel"
  | Rule.RuleForInit => "RuleForInit"
  | Rule.RuleParExpression => "RuleParExpression"
  | Rule.RuleExpressionList => "RuleExpressionList"
  | Rule.RuleMethodCall => "RuleMethodCall"
  | Rule.RulePostfixExpression => "RulePostfixExpression"
  | Rule.RulePrefixExpression => "RulePrefixExpression"
  | Rule.RuleTypeExpression => "RuleTypeExpression"
  | Rule.RuleMultiplicativeExpression => "RuleMultiplicativeExpression"
  | Rule.RuleAdditiveExpression => "RuleAdditiveExpression"
  | Rule.RuleShiftExpression => "RuleShiftExpression"
  | Rule.RuleRelationalExpression => "RuleRelationalExpression"
  | Rule.RuleEqualityExpression => "RuleEqualityExpression"
  | Rule.RuleBitwiseAndExpression => "RuleBitwiseAndExpression"
  | Rule.RuleBitwiseXorExpression => "RuleBitwiseXorExpression"
  | Rule.RuleBitwiseOrExpression => "RuleBitwiseOrExpression"
  | Rule.RuleLogicalAndExpression => "RuleLogicalAndExpression"
  | Rule.RuleLogicalOrExpression => "RuleLogicalOrExpression"
  | Rule.RuleTernaryExpression => "RuleTernaryExpression"
  | Rule.RuleAssignmentExpression => "RuleAssignmentExpression"
  | Rule.RuleExpression => "RuleExpression"
  | Rule.RulePattern => "RulePattern"
  | Rule.RuleLambdaExpression => "RuleLambdaExpression"
  | Rule.RuleLambdaParameters => "RuleLambdaParameters"
  | Rule.RuleLambdaBody => "RuleLambdaBody"
  | Rule.RulePrimary => "RulePrimary"
  | Rule.RuleSwitchExpression => "RuleSwitchExpression"
  | Rule.RuleSwitchLabeledRule => "RuleSwitchLabeledRule"
  | Rule.RuleGuardedPattern => "RuleGuardedPattern"
  | Rule.RuleSwitchRuleOutcome => "RuleSwitchRuleOutcome"
  | Rule.RuleClassType => "RuleClassType"
  | Rule.RuleCreator => "RuleCreator"
  | Rule.RuleObjectCreator => "RuleObjectCreator"
  | Rule.RuleCreatedName => "RuleCreatedName"
  | Rule.RuleCoitDiamond => "RuleCoitDiamond"
  | Rule.RuleInnerCreator => "RuleInnerCreator"
  | Rule.RuleDimExpr => "RuleDimExpr"
  | Rule.RuleArrayCreator => "RuleArrayCreator"
  | Rule.RuleExplicitGenericInvocation => "RuleExplicitGenericInvocation"
  | Rule.RuleTypeArgumentsOrDiamond => "RuleTypeArgumentsOrDiamond"
  | Rule.RuleNonWildcardTypeArgumentsOrDiamond => "RuleNonWildcardTypeArgumentsOrDiamond"
  | Rule.RuleNonWildcardTypeArguments => "RuleNonWildcardTypeArguments"
  | Rule.RuleTypeList => "RuleTypeList"
  | Rule.RuleTypeType => "RuleTypeType"
  | Rule.RulePrimitiveType => "RulePrimitiveType"
  | Rule.RuleTypeArguments => "RuleTypeArguments"
  | Rule.RuleSuperSuffix => "RuleSuperSuffix"
  | Rule.RuleExplicitGenericInvocationSuffix => "RuleExplicitGenericInvocationSuffix"
  | Rule.RuleArguments => "RuleArguments"

/-- Every rule, in source order. -/
def rules : List Rule := [
  Rule.RuleCompilationUnit, Rule.RuleDeclarationStart, Rule.RuleStatementStart,
  Rule.RuleExpressionStart, Rule.RuleDirectiveStart, Rule.RuleOrdinaryCompilationUnit,
  Rule.RuleModularCompilationUnit, Rule.RulePackageDeclaration, Rule.RuleImportDeclaration,
  Rule.RuleTypeDeclaration, Rule.RuleModifier, Rule.RuleClassOrInterfaceModifier,
  Rule.RuleVariableModifier, Rule.RuleClassDeclaration, Rule.RuleClassExtends,
  Rule.RuleClassImplements, Rule.RuleClassPermits, Rule.RuleTypeParameters, Rule.RuleTypeParameter,
  Rule.RuleTypeBound, Rule.RuleEnumDeclaration, Rule.RuleEnumConstants, Rule.RuleEnumConstant,
  Rule.RuleEnumBodyDeclarations, Rule.RuleInterfaceDeclaration, Rule.RuleClassBody,
  Rule.RuleInterfaceBody, Rule.RuleClassBodyDeclaration, Rule.RuleMemberDeclaration,
  Rule.RuleMethodDeclaration, Rule.RuleDims, Rule.RuleDim, Rule.RuleThrows_, Rule.RuleMethodBody,
  Rule.RuleTypeTypeOrVoid, Rule.RuleConstructorDeclaration, Rule.RuleCompactConstructorDeclaration,
  Rule.RuleFieldDeclaration, Rule.RuleInterfaceBodyDeclaration, Rule.RuleInterfaceMemberDeclaration,
  Rule.RuleConstDeclaration, Rule.RuleInterfaceMethodModifier, Rule.RuleInterfaceMethodDeclaration,
  Rule.RuleVariableDeclarators, Rule.RuleVariableDeclarator, Rule.RuleVariableDeclaratorId,
  Rule.RuleVariableInitializer, Rule.RuleArrayInitializer, Rule.RuleClassOrInterfaceType,
  Rule.RuleCoit, Rule.RuleTypeArgument, Rule.RuleQualifiedNameList, Rule.RuleFormalParameters,
  Rule.RuleReceiverParameter, Rule.RuleFormalParameterList, Rule.RuleFormalParameter,
  Rule.RuleLastFormalParameter, Rule.RuleLambdaLVTIList, Rule.RuleLambdaLVTIParameter,
  Rule.RuleQualifiedName, Rule.RuleLiteral, Rule.RuleIntegerLiteral, Rule.RuleFloatLiteral,
  Rule.RuleAnnotation, Rule.RuleElementValuePairs, Rule.RuleElementValuePair, Rule.RuleElementValue,
  Rule.RuleElementValueArrayInitializer, Rule.RuleAnnotationTypeDeclaration,
  Rule.RuleAnnotationTypeBody, Rule.RuleAnnotationTypeElementDeclaration,
  Rule.RuleAnnotationTypeElementRest, Rule.RuleAnnotationConstantDeclaration,
  Rule.RuleAnnotationMethodDeclaration, Rule.RuleDefaultValue, Rule.RuleModuleDeclaration,
  Rule.RuleModuleBody, Rule.RuleModuleDirective, Rule.RuleRequiresModifier,
  Rule.RuleRecordDeclaration, Rule.RuleRecordComponentList, Rule.RuleRecordComponent,
  Rule.RuleRecordBody, Rule.RuleRecordBodyDeclaration, Rule.RuleBlock, Rule.RuleBlockStatement,
  Rule.RuleLocalVariableDeclaration, Rule.RuleIdentifier, Rule.RuleTypeIdentifier,
  Rule.RuleLocalTypeDeclaration, Rule.RuleStatement, Rule.RuleSwitchBlock, Rule.RuleCatchClause,
  Rule.RuleCatchType, Rule.RuleFinallyBlock, Rule.RuleResourceSpecification, Rule.RuleResources,
  Rule.RuleResource, Rule.RuleSwitchBlockStatementGroup, Rule.RuleSwitchLabel, Rule.RuleForInit,
  Rule.RuleParExpression, Rule.RuleExpressionList, Rule.RuleMethodCall, Rule.RulePostfixExpression,
  Rule.RulePrefixExpression, Rule.RuleTypeExpression, Rule.RuleMultiplicativeExpression,
  Rule.RuleAdditiveExpression, Rule.RuleShiftExpression, Rule.RuleRelationalExpression,
  Rule.RuleEqualityExpression, Rule.RuleBitwiseAndExpression, Rule.RuleBitwiseXorExpression,
  Rule.RuleBitwiseOrExpression, Rule.RuleLogicalAndExpression, Rule.RuleLogicalOrExpression,
  Rule.RuleTernaryExpression, Rule.RuleAssignmentExpression, Rule.RuleExpression, Rule.RulePattern,
  Rule.RuleLambdaExpression, Rule.RuleLambdaParameters, Rule.RuleLambdaBody, Rule.RulePrimary,
  Rule.RuleSwitchExpression, Rule.RuleSwitchLabeledRule, Rule.RuleGuardedPattern,
  Rule.RuleSwitchRuleOutcome, Rule.RuleClassType, Rule.RuleCreator, Rule.RuleObjectCreator,
  Rule.RuleCreatedName, Rule.RuleCoitDiamond, Rule.RuleInnerCreator, Rule.RuleDimExpr,
  Rule.RuleArrayCreator, Rule.RuleExplicitGenericInvocation, Rule.RuleTypeArgumentsOrDiamond,
  Rule.RuleNonWildcardTypeArgumentsOrDiamond, Rule.RuleNonWildcardTypeArguments, Rule.RuleTypeList,
  Rule.RuleTypeType, Rule.RulePrimitiveType, Rule.RuleTypeArguments, Rule.RuleSuperSuffix,
  Rule.RuleExplicitGenericInvocationSuffix, Rule.RuleArguments
]

/-! ## Context classes -/

/-- The context classes `JavaParser.h` defines, in source order: one per production and one per
labelled alternative of `primary`. -/
inductive Context
  | CompilationUnitContext | DeclarationStartContext | StatementStartContext
  | ExpressionStartContext | DirectiveStartContext | OrdinaryCompilationUnitContext
  | ModularCompilationUnitContext | PackageDeclarationContext | ImportDeclarationContext
  | TypeDeclarationContext | ModifierContext | ClassOrInterfaceModifierContext
  | VariableModifierContext | ClassDeclarationContext | ClassExtendsContext | ClassImplementsContext
  | ClassPermitsContext | TypeParametersContext | TypeParameterContext | TypeBoundContext
  | EnumDeclarationContext | EnumConstantsContext | EnumConstantContext
  | EnumBodyDeclarationsContext | InterfaceDeclarationContext | ClassBodyContext
  | InterfaceBodyContext | ClassBodyDeclarationContext | MemberDeclarationContext
  | MethodDeclarationContext | DimsContext | DimContext | Throws_Context | MethodBodyContext
  | TypeTypeOrVoidContext | ConstructorDeclarationContext | CompactConstructorDeclarationContext
  | FieldDeclarationContext | InterfaceBodyDeclarationContext | InterfaceMemberDeclarationContext
  | ConstDeclarationContext | InterfaceMethodModifierContext | InterfaceMethodDeclarationContext
  | VariableDeclaratorsContext | VariableDeclaratorContext | VariableDeclaratorIdContext
  | VariableInitializerContext | ArrayInitializerContext | ClassOrInterfaceTypeContext | CoitContext
  | TypeArgumentContext | QualifiedNameListContext | FormalParametersContext
  | ReceiverParameterContext | FormalParameterListContext | FormalParameterContext
  | LastFormalParameterContext | LambdaLVTIListContext | LambdaLVTIParameterContext
  | QualifiedNameContext | LiteralContext | IntegerLiteralContext | FloatLiteralContext
  | AnnotationContext | ElementValuePairsContext | ElementValuePairContext | ElementValueContext
  | ElementValueArrayInitializerContext | AnnotationTypeDeclarationContext
  | AnnotationTypeBodyContext | AnnotationTypeElementDeclarationContext
  | AnnotationTypeElementRestContext | AnnotationConstantDeclarationContext
  | AnnotationMethodDeclarationContext | DefaultValueContext | ModuleDeclarationContext
  | ModuleBodyContext | ModuleDirectiveContext | RequiresModifierContext | RecordDeclarationContext
  | RecordComponentListContext | RecordComponentContext | RecordBodyContext
  | RecordBodyDeclarationContext | BlockContext | BlockStatementContext
  | LocalVariableDeclarationContext | IdentifierContext | TypeIdentifierContext
  | LocalTypeDeclarationContext | StatementContext | SwitchBlockContext | CatchClauseContext
  | CatchTypeContext | FinallyBlockContext | ResourceSpecificationContext | ResourcesContext
  | ResourceContext | SwitchBlockStatementGroupContext | SwitchLabelContext | ForInitContext
  | ParExpressionContext | ExpressionListContext | MethodCallContext | PostfixExpressionContext
  | PrefixExpressionContext | TypeExpressionContext | MultiplicativeExpressionContext
  | AdditiveExpressionContext | ShiftExpressionContext | RelationalExpressionContext
  | EqualityExpressionContext | BitwiseAndExpressionContext | BitwiseXorExpressionContext
  | BitwiseOrExpressionContext | LogicalAndExpressionContext | LogicalOrExpressionContext
  | TernaryExpressionContext | AssignmentExpressionContext | ExpressionContext | PatternContext
  | LambdaExpressionContext | LambdaParametersContext | LambdaBodyContext | PrimaryContext
  | ExplicitGenericInvocationExpressionContext | ThisExpressionContext
  | MemberReferenceExpressionContext | MethodCallExpressionContext
  | MethodReferenceExpressionContext | ParExprContext | LiteralExpressionContext
  | ClassExpressionContext | SuperExpressionContext | ArrayAccessExpressionContext
  | IdentifierExpressionContext | SwitchExpressionContext | SwitchLabeledRuleContext
  | GuardedPatternContext | SwitchRuleOutcomeContext | ClassTypeContext | CreatorContext
  | ObjectCreatorContext | CreatedNameContext | CoitDiamondContext | InnerCreatorContext
  | DimExprContext | ArrayCreatorContext | ExplicitGenericInvocationContext
  | TypeArgumentsOrDiamondContext | NonWildcardTypeArgumentsOrDiamondContext
  | NonWildcardTypeArgumentsContext | TypeListContext | TypeTypeContext | PrimitiveTypeContext
  | TypeArgumentsContext | SuperSuffixContext | ExplicitGenericInvocationSuffixContext
  | ArgumentsContext
  deriving DecidableEq, Repr

/-- The name of a context class. -/
def Context.name : Context → String
  | Context.CompilationUnitContext => "CompilationUnitContext"
  | Context.DeclarationStartContext => "DeclarationStartContext"
  | Context.StatementStartContext => "StatementStartContext"
  | Context.ExpressionStartContext => "ExpressionStartContext"
  | Context.DirectiveStartContext => "DirectiveStartContext"
  | Context.OrdinaryCompilationUnitContext => "OrdinaryCompilationUnitContext"
  | Context.ModularCompilationUnitContext => "ModularCompilationUnitContext"
  | Context.PackageDeclarationContext => "PackageDeclarationContext"
  | Context.ImportDeclarationContext => "ImportDeclarationContext"
  | Context.TypeDeclarationContext => "TypeDeclarationContext"
  | Context.ModifierContext => "ModifierContext"
  | Context.ClassOrInterfaceModifierContext => "ClassOrInterfaceModifierContext"
  | Context.VariableModifierContext => "VariableModifierContext"
  | Context.ClassDeclarationContext => "ClassDeclarationContext"
  | Context.ClassExtendsContext => "ClassExtendsContext"
  | Context.ClassImplementsContext => "ClassImplementsContext"
  | Context.ClassPermitsContext => "ClassPermitsContext"
  | Context.TypeParametersContext => "TypeParametersContext"
  | Context.TypeParameterContext => "TypeParameterContext"
  | Context.TypeBoundContext => "TypeBoundContext"
  | Context.EnumDeclarationContext => "EnumDeclarationContext"
  | Context.EnumConstantsContext => "EnumConstantsContext"
  | Context.EnumConstantContext => "EnumConstantContext"
  | Context.EnumBodyDeclarationsContext => "EnumBodyDeclarationsContext"
  | Context.InterfaceDeclarationContext => "InterfaceDeclarationContext"
  | Context.ClassBodyContext => "ClassBodyContext"
  | Context.InterfaceBodyContext => "InterfaceBodyContext"
  | Context.ClassBodyDeclarationContext => "ClassBodyDeclarationContext"
  | Context.MemberDeclarationContext => "MemberDeclarationContext"
  | Context.MethodDeclarationContext => "MethodDeclarationContext"
  | Context.DimsContext => "DimsContext"
  | Context.DimContext => "DimContext"
  | Context.Throws_Context => "Throws_Context"
  | Context.MethodBodyContext => "MethodBodyContext"
  | Context.TypeTypeOrVoidContext => "TypeTypeOrVoidContext"
  | Context.ConstructorDeclarationContext => "ConstructorDeclarationContext"
  | Context.CompactConstructorDeclarationContext => "CompactConstructorDeclarationContext"
  | Context.FieldDeclarationContext => "FieldDeclarationContext"
  | Context.InterfaceBodyDeclarationContext => "InterfaceBodyDeclarationContext"
  | Context.InterfaceMemberDeclarationContext => "InterfaceMemberDeclarationContext"
  | Context.ConstDeclarationContext => "ConstDeclarationContext"
  | Context.InterfaceMethodModifierContext => "InterfaceMethodModifierContext"
  | Context.InterfaceMethodDeclarationContext => "InterfaceMethodDeclarationContext"
  | Context.VariableDeclaratorsContext => "VariableDeclaratorsContext"
  | Context.VariableDeclaratorContext => "VariableDeclaratorContext"
  | Context.VariableDeclaratorIdContext => "VariableDeclaratorIdContext"
  | Context.VariableInitializerContext => "VariableInitializerContext"
  | Context.ArrayInitializerContext => "ArrayInitializerContext"
  | Context.ClassOrInterfaceTypeContext => "ClassOrInterfaceTypeContext"
  | Context.CoitContext => "CoitContext"
  | Context.TypeArgumentContext => "TypeArgumentContext"
  | Context.QualifiedNameListContext => "QualifiedNameListContext"
  | Context.FormalParametersContext => "FormalParametersContext"
  | Context.ReceiverParameterContext => "ReceiverParameterContext"
  | Context.FormalParameterListContext => "FormalParameterListContext"
  | Context.FormalParameterContext => "FormalParameterContext"
  | Context.LastFormalParameterContext => "LastFormalParameterContext"
  | Context.LambdaLVTIListContext => "LambdaLVTIListContext"
  | Context.LambdaLVTIParameterContext => "LambdaLVTIParameterContext"
  | Context.QualifiedNameContext => "QualifiedNameContext"
  | Context.LiteralContext => "LiteralContext"
  | Context.IntegerLiteralContext => "IntegerLiteralContext"
  | Context.FloatLiteralContext => "FloatLiteralContext"
  | Context.AnnotationContext => "AnnotationContext"
  | Context.ElementValuePairsContext => "ElementValuePairsContext"
  | Context.ElementValuePairContext => "ElementValuePairContext"
  | Context.ElementValueContext => "ElementValueContext"
  | Context.ElementValueArrayInitializerContext => "ElementValueArrayInitializerContext"
  | Context.AnnotationTypeDeclarationContext => "AnnotationTypeDeclarationContext"
  | Context.AnnotationTypeBodyContext => "AnnotationTypeBodyContext"
  | Context.AnnotationTypeElementDeclarationContext => "AnnotationTypeElementDeclarationContext"
  | Context.AnnotationTypeElementRestContext => "AnnotationTypeElementRestContext"
  | Context.AnnotationConstantDeclarationContext => "AnnotationConstantDeclarationContext"
  | Context.AnnotationMethodDeclarationContext => "AnnotationMethodDeclarationContext"
  | Context.DefaultValueContext => "DefaultValueContext"
  | Context.ModuleDeclarationContext => "ModuleDeclarationContext"
  | Context.ModuleBodyContext => "ModuleBodyContext"
  | Context.ModuleDirectiveContext => "ModuleDirectiveContext"
  | Context.RequiresModifierContext => "RequiresModifierContext"
  | Context.RecordDeclarationContext => "RecordDeclarationContext"
  | Context.RecordComponentListContext => "RecordComponentListContext"
  | Context.RecordComponentContext => "RecordComponentContext"
  | Context.RecordBodyContext => "RecordBodyContext"
  | Context.RecordBodyDeclarationContext => "RecordBodyDeclarationContext"
  | Context.BlockContext => "BlockContext"
  | Context.BlockStatementContext => "BlockStatementContext"
  | Context.LocalVariableDeclarationContext => "LocalVariableDeclarationContext"
  | Context.IdentifierContext => "IdentifierContext"
  | Context.TypeIdentifierContext => "TypeIdentifierContext"
  | Context.LocalTypeDeclarationContext => "LocalTypeDeclarationContext"
  | Context.StatementContext => "StatementContext"
  | Context.SwitchBlockContext => "SwitchBlockContext"
  | Context.CatchClauseContext => "CatchClauseContext"
  | Context.CatchTypeContext => "CatchTypeContext"
  | Context.FinallyBlockContext => "FinallyBlockContext"
  | Context.ResourceSpecificationContext => "ResourceSpecificationContext"
  | Context.ResourcesContext => "ResourcesContext"
  | Context.ResourceContext => "ResourceContext"
  | Context.SwitchBlockStatementGroupContext => "SwitchBlockStatementGroupContext"
  | Context.SwitchLabelContext => "SwitchLabelContext"
  | Context.ForInitContext => "ForInitContext"
  | Context.ParExpressionContext => "ParExpressionContext"
  | Context.ExpressionListContext => "ExpressionListContext"
  | Context.MethodCallContext => "MethodCallContext"
  | Context.PostfixExpressionContext => "PostfixExpressionContext"
  | Context.PrefixExpressionContext => "PrefixExpressionContext"
  | Context.TypeExpressionContext => "TypeExpressionContext"
  | Context.MultiplicativeExpressionContext => "MultiplicativeExpressionContext"
  | Context.AdditiveExpressionContext => "AdditiveExpressionContext"
  | Context.ShiftExpressionContext => "ShiftExpressionContext"
  | Context.RelationalExpressionContext => "RelationalExpressionContext"
  | Context.EqualityExpressionContext => "EqualityExpressionContext"
  | Context.BitwiseAndExpressionContext => "BitwiseAndExpressionContext"
  | Context.BitwiseXorExpressionContext => "BitwiseXorExpressionContext"
  | Context.BitwiseOrExpressionContext => "BitwiseOrExpressionContext"
  | Context.LogicalAndExpressionContext => "LogicalAndExpressionContext"
  | Context.LogicalOrExpressionContext => "LogicalOrExpressionContext"
  | Context.TernaryExpressionContext => "TernaryExpressionContext"
  | Context.AssignmentExpressionContext => "AssignmentExpressionContext"
  | Context.ExpressionContext => "ExpressionContext"
  | Context.PatternContext => "PatternContext"
  | Context.LambdaExpressionContext => "LambdaExpressionContext"
  | Context.LambdaParametersContext => "LambdaParametersContext"
  | Context.LambdaBodyContext => "LambdaBodyContext"
  | Context.PrimaryContext => "PrimaryContext"
  | Context.ExplicitGenericInvocationExpressionContext => "ExplicitGenericInvocationExpressionContext"
  | Context.ThisExpressionContext => "ThisExpressionContext"
  | Context.MemberReferenceExpressionContext => "MemberReferenceExpressionContext"
  | Context.MethodCallExpressionContext => "MethodCallExpressionContext"
  | Context.MethodReferenceExpressionContext => "MethodReferenceExpressionContext"
  | Context.ParExprContext => "ParExprContext"
  | Context.LiteralExpressionContext => "LiteralExpressionContext"
  | Context.ClassExpressionContext => "ClassExpressionContext"
  | Context.SuperExpressionContext => "SuperExpressionContext"
  | Context.ArrayAccessExpressionContext => "ArrayAccessExpressionContext"
  | Context.IdentifierExpressionContext => "IdentifierExpressionContext"
  | Context.SwitchExpressionContext => "SwitchExpressionContext"
  | Context.SwitchLabeledRuleContext => "SwitchLabeledRuleContext"
  | Context.GuardedPatternContext => "GuardedPatternContext"
  | Context.SwitchRuleOutcomeContext => "SwitchRuleOutcomeContext"
  | Context.ClassTypeContext => "ClassTypeContext"
  | Context.CreatorContext => "CreatorContext"
  | Context.ObjectCreatorContext => "ObjectCreatorContext"
  | Context.CreatedNameContext => "CreatedNameContext"
  | Context.CoitDiamondContext => "CoitDiamondContext"
  | Context.InnerCreatorContext => "InnerCreatorContext"
  | Context.DimExprContext => "DimExprContext"
  | Context.ArrayCreatorContext => "ArrayCreatorContext"
  | Context.ExplicitGenericInvocationContext => "ExplicitGenericInvocationContext"
  | Context.TypeArgumentsOrDiamondContext => "TypeArgumentsOrDiamondContext"
  | Context.NonWildcardTypeArgumentsOrDiamondContext => "NonWildcardTypeArgumentsOrDiamondContext"
  | Context.NonWildcardTypeArgumentsContext => "NonWildcardTypeArgumentsContext"
  | Context.TypeListContext => "TypeListContext"
  | Context.TypeTypeContext => "TypeTypeContext"
  | Context.PrimitiveTypeContext => "PrimitiveTypeContext"
  | Context.TypeArgumentsContext => "TypeArgumentsContext"
  | Context.SuperSuffixContext => "SuperSuffixContext"
  | Context.ExplicitGenericInvocationSuffixContext => "ExplicitGenericInvocationSuffixContext"
  | Context.ArgumentsContext => "ArgumentsContext"

/-- Every context class, in the order of the class definitions. -/
def contexts : List Context := [
  Context.CompilationUnitContext, Context.DeclarationStartContext, Context.StatementStartContext,
  Context.ExpressionStartContext, Context.DirectiveStartContext,
  Context.OrdinaryCompilationUnitContext, Context.ModularCompilationUnitContext,
  Context.PackageDeclarationContext, Context.ImportDeclarationContext,
  Context.TypeDeclarationContext, Context.ModifierContext, Context.ClassOrInterfaceModifierContext,
  Context.VariableModifierContext, Context.ClassDeclarationContext, Context.ClassExtendsContext,
  Context.ClassImplementsContext, Context.ClassPermitsContext, Context.TypeParametersContext,
  Context.TypeParameterContext, Context.TypeBoundContext, Context.EnumDeclarationContext,
  Context.EnumConstantsContext, Context.EnumConstantContext, Context.EnumBodyDeclarationsContext,
  Context.InterfaceDeclarationContext, Context.ClassBodyContext, Context.InterfaceBodyContext,
  Context.ClassBodyDeclarationContext, Context.MemberDeclarationContext,
  Context.MethodDeclarationContext, Context.DimsContext, Context.DimContext, Context.Throws_Context,
  Context.MethodBodyContext, Context.TypeTypeOrVoidContext, Context.ConstructorDeclarationContext,
  Context.CompactConstructorDeclarationContext, Context.FieldDeclarationContext,
  Context.InterfaceBodyDeclarationContext, Context.InterfaceMemberDeclarationContext,
  Context.ConstDeclarationContext, Context.InterfaceMethodModifierContext,
  Context.InterfaceMethodDeclarationContext, Context.VariableDeclaratorsContext,
  Context.VariableDeclaratorContext, Context.VariableDeclaratorIdContext,
  Context.VariableInitializerContext, Context.ArrayInitializerContext,
  Context.ClassOrInterfaceTypeContext, Context.CoitContext, Context.TypeArgumentContext,
  Context.QualifiedNameListContext, Context.FormalParametersContext,
  Context.ReceiverParameterContext, Context.FormalParameterListContext,
  Context.FormalParameterContext, Context.LastFormalParameterContext, Context.LambdaLVTIListContext,
  Context.LambdaLVTIParameterContext, Context.QualifiedNameContext, Context.LiteralContext,
  Context.IntegerLiteralContext, Context.FloatLiteralContext, Context.AnnotationContext,
  Context.ElementValuePairsContext, Context.ElementValuePairContext, Context.ElementValueContext,
  Context.ElementValueArrayInitializerContext, Context.AnnotationTypeDeclarationContext,
  Context.AnnotationTypeBodyContext, Context.AnnotationTypeElementDeclarationContext,
  Context.AnnotationTypeElementRestContext, Context.AnnotationConstantDeclarationContext,
  Context.AnnotationMethodDeclarationContext, Context.DefaultValueContext,
  Context.ModuleDeclarationContext, Context.ModuleBodyContext, Context.ModuleDirectiveContext,
  Context.RequiresModifierContext, Context.RecordDeclarationContext,
  Context.RecordComponentListContext, Context.RecordComponentContext, Context.RecordBodyContext,
  Context.RecordBodyDeclarationContext, Context.BlockContext, Context.BlockStatementContext,
  Context.LocalVariableDeclarationContext, Context.IdentifierContext, Context.TypeIdentifierContext,
  Context.LocalTypeDeclarationContext, Context.StatementContext, Context.SwitchBlockContext,
  Context.CatchClauseContext, Context.CatchTypeContext, Context.FinallyBlockContext,
  Context.ResourceSpecificationContext, Context.ResourcesContext, Context.ResourceContext,
  Context.SwitchBlockStatementGroupContext, Context.SwitchLabelContext, Context.ForInitContext,
  Context.ParExpressionContext, Context.ExpressionListContext, Context.MethodCallContext,
  Context.PostfixExpressionContext, Context.PrefixExpressionContext, Context.TypeExpressionContext,
  Context.MultiplicativeExpressionContext, Context.AdditiveExpressionContext,
  Context.ShiftExpressionContext, Context.RelationalExpressionContext,
  Context.EqualityExpressionContext, Context.BitwiseAndExpressionContext,
  Context.BitwiseXorExpressionContext, Context.BitwiseOrExpressionContext,
  Context.LogicalAndExpressionContext, Context.LogicalOrExpressionContext,
  Context.TernaryExpressionContext, Context.AssignmentExpressionContext, Context.ExpressionContext,
  Context.PatternContext, Context.LambdaExpressionContext, Context.LambdaParametersContext,
  Context.LambdaBodyContext, Context.PrimaryContext,
  Context.ExplicitGenericInvocationExpressionContext, Context.ThisExpressionContext,
  Context.MemberReferenceExpressionContext, Context.MethodCallExpressionContext,
  Context.MethodReferenceExpressionContext, Context.ParExprContext,
  Context.LiteralExpressionContext, Context.ClassExpressionContext, Context.SuperExpressionContext,
  Context.ArrayAccessExpressionContext, Context.IdentifierExpressionContext,
  Context.SwitchExpressionContext, Context.SwitchLabeledRuleContext, Context.GuardedPatternContext,
  Context.SwitchRuleOutcomeContext, Context.ClassTypeContext, Context.CreatorContext,
  Context.ObjectCreatorContext, Context.CreatedNameContext, Context.CoitDiamondContext,
  Context.InnerCreatorContext, Context.DimExprContext, Context.ArrayCreatorContext,
  Context.ExplicitGenericInvocationContext, Context.TypeArgumentsOrDiamondContext,
  Context.NonWildcardTypeArgumentsOrDiamondContext, Context.NonWildcardTypeArgumentsContext,
  Context.TypeListContext, Context.TypeTypeContext, Context.PrimitiveTypeContext,
  Context.TypeArgumentsContext, Context.SuperSuffixContext,
  Context.ExplicitGenericInvocationSuffixContext, Context.ArgumentsContext
]

/-- The forward declarations `class XContext;` that follow the enums, in source order. -/
def forwardDeclarations : List Context := [
  Context.CompilationUnitContext, Context.DeclarationStartContext, Context.StatementStartContext,
  Context.ExpressionStartContext, Context.DirectiveStartContext,
  Context.OrdinaryCompilationUnitContext, Context.ModularCompilationUnitContext,
  Context.PackageDeclarationContext, Context.ImportDeclarationContext,
  Context.TypeDeclarationContext, Context.ModifierContext, Context.ClassOrInterfaceModifierContext,
  Context.VariableModifierContext, Context.ClassDeclarationContext, Context.ClassExtendsContext,
  Context.ClassImplementsContext, Context.ClassPermitsContext, Context.TypeParametersContext,
  Context.TypeParameterContext, Context.TypeBoundContext, Context.EnumDeclarationContext,
  Context.EnumConstantsContext, Context.EnumConstantContext, Context.EnumBodyDeclarationsContext,
  Context.InterfaceDeclarationContext, Context.ClassBodyContext, Context.InterfaceBodyContext,
  Context.ClassBodyDeclarationContext, Context.MemberDeclarationContext,
  Context.MethodDeclarationContext, Context.DimsContext, Context.DimContext, Context.Throws_Context,
  Context.MethodBodyContext, Context.TypeTypeOrVoidContext, Context.ConstructorDeclarationContext,
  Context.CompactConstructorDeclarationContext, Context.FieldDeclarationContext,
  Context.InterfaceBodyDeclarationContext, Context.InterfaceMemberDeclarationContext,
  Context.ConstDeclarationContext, Context.InterfaceMethodModifierContext,
  Context.InterfaceMethodDeclarationContext, Context.VariableDeclaratorsContext,
  Context.VariableDeclaratorContext, Context.VariableDeclaratorIdContext,
  Context.VariableInitializerContext, Context.ArrayInitializerContext,
  Context.ClassOrInterfaceTypeContext, Context.CoitContext, Context.TypeArgumentContext,
  Context.QualifiedNameListContext, Context.FormalParametersContext,
  Context.ReceiverParameterContext, Context.FormalParameterListContext,
  Context.FormalParameterContext, Context.LastFormalParameterContext, Context.LambdaLVTIListContext,
  Context.LambdaLVTIParameterContext, Context.QualifiedNameContext, Context.LiteralContext,
  Context.IntegerLiteralContext, Context.FloatLiteralContext, Context.AnnotationContext,
  Context.ElementValuePairsContext, Context.ElementValuePairContext, Context.ElementValueContext,
  Context.ElementValueArrayInitializerContext, Context.AnnotationTypeDeclarationContext,
  Context.AnnotationTypeBodyContext, Context.AnnotationTypeElementDeclarationContext,
  Context.AnnotationTypeElementRestContext, Context.AnnotationConstantDeclarationContext,
  Context.AnnotationMethodDeclarationContext, Context.DefaultValueContext,
  Context.ModuleDeclarationContext, Context.ModuleBodyContext, Context.ModuleDirectiveContext,
  Context.RequiresModifierContext, Context.RecordDeclarationContext,
  Context.RecordComponentListContext, Context.RecordComponentContext, Context.RecordBodyContext,
  Context.RecordBodyDeclarationContext, Context.BlockContext, Context.BlockStatementContext,
  Context.LocalVariableDeclarationContext, Context.IdentifierContext, Context.TypeIdentifierContext,
  Context.LocalTypeDeclarationContext, Context.StatementContext, Context.SwitchBlockContext,
  Context.CatchClauseContext, Context.CatchTypeContext, Context.FinallyBlockContext,
  Context.ResourceSpecificationContext, Context.ResourcesContext, Context.ResourceContext,
  Context.SwitchBlockStatementGroupContext, Context.SwitchLabelContext, Context.ForInitContext,
  Context.ParExpressionContext, Context.ExpressionListContext, Context.MethodCallContext,
  Context.PostfixExpressionContext, Context.PrefixExpressionContext, Context.TypeExpressionContext,
  Context.MultiplicativeExpressionContext, Context.AdditiveExpressionContext,
  Context.ShiftExpressionContext, Context.RelationalExpressionContext,
  Context.EqualityExpressionContext, Context.BitwiseAndExpressionContext,
  Context.BitwiseXorExpressionContext, Context.BitwiseOrExpressionContext,
  Context.LogicalAndExpressionContext, Context.LogicalOrExpressionContext,
  Context.TernaryExpressionContext, Context.AssignmentExpressionContext, Context.ExpressionContext,
  Context.PatternContext, Context.LambdaExpressionContext, Context.LambdaParametersContext,
  Context.LambdaBodyContext, Context.PrimaryContext, Context.SwitchExpressionContext,
  Context.SwitchLabeledRuleContext, Context.GuardedPatternContext, Context.SwitchRuleOutcomeContext,
  Context.ClassTypeContext, Context.CreatorContext, Context.ObjectCreatorContext,
  Context.CreatedNameContext, Context.CoitDiamondContext, Context.InnerCreatorContext,
  Context.DimExprContext, Context.ArrayCreatorContext, Context.ExplicitGenericInvocationContext,
  Context.TypeArgumentsOrDiamondContext, Context.NonWildcardTypeArgumentsOrDiamondContext,
  Context.NonWildcardTypeArgumentsContext, Context.TypeListContext, Context.TypeTypeContext,
  Context.PrimitiveTypeContext, Context.TypeArgumentsContext, Context.SuperSuffixContext,
  Context.ExplicitGenericInvocationSuffixContext, Context.ArgumentsContext
]

/-- The context class named after a rule: `XContext` for `RuleX`. -/
def Rule.context : Rule → Context
  | Rule.RuleCompilationUnit => Context.CompilationUnitContext
  | Rule.RuleDeclarationStart => Context.DeclarationStartContext
  | Rule.RuleStatementStart => Context.StatementStartContext
  | Rule.RuleExpressionStart => Context.ExpressionStartContext
  | Rule.RuleDirectiveStart => Context.DirectiveStartContext
  | Rule.RuleOrdinaryCompilationUnit => Context.OrdinaryCompilationUnitContext
  | Rule.RuleModularCompilationUnit => Context.ModularCompilationUnitContext
  | Rule.RulePackageDeclaration => Context.PackageDeclarationContext
  | Rule.RuleImportDeclaration => Context.ImportDeclarationContext
  | Rule.RuleTypeDeclaration => Context.TypeDeclarationContext
  | Rule.RuleModifier => Context.ModifierContext
  | Rule.RuleClassOrInterfaceModifier => Context.ClassOrInterfaceModifierContext
  | Rule.RuleVariableModifier => Context.VariableModifierContext
  | Rule.RuleClassDeclaration => Context.ClassDeclarationContext
  | Rule.RuleClassExtends => Context.ClassExtendsContext
  | Rule.RuleClassImplements => Context.ClassImplementsContext
  | Rule.RuleClassPermits => Context.ClassPermitsContext
  | Rule.RuleTypeParameters => Context.TypeParametersContext
  | Rule.RuleTypeParameter => Context.TypeParameterContext
  | Rule.RuleTypeBound => Context.TypeBoundContext
  | Rule.RuleEnumDeclaration => Context.EnumDeclarationContext
  | Rule.RuleEnumConstants => Context.EnumConstantsContext
  | Rule.RuleEnumConstant => Context.EnumConstantContext
  | Rule.RuleEnumBodyDeclarations => Context.EnumBodyDeclarationsContext
  | Rule.RuleInterfaceDeclaration => Context.InterfaceDeclarationContext
  | Rule.RuleClassBody => Context.ClassBodyContext
  | Rule.RuleInterfaceBody => Context.InterfaceBodyContext
  | Rule.RuleClassBodyDeclaration => Context.ClassBodyDeclarationContext
  | Rule.RuleMemberDeclaration => Context.MemberDeclarationContext
  | Rule.RuleMethodDeclaration => Context.MethodDeclarationContext
  | Rule.RuleDims => Context.DimsContext
  | Rule.RuleDim => Context.DimContext
  | Rule.RuleThrows_ => Context.Throws_Context
  | Rule.RuleMethodBody => Context.MethodBodyContext
  | Rule.RuleTypeTypeOrVoid => Context.TypeTypeOrVoidContext
  | Rule.RuleConstructorDeclaration => Context.ConstructorDeclarationContext
  | Rule.RuleCompactConstructorDeclaration => Context.CompactConstructorDeclarationContext
  | Rule.RuleFieldDeclaration => Context.FieldDeclarationContext
  | Rule.RuleInterfaceBodyDeclaration => Context.InterfaceBodyDeclarationContext
  | Rule.RuleInterfaceMemberDeclaration => Context.InterfaceMemberDeclarationContext
  | Rule.RuleConstDeclaration => Context.ConstDeclarationContext
  | Rule.RuleInterfaceMethodModifier => Context.InterfaceMethodModifierContext
  | Rule.RuleInterfaceMethodDeclaration => Context.InterfaceMethodDeclarationContext
  | Rule.RuleVariableDeclarators => Context.VariableDeclaratorsContext
  | Rule.RuleVariableDeclarator => Context.VariableDeclaratorContext
  | Rule.RuleVariableDeclaratorId => Context.VariableDeclaratorIdContext
  | Rule.RuleVariableInitializer => Context.VariableInitializerContext
  | Rule.RuleArrayInitializer => Context.ArrayInitializerContext
  | Rule.RuleClassOrInterfaceType => Context.ClassOrInterfaceTypeContext
  | Rule.RuleCoit => Context.CoitContext
  | Rule.RuleTypeArgument => Context.TypeArgumentContext
  | Rule.RuleQualifiedNameList => Context.QualifiedNameListContext
  | Rule.RuleFormalParameters => Context.FormalParametersContext
  | Rule.RuleReceiverParameter => Context.ReceiverParameterContext
  | Rule.RuleFormalParameterList => Context.FormalParameterListContext
  | Rule.RuleFormalParameter => Context.FormalParameterContext
  | Rule.RuleLastFormalParameter => Context.LastFormalParameterContext
  | Rule.RuleLambdaLVTIList => Context.LambdaLVTIListContext
  | Rule.RuleLambdaLVTIParameter => Context.LambdaLVTIParameterContext
  | Rule.RuleQualifiedName => Context.QualifiedNameContext
  | Rule.RuleLiteral => Context.LiteralContext
  | Rule.RuleIntegerLiteral => Context.IntegerLiteralContext
  | Rule.RuleFloatLiteral => Context.FloatLiteralContext
  | Rule.RuleAnnotation => Context.AnnotationContext
  | Rule.RuleElementValuePairs => Context.ElementValuePairsContext
  | Rule.RuleElementValuePair => Context.ElementValuePairContext
  | Rule.RuleElementValue => Context.ElementValueContext
  | Rule.RuleElementValueArrayInitializer => Context.ElementValueArrayInitializerContext
  | Rule.RuleAnnotationTypeDeclaration => Context.AnnotationTypeDeclarationContext
  | Rule.RuleAnnotationTypeBody => Context.AnnotationTypeBodyContext
  | Rule.RuleAnnotationTypeElementDeclaration => Context.AnnotationTypeElementDeclarationContext
  | Rule.RuleAnnotationTypeElementRest => Context.AnnotationTypeElementRestContext
  | Rule.RuleAnnotationConstantDeclaration => Context.AnnotationConstantDeclarationContext
  | Rule.RuleAnnotationMethodDeclaration => Context.AnnotationMethodDeclarationContext
  | Rule.RuleDefaultValue => Context.DefaultValueContext
  | Rule.RuleModuleDeclaration => Context.ModuleDeclarationContext
  | Rule.RuleModuleBody => Context.ModuleBodyContext
  | Rule.RuleModuleDirective => Context.ModuleDirectiveContext
  | Rule.RuleRequiresModifier => Context.RequiresModifierContext
  | Rule.RuleRecordDeclaration => Context.RecordDeclarationContext
  | Rule.RuleRecordComponentList => Context.RecordComponentListContext
  | Rule.RuleRecordComponent => Context.RecordComponentContext
  | Rule.RuleRecordBody => Context.RecordBodyContext
  | Rule.RuleRecordBodyDeclaration => Context.RecordBodyDeclarationContext
  | Rule.RuleBlock => Context.BlockContext
  | Rule.RuleBlockStatement => Context.BlockStatementContext
  | Rule.RuleLocalVariableDeclaration => Context.LocalVariableDeclarationContext
  | Rule.RuleIdentifier => Context.IdentifierContext
  | Rule.RuleTypeIdentifier => Context.TypeIdentifierContext
  | Rule.RuleLocalTypeDeclaration => Context.LocalTypeDeclarationContext
  | Rule.RuleStatement => Context.StatementContext
  | Rule.RuleSwitchBlock => Context.SwitchBlockContext
  | Rule.RuleCatchClause => Context.CatchClauseContext
  | Rule.RuleCatchType => Context.CatchTypeContext
  | Rule.RuleFinallyBlock => Context.FinallyBlockContext
  | Rule.RuleResourceSpecification => Context.ResourceSpecificationContext
  | Rule.RuleResources => Context.ResourcesContext
  | Rule.RuleResource => Context.ResourceContext
  | Rule.RuleSwitchBlockStatementGroup => Context.SwitchBlockStatementGroupContext
  | Rule.RuleSwitchLabel => Context.SwitchLabelContext
  | Rule.RuleForInit => Context.ForInitContext
  | Rule.RuleParExpression => Context.ParExpressionContext
  | Rule.RuleExpressionList => Context.ExpressionListContext
  | Rule.RuleMethodCall => Context.MethodCallContext
  | Rule.RulePostfixExpression => Context.PostfixExpressionContext
  | Rule.RulePrefixExpression => Context.PrefixExpressionContext
  | Rule.RuleTypeExpression => Context.TypeExpressionContext
  | Rule.RuleMultiplicativeExpression => Context.MultiplicativeExpressionContext
  | Rule.RuleAdditiveExpression => Context.AdditiveExpressionContext
  | Rule.RuleShiftExpression => Context.ShiftExpressionContext
  | Rule.RuleRelationalExpression => Context.RelationalExpressionContext
  | Rule.RuleEqualityExpression => Context.EqualityExpressionContext
  | Rule.RuleBitwiseAndExpression => Context.BitwiseAndExpressionContext
  | Rule.RuleBitwiseXorExpression => Context.BitwiseXorExpressionContext
  | Rule.RuleBitwiseOrExpression => Context.BitwiseOrExpressionContext
  | Rule.RuleLogicalAndExpression => Context.LogicalAndExpressionContext
  | Rule.RuleLogicalOrExpression => Context.LogicalOrExpressionContext
  | Rule.RuleTernaryExpression => Context.TernaryExpressionContext
  | Rule.RuleAssignmentExpression => Context.AssignmentExpressionContext
  | Rule.RuleExpression => Context.ExpressionContext
  | Rule.RulePattern => Context.PatternContext
  | Rule.RuleLambdaExpression => Context.LambdaExpressionContext
  | Rule.RuleLambdaParameters => Context.LambdaParametersContext
  | Rule.RuleLambdaBody => Context.LambdaBodyContext
  | Rule.RulePrimary => Context.PrimaryContext
  | Rule.RuleSwitchExpression => Context.SwitchExpressionContext
  | Rule.RuleSwitchLabeledRule => Context.SwitchLabeledRuleContext
  | Rule.RuleGuardedPattern => Context.GuardedPatternContext
  | Rule.RuleSwitchRuleOutcome => Context.SwitchRuleOutcomeContext
  | Rule.RuleClassType => Context.ClassTypeContext
  | Rule.RuleCreator => Context.CreatorContext
  | Rule.RuleObjectCreator => Context.ObjectCreatorContext
  | Rule.RuleCreatedName => Context.CreatedNameContext
  | Rule.RuleCoitDiamond => Context.CoitDiamondContext
  | Rule.RuleInnerCreator => Context.InnerCreatorContext
  | Rule.RuleDimExpr => Context.DimExprContext
  | Rule.RuleArrayCreator => Context.ArrayCreatorContext
  | Rule.RuleExplicitGenericInvocation => Context.ExplicitGenericInvocationContext
  | Rule.RuleTypeArgumentsOrDiamond => Context.TypeArgumentsOrDiamondContext
  | Rule.RuleNonWildcardTypeArgumentsOrDiamond => Context.NonWildcardTypeArgumentsOrDiamondContext
  | Rule.RuleNonWildcardTypeArguments => Context.NonWildcardTypeArgumentsContext
  | Rule.RuleTypeList => Context.TypeListContext
  | Rule.RuleTypeType => Context.TypeTypeContext
  | Rule.RulePrimitiveType => Context.PrimitiveTypeContext
  | Rule.RuleTypeArguments => Context.TypeArgumentsContext
  | Rule.RuleSuperSuffix => Context.SuperSuffixContext
  | Rule.RuleExplicitGenericInvocationSuffix => Context.ExplicitGenericInvocationSuffixContext
  | Rule.RuleArguments => Context.ArgumentsContext

/-- The three shapes in which a context class declares a child accessor:
`T *t();`, `std::vector<T *> t();` and `T* t(size_t i);`. -/
inductive AccessorForm
  | single
  | vector
  | indexed
  deriving DecidableEq, Repr

/-- What an accessor returns a pointer to: the terminal node of a token type
(`antlr4::tree::TerminalNode *X()`), the terminal node of the end of input
(`antlr4::tree::TerminalNode *EOF()`), or a context (`TContext *t()`). The name of the accessor
is the name of the token type, `EOF`, or the name of the class without `Context` and with a
small initial. -/
inductive Target
  | terminal (type : TokenType)
  | EOF
  | context (cls : Context)
  deriving DecidableEq, Repr

/-- One accessor declaration of a context class: its shape and what it returns. -/
structure Accessor where
  form : AccessorForm
  target : Target
  deriving DecidableEq, Repr

/-- The two constructors the context classes declare:
`XContext(antlr4::ParserRuleContext *parent, size_t invokingState)` and, for a labelled
alternative of `primary`, `XContext(PrimaryContext *ctx)`. -/
inductive Constructor
  | fromParent
  | fromPrimary
  deriving DecidableEq, Repr

/-- The parameters of a constructor as (type, name). -/
def Constructor.params : Constructor → List (String × String)
  | Constructor.fromParent =>
    [("antlr4::ParserRuleContext *", "parent"), ("size_t", "invokingState")]
  | Constructor.fromPrimary => [("PrimaryContext *", "ctx")]

/-- One definition `class XContext : public B` of `JavaParser.h`: the base class (`none` for
`antlr4::ParserRuleContext` of the runtime), the declared constructor, whether
`XContext() = default;` and `copyFrom` are declared, the labelled members `T *x = nullptr;` as
(pointee type, name), whether `getRuleIndex` is overridden, the child accessors in source order
and whether `accept` is overridden. -/
structure ContextClass where
  base : Option Context
  ctor : Constructor
  defaultCtor : Bool
  copyFrom : Bool
  labels : List (String × String)
  getRuleIndex : Bool
  accessors : List Accessor
  accept : Bool
  deriving DecidableEq, Repr

/-- Accessor `TContext *t();`. -/
def one (cls : Context) : Accessor := ⟨AccessorForm.single, Target.context cls⟩

/-- Accessor `antlr4::tree::TerminalNode *X();`. -/
def tok (type : TokenType) : Accessor := ⟨AccessorForm.single, Target.terminal type⟩

/-- Accessor `antlr4::tree::TerminalNode *EOF();`. -/
def eof : Accessor := ⟨AccessorForm.single, Target.EOF⟩

/-- The pair of accessors `std::vector<TContext *> t();` and `TContext* t(size_t i);`. -/
def many (cls : Context) : List Accessor :=
  [⟨AccessorForm.vector, Target.context cls⟩, ⟨AccessorForm.indexed, Target.context cls⟩]

/-- The pair `std::vector<antlr4::tree::TerminalNode *> X();` and
`antlr4::tree::TerminalNode* X(size_t i);`. -/
def toks (type : TokenType) : List Accessor :=
  [⟨AccessorForm.vector, Target.terminal type⟩, ⟨AccessorForm.indexed, Target.terminal type⟩]

/-- A context class of a production: it derives from `antlr4::ParserRuleContext`, is
constructed by `XContext(antlr4::ParserRuleContext *parent, size_t invokingState)` and
overrides `getRuleIndex` and `accept`. -/
def ruleContext (labels : List (String × String)) (accessors : List (List Accessor)) :
    ContextClass where
  base := none
  ctor := Constructor.fromParent
  defaultCtor := false
  copyFrom := false
  labels := labels
  getRuleIndex := true
  accessors := accessors.flatten
  accept := true

/-- A labelled alternative of `primary`: it derives from `PrimaryContext`, is constructed by
`XContext(PrimaryContext *ctx)`, overrides `accept` and not `getRuleIndex`. -/
def primaryAlternative (labels : List (String × String)) (accessors : List (List Accessor)) :
    ContextClass where
  base := some Context.PrimaryContext
  ctor := Constructor.fromPrimary
  defaultCtor := false
  copyFrom := false
  labels := labels
  getRuleIndex := false
  accessors := accessors.flatten
  accept := true

/-- Class `PrimaryContext`, the one class that is constructible by default, declares `copyFrom`
and does not override `accept`: the nodes of `primary` are its labelled alternatives. -/
def primaryContext : ContextClass where
  base := none
  ctor := Constructor.fromParent
  defaultCtor := true
  copyFrom := true
  labels := []
  getRuleIndex := true
  accessors := []
  accept := false

/-- What the definition of each context class declares. -/
def Context.declaration : Context → ContextClass
  | Context.CompilationUnitContext => ruleContext [] [
      [one Context.OrdinaryCompilationUnitContext], [eof],
      [one Context.ModularCompilationUnitContext]]
  | Context.DeclarationStartContext => ruleContext [] [
      [one Context.PackageDeclarationContext], [eof], [one Context.ImportDeclarationContext],
      [one Context.ModuleDeclarationContext], [one Context.FieldDeclarationContext],
      many Context.ModifierContext, [one Context.MethodDeclarationContext],
      [one Context.InterfaceMethodDeclarationContext], [one Context.BlockContext],
      [tok TokenType.STATIC], [one Context.ConstructorDeclarationContext],
      [one Context.CompactConstructorDeclarationContext],
      [one Context.AnnotationMethodDeclarationContext], [one Context.InterfaceDeclarationContext],
      [one Context.AnnotationTypeDeclarationContext], [one Context.ClassDeclarationContext],
      [one Context.EnumDeclarationContext], [one Context.RecordDeclarationContext],
      [tok TokenType.SEMI]]
  | Context.StatementStartContext => ruleContext [] [[one Context.BlockStatementContext], [eof]]
  | Context.ExpressionStartContext => ruleContext [] [[one Context.ExpressionContext], [eof]]
  | Context.DirectiveStartContext => ruleContext [] [[one Context.ModuleDirectiveContext], [eof]]
  | Context.OrdinaryCompilationUnitContext => ruleContext [] [
      [one Context.PackageDeclarationContext], many Context.ImportDeclarationContext,
      toks TokenType.SEMI, many Context.TypeDeclarationContext]
  | Context.ModularCompilationUnitContext => ruleContext [] [
      [one Context.ModuleDeclarationContext], many Context.ImportDeclarationContext,
      toks TokenType.SEMI]
  | Context.PackageDeclarationContext => ruleContext [] [
      [tok TokenType.PACKAGE], [one Context.QualifiedNameContext], [tok TokenType.SEMI],
      many Context.AnnotationContext]
  | Context.ImportDeclarationContext => ruleContext [] [
      [tok TokenType.IMPORT], [one Context.QualifiedNameContext], [tok TokenType.SEMI],
      [tok TokenType.STATIC], [tok TokenType.DOT], [tok TokenType.MUL]]
  | Context.TypeDeclarationContext => ruleContext [] [
      [one Context.ClassDeclarationContext], [one Context.EnumDeclarationContext],
      [one Context.InterfaceDeclarationContext], [one Context.AnnotationTypeDeclarationContext],
      [one Context.RecordDeclarationContext], many Context.ClassOrInterfaceModifierContext]
  | Context.ModifierContext => ruleContext [] [
      [one Context.ClassOrInterfaceModifierContext], [tok TokenType.NATIVE],
      [tok TokenType.SYNCHRONIZED], [tok TokenType.TRANSIENT], [tok TokenType.VOLATILE]]
  | Context.ClassOrInterfaceModifierContext => ruleContext [] [
      [one Context.AnnotationContext], [tok TokenType.PUBLIC], [tok TokenType.PROTECTED],
      [tok TokenType.PRIVATE], [tok TokenType.STATIC], [tok TokenType.ABSTRACT],
      [tok TokenType.FINAL], [tok TokenType.STRICTFP], [tok TokenType.SEALED],
      [tok TokenType.NON_SEALED]]
  | Context.VariableModifierContext => ruleContext [] [
      [tok TokenType.FINAL], [one Context.AnnotationContext]]
  | Context.ClassDeclarationContext => ruleContext [] [
      [tok TokenType.CLASS], [one Context.IdentifierContext], [one Context.ClassBodyContext],
      [one Context.TypeParametersContext], [one Context.ClassExtendsContext],
      [one Context.ClassImplementsContext], [one Context.ClassPermitsContext]]
  | Context.ClassExtendsContext => ruleContext [] [
      [tok TokenType.EXTENDS], [one Context.TypeTypeContext]]
  | Context.ClassImplementsContext => ruleContext [] [
      [tok TokenType.IMPLEMENTS], [one Context.TypeListContext]]
  | Context.ClassPermitsContext => ruleContext [] [
      [tok TokenType.PERMITS], [one Context.TypeListContext]]
  | Context.TypeParametersContext => ruleContext [] [
      [tok TokenType.LT], many Context.TypeParameterContext, [tok TokenType.GT],
      toks TokenType.COMMA]
  | Context.TypeParameterContext => ruleContext [] [
      [one Context.IdentifierContext], many Context.AnnotationContext, [tok TokenType.EXTENDS],
      [one Context.TypeBoundContext]]
  | Context.TypeBoundContext => ruleContext [] [
      many Context.TypeTypeContext, many Context.AnnotationContext, toks TokenType.BITAND]
  | Context.EnumDeclarationContext => ruleContext [] [
      [tok TokenType.ENUM], [one Context.IdentifierContext], [tok TokenType.LBRACE],
      [tok TokenType.RBRACE], [one Context.ClassImplementsContext],
      [one Context.EnumConstantsContext], [tok TokenType.COMMA],
      [one Context.EnumBodyDeclarationsContext]]
  | Context.EnumConstantsContext => ruleContext [] [
      many Context.EnumConstantContext, toks TokenType.COMMA]
  | Context.EnumConstantContext => ruleContext [] [
      [one Context.IdentifierContext], many Context.AnnotationContext,
      [one Context.ArgumentsContext], [one Context.ClassBodyContext]]
  | Context.EnumBodyDeclarationsContext => ruleContext [] [
      [tok TokenType.SEMI], many Context.ClassBodyDeclarationContext]
  | Context.InterfaceDeclarationContext => ruleContext [] [
      [tok TokenType.INTERFACE], [one Context.IdentifierContext],
      [one Context.InterfaceBodyContext], [one Context.TypeParametersContext],
      [one Context.ClassExtendsContext], [one Context.ClassImplementsContext]]
  | Context.ClassBodyContext => ruleContext [] [
      [tok TokenType.LBRACE], [tok TokenType.RBRACE], many Context.ClassBodyDeclarationContext]
  | Context.InterfaceBodyContext => ruleContext [] [
      [tok TokenType.LBRACE], [tok TokenType.RBRACE], many Context.InterfaceBodyDeclarationContext]
  | Context.ClassBodyDeclarationContext => ruleContext [] [
      [tok TokenType.SEMI], [one Context.BlockContext], [tok TokenType.STATIC],
      [one Context.MemberDeclarationContext], many Context.ModifierContext]
  | Context.MemberDeclarationContext => ruleContext [] [
      [one Context.RecordDeclarationContext], [one Context.MethodDeclarationContext],
      [one Context.FieldDeclarationContext], [one Context.ConstructorDeclarationContext],
      [one Context.InterfaceDeclarationContext], [one Context.AnnotationTypeDeclarationContext],
      [one Context.ClassDeclarationContext], [one Context.EnumDeclarationContext]]
  | Context.MethodDeclarationContext => ruleContext [] [
      [one Context.TypeTypeOrVoidContext], [one Context.IdentifierContext],
      [one Context.FormalParametersContext], [one Context.MethodBodyContext],
      [one Context.TypeParametersContext], [one Context.DimsContext], [one Context.Throws_Context]]
  | Context.DimsContext => ruleContext [] [many Context.DimContext]
  | Context.DimContext => ruleContext [] [
      [tok TokenType.LBRACK], [tok TokenType.RBRACK], many Context.AnnotationContext]
  | Context.Throws_Context => ruleContext [] [
      [tok TokenType.THROWS], [one Context.QualifiedNameListContext]]
  | Context.MethodBodyContext => ruleContext [] [[one Context.BlockContext], [tok TokenType.SEMI]]
  | Context.TypeTypeOrVoidContext => ruleContext [] [
      [one Context.TypeTypeContext], [tok TokenType.VOID]]
  | Context.ConstructorDeclarationContext => ruleContext [("JavaParser::BlockContext", "constructorBody")] [
      [one Context.IdentifierContext], [one Context.FormalParametersContext],
      [one Context.BlockContext], [one Context.TypeParametersContext], [one Context.Throws_Context]]
  | Context.CompactConstructorDeclarationContext => ruleContext [("JavaParser::BlockContext", "constructorBody")] [
      [one Context.IdentifierContext], [one Context.BlockContext], many Context.ModifierContext]
  | Context.FieldDeclarationContext => ruleContext [] [
      [one Context.TypeTypeContext], [one Context.VariableDeclaratorsContext], [tok TokenType.SEMI]]
  | Context.InterfaceBodyDeclarationContext => ruleContext [] [
      [one Context.InterfaceMemberDeclarationContext], many Context.ModifierContext,
      [tok TokenType.SEMI]]
  | Context.InterfaceMemberDeclarationContext => ruleContext [] [
      [one Context.RecordDeclarationContext], [one Context.ConstDeclarationContext],
      [one Context.InterfaceMethodDeclarationContext], [one Context.InterfaceDeclarationContext],
      [one Context.AnnotationTypeDeclarationContext], [one Context.ClassDeclarationContext],
      [one Context.EnumDeclarationContext]]
  | Context.ConstDeclarationContext => ruleContext [] [
      [one Context.TypeTypeContext], [one Context.VariableDeclaratorsContext], [tok TokenType.SEMI]]
  | Context.InterfaceMethodModifierContext => ruleContext [] [
      [one Context.AnnotationContext], [tok TokenType.PUBLIC], [tok TokenType.ABSTRACT],
      [tok TokenType.DEFAULT], [tok TokenType.STATIC], [tok TokenType.STRICTFP]]
  | Context.InterfaceMethodDeclarationContext => ruleContext [] [
      [one Context.TypeTypeOrVoidContext], [one Context.IdentifierContext],
      [one Context.FormalParametersContext], [one Context.MethodBodyContext],
      many Context.InterfaceMethodModifierContext, [one Context.TypeParametersContext],
      many Context.AnnotationContext, [one Context.DimsContext], [one Context.Throws_Context]]
  | Context.VariableDeclaratorsContext => ruleContext [] [
      many Context.VariableDeclaratorContext, toks TokenType.COMMA]
  | Context.VariableDeclaratorContext => ruleContext [] [
      [one Context.VariableDeclaratorIdContext], [tok TokenType.ASSIGN],
      [one Context.VariableInitializerContext]]
  | Context.VariableDeclaratorIdContext => ruleContext [] [
      [one Context.IdentifierContext], [one Context.DimsContext]]
  | Context.VariableInitializerContext => ruleContext [] [
      [one Context.ArrayInitializerContext], [one Context.ExpressionContext]]
  | Context.ArrayInitializerContext => ruleContext [] [
      [tok TokenType.LBRACE], [tok TokenType.RBRACE], many Context.VariableInitializerContext,
      toks TokenType.COMMA]
  | Context.ClassOrInterfaceTypeContext => ruleContext [] [
      many Context.CoitContext, toks TokenType.DOT]
  | Context.CoitContext => ruleContext [] [
      [one Context.TypeIdentifierContext], [one Context.TypeArgumentsContext]]
  | Context.TypeArgumentContext => ruleContext [] [
      [one Context.TypeTypeContext], [tok TokenType.QUESTION], many Context.AnnotationContext,
      [tok TokenType.EXTENDS], [tok TokenType.SUPER]]
  | Context.QualifiedNameListContext => ruleContext [] [
      many Context.QualifiedNameContext, toks TokenType.COMMA]
  | Context.FormalParametersContext => ruleContext [] [
      [tok TokenType.LPAREN], [tok TokenType.RPAREN], [one Context.ReceiverParameterContext],
      [tok TokenType.COMMA], [one Context.FormalParameterListContext]]
  | Context.ReceiverParameterContext => ruleContext [] [
      [one Context.TypeTypeContext], [tok TokenType.THIS], many Context.IdentifierContext,
      toks TokenType.DOT]
  | Context.FormalParameterListContext => ruleContext [] [
      many Context.FormalParameterContext, toks TokenType.COMMA,
      [one Context.LastFormalParameterContext]]
  | Context.FormalParameterContext => ruleContext [] [
      [one Context.TypeTypeContext], [one Context.VariableDeclaratorIdContext],
      many Context.VariableModifierContext]
  | Context.LastFormalParameterContext => ruleContext [] [
      [one Context.TypeTypeContext], [tok TokenType.ELLIPSIS],
      [one Context.VariableDeclaratorIdContext], many Context.VariableModifierContext,
      many Context.AnnotationContext]
  | Context.LambdaLVTIListContext => ruleContext [] [
      many Context.LambdaLVTIParameterContext, toks TokenType.COMMA]
  | Context.LambdaLVTIParameterContext => ruleContext [] [
      [tok TokenType.VAR], [one Context.IdentifierContext], many Context.VariableModifierContext]
  | Context.QualifiedNameContext => ruleContext [] [
      many Context.IdentifierContext, toks TokenType.DOT]
  | Context.LiteralContext => ruleContext [] [
      [one Context.IntegerLiteralContext], [one Context.FloatLiteralContext],
      [tok TokenType.CHAR_LITERAL], [tok TokenType.STRING_LITERAL], [tok TokenType.BOOL_LITERAL],
      [tok TokenType.NULL_LITERAL], [tok TokenType.TEXT_BLOCK]]
  | Context.IntegerLiteralContext => ruleContext [] [
      [tok TokenType.DECIMAL_LITERAL], [tok TokenType.HEX_LITERAL], [tok TokenType.OCT_LITERAL],
      [tok TokenType.BINARY_LITERAL]]
  | Context.FloatLiteralContext => ruleContext [] [
      [tok TokenType.FLOAT_LITERAL], [tok TokenType.HEX_FLOAT_LITERAL]]
  | Context.AnnotationContext => ruleContext [] [
      [tok TokenType.AT], [one Context.QualifiedNameContext], [tok TokenType.LPAREN],
      [tok TokenType.RPAREN], [one Context.ElementValuePairsContext],
      [one Context.ElementValueContext]]
  | Context.ElementValuePairsContext => ruleContext [] [
      many Context.ElementValuePairContext, toks TokenType.COMMA]
  | Context.ElementValuePairContext => ruleContext [] [
      [one Context.IdentifierContext], [tok TokenType.ASSIGN], [one Context.ElementValueContext]]
  | Context.ElementValueContext => ruleContext [] [
      [one Context.ExpressionContext], [one Context.AnnotationContext],
      [one Context.ElementValueArrayInitializerContext]]
  | Context.ElementValueArrayInitializerContext => ruleContext [] [
      [tok TokenType.LBRACE], [tok TokenType.RBRACE], many Context.ElementValueContext,
      toks TokenType.COMMA]
  | Context.AnnotationTypeDeclarationContext => ruleContext [] [
      [tok TokenType.AT], [tok TokenType.INTERFACE], [one Context.IdentifierContext],
      [one Context.AnnotationTypeBodyContext]]
  | Context.AnnotationTypeBodyContext => ruleContext [] [
      [tok TokenType.LBRACE], [tok TokenType.RBRACE],
      many Context.AnnotationTypeElementDeclarationContext]
  | Context.AnnotationTypeElementDeclarationContext => ruleContext [] [
      [one Context.AnnotationTypeElementRestContext], many Context.ModifierContext,
      [tok TokenType.SEMI]]
  | Context.AnnotationTypeElementRestContext => ruleContext [] [
      [one Context.AnnotationConstantDeclarationContext],
      [one Context.AnnotationMethodDeclarationContext], [one Context.ClassDeclarationContext],
      [tok TokenType.SEMI], [one Context.InterfaceDeclarationContext],
      [one Context.EnumDeclarationContext], [one Context.AnnotationTypeDeclarationContext],
      [one Context.RecordDeclarationContext]]
  | Context.AnnotationConstantDeclarationContext => ruleContext [] [
      [one Context.TypeTypeContext], [one Context.VariableDeclaratorsContext], [tok TokenType.SEMI]]
  | Context.AnnotationMethodDeclarationContext => ruleContext [] [
      [one Context.TypeTypeContext], [one Context.IdentifierContext], [tok TokenType.LPAREN],
      [tok TokenType.RPAREN], [tok TokenType.SEMI], [one Context.DefaultValueContext]]
  | Context.DefaultValueContext => ruleContext [] [
      [tok TokenType.DEFAULT], [one Context.ElementValueContext]]
  | Context.ModuleDeclarationContext => ruleContext [] [
      [tok TokenType.MODULE], [one Context.QualifiedNameContext], [one Context.ModuleBodyContext],
      [tok TokenType.OPEN]]
  | Context.ModuleBodyContext => ruleContext [] [
      [tok TokenType.LBRACE], [tok TokenType.RBRACE], many Context.ModuleDirectiveContext]
  | Context.ModuleDirectiveContext => ruleContext [] [
      [tok TokenType.REQUIRES], many Context.QualifiedNameContext, [tok TokenType.SEMI],
      many Context.RequiresModifierContext, [tok TokenType.EXPORTS], [tok TokenType.TO],
      [tok TokenType.OPENS], [tok TokenType.USES], [tok TokenType.PROVIDES], [tok TokenType.WITH]]
  | Context.RequiresModifierContext => ruleContext [] [
      [tok TokenType.TRANSITIVE], [tok TokenType.STATIC]]
  | Context.RecordDeclarationContext => ruleContext [] [
      [tok TokenType.RECORD], [one Context.IdentifierContext], [tok TokenType.LPAREN],
      [tok TokenType.RPAREN], [one Context.RecordBodyContext], [one Context.TypeParametersContext],
      [one Context.RecordComponentListContext], [one Context.ClassImplementsContext]]
  | Context.RecordComponentListContext => ruleContext [] [
      many Context.RecordComponentContext, toks TokenType.COMMA]
  | Context.RecordComponentContext => ruleContext [] [
      [one Context.TypeTypeContext], [one Context.IdentifierContext]]
  | Context.RecordBodyContext => ruleContext [] [
      [tok TokenType.LBRACE], [tok TokenType.RBRACE], many Context.RecordBodyDeclarationContext]
  | Context.RecordBodyDeclarationContext => ruleContext [] [
      [one Context.ClassBodyDeclarationContext], [one Context.CompactConstructorDeclarationContext]]
  | Context.BlockContext => ruleContext [] [
      [tok TokenType.LBRACE], [tok TokenType.RBRACE], many Context.BlockStatementContext]
  | Context.BlockStatementContext => ruleContext [] [
      [one Context.LocalVariableDeclarationContext], [tok TokenType.SEMI],
      [one Context.LocalTypeDeclarationContext], [one Context.StatementContext]]
  | Context.LocalVariableDeclarationContext => ruleContext [] [
      [tok TokenType.VAR], [one Context.IdentifierContext], [tok TokenType.ASSIGN],
      [one Context.ExpressionContext], [one Context.TypeTypeContext],
      [one Context.VariableDeclaratorsContext], many Context.VariableModifierContext]
  | Context.IdentifierContext => ruleContext [] [
      [tok TokenType.IDENTIFIER], [tok TokenType.MODULE], [tok TokenType.OPEN],
      [tok TokenType.REQUIRES], [tok TokenType.EXPORTS], [tok TokenType.OPENS], [tok TokenType.TO],
      [tok TokenType.USES], [tok TokenType.PROVIDES], [tok TokenType.WITH],
      [tok TokenType.TRANSITIVE], [tok TokenType.YIELD], [tok TokenType.SEALED],
      [tok TokenType.PERMITS], [tok TokenType.RECORD], [tok TokenType.VAR]]
  | Context.TypeIdentifierContext => ruleContext [] [
      [tok TokenType.IDENTIFIER], [tok TokenType.MODULE], [tok TokenType.OPEN],
      [tok TokenType.REQUIRES], [tok TokenType.EXPORTS], [tok TokenType.OPENS], [tok TokenType.TO],
      [tok TokenType.USES], [tok TokenType.PROVIDES], [tok TokenType.WITH],
      [tok TokenType.TRANSITIVE], [tok TokenType.SEALED], [tok TokenType.PERMITS],
      [tok TokenType.RECORD]]
  | Context.LocalTypeDeclarationContext => ruleContext [] [
      [one Context.ClassDeclarationContext], [one Context.InterfaceDeclarationContext],
      [one Context.RecordDeclarationContext], many Context.ClassOrInterfaceModifierContext]
  | Context.StatementContext => ruleContext [("JavaParser::BlockContext", "blockLabel"), ("JavaParser::ExpressionListContext", "forUpdate"), ("JavaParser::ExpressionContext", "statementExpression"), ("JavaParser::IdentifierContext", "identifierLabel")] [
      [one Context.BlockContext], [tok TokenType.ASSERT], many Context.ExpressionContext,
      toks TokenType.SEMI, [tok TokenType.COLON], [tok TokenType.IF],
      [one Context.ParExpressionContext], many Context.StatementContext, [tok TokenType.ELSE],
      [tok TokenType.FOR], [tok TokenType.LPAREN], [tok TokenType.RPAREN],
      [one Context.ForInitContext], [one Context.ExpressionListContext],
      [one Context.VariableDeclaratorIdContext], [one Context.TypeTypeContext], [tok TokenType.VAR],
      many Context.VariableModifierContext, [tok TokenType.WHILE], [tok TokenType.DO],
      [tok TokenType.TRY], [one Context.FinallyBlockContext], many Context.CatchClauseContext,
      [one Context.ResourceSpecificationContext], [tok TokenType.SWITCH],
      [one Context.SwitchBlockContext], [tok TokenType.SYNCHRONIZED], [tok TokenType.RETURN],
      [tok TokenType.THROW], [tok TokenType.BREAK], [one Context.IdentifierContext],
      [tok TokenType.CONTINUE], [tok TokenType.YIELD]]
  | Context.SwitchBlockContext => ruleContext [] [
      [tok TokenType.LBRACE], [tok TokenType.RBRACE], many Context.SwitchBlockStatementGroupContext,
      many Context.SwitchLabelContext]
  | Context.CatchClauseContext => ruleContext [] [
      [tok TokenType.CATCH], [tok TokenType.LPAREN], [one Context.CatchTypeContext],
      [one Context.IdentifierContext], [tok TokenType.RPAREN], [one Context.BlockContext],
      many Context.VariableModifierContext]
  | Context.CatchTypeContext => ruleContext [] [
      many Context.QualifiedNameContext, toks TokenType.BITOR]
  | Context.FinallyBlockContext => ruleContext [] [
      [tok TokenType.FINALLY], [one Context.BlockContext]]
  | Context.ResourceSpecificationContext => ruleContext [] [
      [tok TokenType.LPAREN], [one Context.ResourcesContext], [tok TokenType.RPAREN],
      [tok TokenType.SEMI]]
  | Context.ResourcesContext => ruleContext [] [many Context.ResourceContext, toks TokenType.SEMI]
  | Context.ResourceContext => ruleContext [] [
      [tok TokenType.ASSIGN], [one Context.ExpressionContext],
      [one Context.ClassOrInterfaceTypeContext], [one Context.VariableDeclaratorIdContext],
      [tok TokenType.VAR], [one Context.IdentifierContext], many Context.VariableModifierContext,
      [one Context.QualifiedNameContext]]
  | Context.SwitchBlockStatementGroupContext => ruleContext [] [
      many Context.SwitchLabelContext, many Context.BlockStatementContext]
  | Context.SwitchLabelContext => ruleContext [("JavaParser::ExpressionContext", "constantExpression"), ("JavaParser::IdentifierContext", "varName")] [
      [tok TokenType.CASE], [tok TokenType.COLON], [one Context.TypeTypeContext],
      [one Context.ExpressionContext], [one Context.IdentifierContext], [tok TokenType.DEFAULT]]
  | Context.ForInitContext => ruleContext [] [
      [one Context.LocalVariableDeclarationContext], [one Context.ExpressionListContext]]
  | Context.ParExpressionContext => ruleContext [] [
      [tok TokenType.LPAREN], [one Context.ExpressionContext], [tok TokenType.RPAREN]]
  | Context.ExpressionListContext => ruleContext [] [
      many Context.ExpressionContext, toks TokenType.COMMA]
  | Context.MethodCallContext => ruleContext [] [
      [one Context.ArgumentsContext], [one Context.IdentifierContext], [tok TokenType.THIS],
      [tok TokenType.SUPER]]
  | Context.PostfixExpressionContext => ruleContext [("antlr4::Token", "postfix")] [
      [one Context.SwitchExpressionContext], [one Context.PostfixExpressionContext],
      [tok TokenType.INC], [tok TokenType.DEC]]
  | Context.PrefixExpressionContext => ruleContext [("antlr4::Token", "prefix")] [
      [one Context.PrefixExpressionContext], [tok TokenType.ADD], [tok TokenType.SUB],
      [tok TokenType.INC], [tok TokenType.DEC], [tok TokenType.TILDE], [tok TokenType.BANG],
      [one Context.PostfixExpressionContext]]
  | Context.TypeExpressionContext => ruleContext [] [
      [tok TokenType.LPAREN], many Context.TypeTypeContext, [tok TokenType.RPAREN],
      [one Context.TypeExpressionContext], many Context.AnnotationContext, toks TokenType.BITAND,
      [tok TokenType.NEW], [one Context.CreatorContext], [one Context.PrefixExpressionContext]]
  | Context.MultiplicativeExpressionContext => ruleContext [("antlr4::Token", "bop")] [
      [one Context.TypeExpressionContext], [one Context.MultiplicativeExpressionContext],
      [tok TokenType.MUL], [tok TokenType.DIV], [tok TokenType.MOD]]
  | Context.AdditiveExpressionContext => ruleContext [("antlr4::Token", "bop")] [
      [one Context.MultiplicativeExpressionContext], [one Context.AdditiveExpressionContext],
      [tok TokenType.ADD], [tok TokenType.SUB]]
  | Context.ShiftExpressionContext => ruleContext [] [
      [one Context.AdditiveExpressionContext], [one Context.ShiftExpressionContext],
      toks TokenType.LT, toks TokenType.GT]
  | Context.RelationalExpressionContext => ruleContext [("antlr4::Token", "bop")] [
      [one Context.ShiftExpressionContext], [one Context.RelationalExpressionContext],
      [tok TokenType.LE], [tok TokenType.GE], [tok TokenType.GT], [tok TokenType.LT],
      [tok TokenType.INSTANCEOF], [one Context.TypeTypeContext], [one Context.PatternContext]]
  | Context.EqualityExpressionContext => ruleContext [("antlr4::Token", "bop")] [
      [one Context.RelationalExpressionContext], [one Context.EqualityExpressionContext],
      [tok TokenType.EQUAL], [tok TokenType.NOTEQUAL]]
  | Context.BitwiseAndExpressionContext => ruleContext [] [
      [one Context.EqualityExpressionContext], [one Context.BitwiseAndExpressionContext],
      [tok TokenType.BITAND]]
  | Context.BitwiseXorExpressionContext => ruleContext [] [
      [one Context.BitwiseAndExpressionContext], [one Context.BitwiseXorExpressionContext],
      [tok TokenType.CARET]]
  | Context.BitwiseOrExpressionContext => ruleContext [] [
      [one Context.BitwiseXorExpressionContext], [one Context.BitwiseOrExpressionContext],
      [tok TokenType.BITOR]]
  | Context.LogicalAndExpressionContext => ruleContext [] [
      [one Context.BitwiseOrExpressionContext], [one Context.LogicalAndExpressionContext],
      [tok TokenType.AND]]
  | Context.LogicalOrExpressionContext => ruleContext [] [
      [one Context.LogicalAndExpressionContext], [one Context.LogicalOrExpressionContext],
      [tok TokenType.OR]]
  | Context.TernaryExpressionContext => ruleContext [("antlr4::Token", "bop")] [
      [one Context.LogicalOrExpressionContext], [one Context.ExpressionContext],
      [tok TokenType.COLON], [one Context.TernaryExpressionContext], [tok TokenType.QUESTION],
      [one Context.LambdaExpressionContext]]
  | Context.AssignmentExpressionContext => ruleContext [("antlr4::Token", "bop")] [
      [one Context.TernaryExpressionContext], [one Context.ExpressionContext],
      [tok TokenType.ASSIGN], [tok TokenType.ADD_ASSIGN], [tok TokenType.SUB_ASSIGN],
      [tok TokenType.MUL_ASSIGN], [tok TokenType.DIV_ASSIGN], [tok TokenType.AND_ASSIGN],
      [tok TokenType.OR_ASSIGN], [tok TokenType.XOR_ASSIGN], [tok TokenType.RSHIFT_ASSIGN],
      [tok TokenType.URSHIFT_ASSIGN], [tok TokenType.LSHIFT_ASSIGN], [tok TokenType.MOD_ASSIGN]]
  | Context.ExpressionContext => ruleContext [] [
      [one Context.AssignmentExpressionContext], [one Context.LambdaExpressionContext]]
  | Context.PatternContext => ruleContext [] [
      [one Context.TypeTypeContext], [one Context.IdentifierContext],
      many Context.VariableModifierContext, many Context.AnnotationContext]
  | Context.LambdaExpressionContext => ruleContext [] [
      [one Context.LambdaParametersContext], [tok TokenType.ARROW], [one Context.LambdaBodyContext]]
  | Context.LambdaParametersContext => ruleContext [] [
      many Context.IdentifierContext, [tok TokenType.LPAREN], [tok TokenType.RPAREN],
      [one Context.FormalParameterListContext], toks TokenType.COMMA,
      [one Context.LambdaLVTIListContext]]
  | Context.LambdaBodyContext => ruleContext [] [
      [one Context.ExpressionContext], [one Context.BlockContext]]
  | Context.PrimaryContext => primaryContext
  | Context.ExplicitGenericInvocationExpressionContext => primaryAlternative [] [
      [one Context.NonWildcardTypeArgumentsContext],
      [one Context.ExplicitGenericInvocationSuffixContext], [tok TokenType.THIS],
      [one Context.ArgumentsContext]]
  | Context.ThisExpressionContext => primaryAlternative [] [[tok TokenType.THIS]]
  | Context.MemberReferenceExpressionContext => primaryAlternative [("antlr4::Token", "bop")] [
      [one Context.PrimaryContext], [tok TokenType.DOT], [one Context.IdentifierContext],
      [one Context.MethodCallContext], [tok TokenType.THIS], [tok TokenType.NEW],
      [one Context.InnerCreatorContext], [one Context.SuperSuffixContext],
      [one Context.ExplicitGenericInvocationContext], [one Context.NonWildcardTypeArgumentsContext]]
  | Context.MethodCallExpressionContext => primaryAlternative [] [[one Context.MethodCallContext]]
  | Context.MethodReferenceExpressionContext => primaryAlternative [] [
      [one Context.TypeTypeContext], [tok TokenType.COLONCOLON], [one Context.IdentifierContext],
      [tok TokenType.NEW], [one Context.TypeArgumentsContext], [one Context.ClassTypeContext],
      [one Context.PrimaryContext]]
  | Context.ParExprContext => primaryAlternative [] [
      [tok TokenType.LPAREN], [one Context.ExpressionContext], [tok TokenType.RPAREN]]
  | Context.LiteralExpressionContext => primaryAlternative [] [[one Context.LiteralContext]]
  | Context.ClassExpressionContext => primaryAlternative [] [
      [one Context.TypeTypeOrVoidContext], [tok TokenType.DOT], [tok TokenType.CLASS]]
  | Context.SuperExpressionContext => primaryAlternative [] [[tok TokenType.SUPER]]
  | Context.ArrayAccessExpressionContext => primaryAlternative [] [
      [one Context.PrimaryContext], [tok TokenType.LBRACK], [one Context.ExpressionContext],
      [tok TokenType.RBRACK]]
  | Context.IdentifierExpressionContext => primaryAlternative [] [[one Context.IdentifierContext]]
  | Context.SwitchExpressionContext => ruleContext [] [
      [tok TokenType.SWITCH], [one Context.ParExpressionContext], [tok TokenType.LBRACE],
      [tok TokenType.RBRACE], many Context.SwitchLabeledRuleContext, [one Context.PrimaryContext]]
  | Context.SwitchLabeledRuleContext => ruleContext [] [
      [tok TokenType.CASE], [one Context.SwitchRuleOutcomeContext], [tok TokenType.ARROW],
      [tok TokenType.COLON], [one Context.ExpressionListContext],
      [one Context.GuardedPatternContext], [tok TokenType.DEFAULT]]
  | Context.GuardedPatternContext => ruleContext [] [
      [tok TokenType.LPAREN], [one Context.GuardedPatternContext], [tok TokenType.RPAREN],
      [one Context.TypeTypeContext], [one Context.IdentifierContext],
      many Context.VariableModifierContext, many Context.AnnotationContext, toks TokenType.AND,
      many Context.ExpressionContext]
  | Context.SwitchRuleOutcomeContext => ruleContext [] [
      [one Context.BlockContext], many Context.BlockStatementContext]
  | Context.ClassTypeContext => ruleContext [] [
      [one Context.IdentifierContext], [one Context.ClassOrInterfaceTypeContext],
      [tok TokenType.DOT], many Context.AnnotationContext, [one Context.TypeArgumentsContext]]
  | Context.CreatorContext => ruleContext [] [
      [one Context.ObjectCreatorContext], [one Context.ArrayCreatorContext]]
  | Context.ObjectCreatorContext => ruleContext [] [
      [one Context.CreatedNameContext], [one Context.ArgumentsContext],
      [one Context.NonWildcardTypeArgumentsContext], [one Context.ClassBodyContext]]
  | Context.CreatedNameContext => ruleContext [] [
      many Context.CoitDiamondContext, toks TokenType.DOT, [one Context.PrimitiveTypeContext]]
  | Context.CoitDiamondContext => ruleContext [] [
      [one Context.IdentifierContext], [one Context.TypeArgumentsOrDiamondContext]]
  | Context.InnerCreatorContext => ruleContext [] [
      [one Context.IdentifierContext], [one Context.ArgumentsContext],
      [one Context.NonWildcardTypeArgumentsOrDiamondContext], [one Context.ClassBodyContext]]
  | Context.DimExprContext => ruleContext [] [
      [tok TokenType.LBRACK], [one Context.ExpressionContext], [tok TokenType.RBRACK]]
  | Context.ArrayCreatorContext => ruleContext [] [
      [one Context.CreatedNameContext], [one Context.DimsContext],
      [one Context.ArrayInitializerContext], many Context.DimExprContext]
  | Context.ExplicitGenericInvocationContext => ruleContext [] [
      [one Context.NonWildcardTypeArgumentsContext],
      [one Context.ExplicitGenericInvocationSuffixContext]]
  | Context.TypeArgumentsOrDiamondContext => ruleContext [] [
      [tok TokenType.LT], [tok TokenType.GT], [one Context.TypeArgumentsContext]]
  | Context.NonWildcardTypeArgumentsOrDiamondContext => ruleContext [] [
      [tok TokenType.LT], [tok TokenType.GT], [one Context.NonWildcardTypeArgumentsContext]]
  | Context.NonWildcardTypeArgumentsContext => ruleContext [] [
      [tok TokenType.LT], [one Context.TypeListContext], [tok TokenType.GT]]
  | Context.TypeListContext => ruleContext [] [many Context.TypeTypeContext, toks TokenType.COMMA]
  | Context.TypeTypeContext => ruleContext [] [
      [one Context.ClassOrInterfaceTypeContext], [one Context.PrimitiveTypeContext],
      many Context.AnnotationContext, [one Context.DimsContext]]
  | Context.PrimitiveTypeContext => ruleContext [] [
      [tok TokenType.BOOLEAN], [tok TokenType.CHAR], [tok TokenType.BYTE], [tok TokenType.SHORT],
      [tok TokenType.INT], [tok TokenType.LONG], [tok TokenType.FLOAT], [tok TokenType.DOUBLE]]
  | Context.TypeArgumentsContext => ruleContext [] [
      [tok TokenType.LT], many Context.TypeArgumentContext, [tok TokenType.GT], toks TokenType.COMMA]
  | Context.SuperSuffixContext => ruleContext [] [
      [tok TokenType.SUPER], [one Context.ArgumentsContext], [tok TokenType.DOT],
      [one Context.IdentifierContext], [one Context.TypeArgumentsContext]]
  | Context.ExplicitGenericInvocationSuffixContext => ruleContext [] [
      [one Context.SuperSuffixContext], [one Context.IdentifierContext],
      [one Context.ArgumentsContext]]
  | Context.ArgumentsContext => ruleContext [] [
      [tok TokenType.LPAREN], [tok TokenType.RPAREN], [one Context.ExpressionListContext]]

/-! ## Rule functions and semantic predicates -/

/-- A member function declared after a context class: the rule function `XContext* x();` or,
with `precedence`, its overload `XContext* x(int precedence);`. -/
structure RuleFunction where
  returns : Context
  precedence : Bool
  deriving DecidableEq, Repr

/-- Rule function `XContext* x();`. -/
def entry (returns : Context) : RuleFunction := ⟨returns, false⟩

/-- Overload `XContext* x(int precedence);`. -/
def precedenceEntry (returns : Context) : RuleFunction := ⟨returns, true⟩

/-- Every rule function of `JavaParser`, in source order. -/
def ruleFunctions : List RuleFunction := [
  entry Context.CompilationUnitContext, entry Context.DeclarationStartContext,
  entry Context.StatementStartContext, entry Context.ExpressionStartContext,
  entry Context.DirectiveStartContext, entry Context.OrdinaryCompilationUnitContext,
  entry Context.ModularCompilationUnitContext, entry Context.PackageDeclarationContext,
  entry Context.ImportDeclarationContext, entry Context.TypeDeclarationContext,
  entry Context.ModifierContext, entry Context.ClassOrInterfaceModifierContext,
  entry Context.VariableModifierContext, entry Context.ClassDeclarationContext,
  entry Context.ClassExtendsContext, entry Context.ClassImplementsContext,
  entry Context.ClassPermitsContext, entry Context.TypeParametersContext,
  entry Context.TypeParameterContext, entry Context.TypeBoundContext,
  entry Context.EnumDeclarationContext, entry Context.EnumConstantsContext,
  entry Context.EnumConstantContext, entry Context.EnumBodyDeclarationsContext,
  entry Context.InterfaceDeclarationContext, entry Context.ClassBodyContext,
  entry Context.InterfaceBodyContext, entry Context.ClassBodyDeclarationContext,
  entry Context.MemberDeclarationContext, entry Context.MethodDeclarationContext,
  entry Context.DimsContext, entry Context.DimContext, entry Context.Throws_Context,
  entry Context.MethodBodyContext, entry Context.TypeTypeOrVoidContext,
  entry Context.ConstructorDeclarationContext, entry Context.CompactConstructorDeclarationContext,
  entry Context.FieldDeclarationContext, entry Context.InterfaceBodyDeclarationContext,
  entry Context.InterfaceMemberDeclarationContext, entry Context.ConstDeclarationContext,
  entry Context.InterfaceMethodModifierContext, entry Context.InterfaceMethodDeclarationContext,
  entry Context.VariableDeclaratorsContext, entry Context.VariableDeclaratorContext,
  entry Context.VariableDeclaratorIdContext, entry Context.VariableInitializerContext,
  entry Context.ArrayInitializerContext, entry Context.ClassOrInterfaceTypeContext,
  entry Context.CoitContext, entry Context.TypeArgumentContext,
  entry Context.QualifiedNameListContext, entry Context.FormalParametersContext,
  entry Context.ReceiverParameterContext, entry Context.FormalParameterListContext,
  entry Context.FormalParameterContext, entry Context.LastFormalParameterContext,
  entry Context.LambdaLVTIListContext, entry Context.LambdaLVTIParameterContext,
  entry Context.QualifiedNameContext, entry Context.LiteralContext,
  entry Context.IntegerLiteralContext, entry Context.FloatLiteralContext,
  entry Context.AnnotationContext, entry Context.ElementValuePairsContext,
  entry Context.ElementValuePairContext, entry Context.ElementValueContext,
  entry Context.ElementValueArrayInitializerContext, entry Context.AnnotationTypeDeclarationContext,
  entry Context.AnnotationTypeBodyContext, entry Context.AnnotationTypeElementDeclarationContext,
  entry Context.AnnotationTypeElementRestContext,
  entry Context.AnnotationConstantDeclarationContext,
  entry Context.AnnotationMethodDeclarationContext, entry Context.DefaultValueContext,
  entry Context.ModuleDeclarationContext, entry Context.ModuleBodyContext,
  entry Context.ModuleDirectiveContext, entry Context.RequiresModifierContext,
  entry Context.RecordDeclarationContext, entry Context.RecordComponentListContext,
  entry Context.RecordComponentContext, entry Context.RecordBodyContext,
  entry Context.RecordBodyDeclarationContext, entry Context.BlockContext,
  entry Context.BlockStatementContext, entry Context.LocalVariableDeclarationContext,
  entry Context.IdentifierContext, entry Context.TypeIdentifierContext,
  entry Context.LocalTypeDeclarationContext, entry Context.StatementContext,
  entry Context.SwitchBlockContext, entry Context.CatchClauseContext,
  entry Context.CatchTypeContext, entry Context.FinallyBlockContext,
  entry Context.ResourceSpecificationContext, entry Context.ResourcesContext,
  entry Context.ResourceContext, entry Context.SwitchBlockStatementGroupContext,
  entry Context.SwitchLabelContext, entry Context.ForInitContext,
  entry Context.ParExpressionContext, entry Context.ExpressionListContext,
  entry Context.MethodCallContext, entry Context.PostfixExpressionContext,
  precedenceEntry Context.PostfixExpressionContext, entry Context.PrefixExpressionContext,
  entry Context.TypeExpressionContext, entry Context.MultiplicativeExpressionContext,
  precedenceEntry Context.MultiplicativeExpressionContext, entry Context.AdditiveExpressionContext,
  precedenceEntry Context.AdditiveExpressionContext, entry Context.ShiftExpressionContext,
  precedenceEntry Context.ShiftExpressionContext, entry Context.RelationalExpressionContext,
  precedenceEntry Context.RelationalExpressionContext, entry Context.EqualityExpressionContext,
  precedenceEntry Context.EqualityExpressionContext, entry Context.BitwiseAndExpressionContext,
  precedenceEntry Context.BitwiseAndExpressionContext, entry Context.BitwiseXorExpressionContext,
  precedenceEntry Context.BitwiseXorExpressionContext, entry Context.BitwiseOrExpressionContext,
  precedenceEntry Context.BitwiseOrExpressionContext, entry Context.LogicalAndExpressionContext,
  precedenceEntry Context.LogicalAndExpressionContext, entry Context.LogicalOrExpressionContext,
  precedenceEntry Context.LogicalOrExpressionContext, entry Context.TernaryExpressionContext,
  entry Context.AssignmentExpressionContext, entry Context.ExpressionContext,
  entry Context.PatternContext, entry Context.LambdaExpressionContext,
  entry Context.LambdaParametersContext, entry Context.LambdaBodyContext,
  entry Context.PrimaryContext, precedenceEntry Context.PrimaryContext,
  entry Context.SwitchExpressionContext, entry Context.SwitchLabeledRuleContext,
  entry Context.GuardedPatternContext, precedenceEntry Context.GuardedPatternContext,
  entry Context.SwitchRuleOutcomeContext, entry Context.ClassTypeContext,
  entry Context.CreatorContext, entry Context.ObjectCreatorContext,
  entry Context.CreatedNameContext, entry Context.CoitDiamondContext,
  entry Context.InnerCreatorContext, entry Context.DimExprContext,
  entry Context.ArrayCreatorContext, entry Context.ExplicitGenericInvocationContext,
  entry Context.TypeArgumentsOrDiamondContext,
  entry Context.NonWildcardTypeArgumentsOrDiamondContext,
  entry Context.NonWildcardTypeArgumentsContext, entry Context.TypeListContext,
  entry Context.TypeTypeContext, entry Context.PrimitiveTypeContext,
  entry Context.TypeArgumentsContext, entry Context.SuperSuffixContext,
  entry Context.ExplicitGenericInvocationSuffixContext, entry Context.ArgumentsContext
]

/-- The per-rule semantic predicates `bool xSempred(XContext *_localctx, size_t predicateIndex);`
by the class of `_localctx`, in source order. -/
def sempreds : List Context := [
  Context.PostfixExpressionContext, Context.MultiplicativeExpressionContext,
  Context.AdditiveExpressionContext, Context.ShiftExpressionContext,
  Context.RelationalExpressionContext, Context.EqualityExpressionContext,
  Context.BitwiseAndExpressionContext, Context.BitwiseXorExpressionContext,
  Context.BitwiseOrExpressionContext, Context.LogicalAndExpressionContext,
  Context.LogicalOrExpressionContext, Context.PrimaryContext, Context.GuardedPatternContext
]

/-! ## Parse trees and the visitors -/

/-- A parse tree of the ANTLR runtime: the terminal node of a token of some type, the terminal
node of the end of input, or a context of some context class with its children in order. -/
inductive ParseTree
  | terminal (type : TokenType)
  | EOF
  | context (cls : Context) (children : List ParseTree)
  deriving Repr

/-- The pure-virtual methods `virtual std::any visitX(JavaParser::XContext *context) = 0;` of
`JavaParserVisitor` by the class of the parameter, in source order. -/
def JavaParserVisitor : List Context := [
  Context.CompilationUnitContext, Context.DeclarationStartContext, Context.StatementStartContext,
  Context.ExpressionStartContext, Context.DirectiveStartContext,
  Context.OrdinaryCompilationUnitContext, Context.ModularCompilationUnitContext,
  Context.PackageDeclarationContext, Context.ImportDeclarationContext,
  Context.TypeDeclarationContext, Context.ModifierContext, Context.ClassOrInterfaceModifierContext,
  Context.VariableModifierContext, Context.ClassDeclarationContext, Context.ClassExtendsContext,
  Context.ClassImplementsContext, Context.ClassPermitsContext, Context.TypeParametersContext,
  Context.TypeParameterContext, Context.TypeBoundContext, Context.EnumDeclarationContext,
  Context.EnumConstantsContext, Context.EnumConstantContext, Context.EnumBodyDeclarationsContext,
  Context.InterfaceDeclarationContext, Context.ClassBodyContext, Context.InterfaceBodyContext,
  Context.ClassBodyDeclarationContext, Context.MemberDeclarationContext,
  Context.MethodDeclarationContext, Context.DimsContext, Context.DimContext, Context.Throws_Context,
  Context.MethodBodyContext, Context.TypeTypeOrVoidContext, Context.ConstructorDeclarationContext,
  Context.CompactConstructorDeclarationContext, Context.FieldDeclarationContext,
  Context.InterfaceBodyDeclarationContext, Context.InterfaceMemberDeclarationContext,
  Context.ConstDeclarationContext, Context.InterfaceMethodModifierContext,
  Context.InterfaceMethodDeclarationContext, Context.VariableDeclaratorsContext,
  Context.VariableDeclaratorContext, Context.VariableDeclaratorIdContext,
  Context.VariableInitializerContext, Context.ArrayInitializerContext,
  Context.ClassOrInterfaceTypeContext, Context.CoitContext, Context.TypeArgumentContext,
  Context.QualifiedNameListContext, Context.FormalParametersContext,
  Context.ReceiverParameterContext, Context.FormalParameterListContext,
  Context.FormalParameterContext, Context.LastFormalParameterContext, Context.LambdaLVTIListContext,
  Context.LambdaLVTIParameterContext, Context.QualifiedNameContext, Context.LiteralContext,
  Context.IntegerLiteralContext, Context.FloatLiteralContext, Context.AnnotationContext,
  Context.ElementValuePairsContext, Context.ElementValuePairContext, Context.ElementValueContext,
  Context.ElementValueArrayInitializerContext, Context.AnnotationTypeDeclarationContext,
  Context.AnnotationTypeBodyContext, Context.AnnotationTypeElementDeclarationContext,
  Context.AnnotationTypeElementRestContext, Context.AnnotationConstantDeclarationContext,
  Context.AnnotationMethodDeclarationContext, Context.DefaultValueContext,
  Context.ModuleDeclarationContext, Context.ModuleBodyContext, Context.ModuleDirectiveContext,
  Context.RequiresModifierContext, Context.RecordDeclarationContext,
  Context.RecordComponentListContext, Context.RecordComponentContext, Context.RecordBodyContext,
  Context.RecordBodyDeclarationContext, Context.BlockContext, Context.BlockStatementContext,
  Context.LocalVariableDeclarationContext, Context.IdentifierContext, Context.TypeIdentifierContext,
  Context.LocalTypeDeclarationContext, Context.StatementContext, Context.SwitchBlockContext,
  Context.CatchClauseContext, Context.CatchTypeContext, Context.FinallyBlockContext,
  Context.ResourceSpecificationContext, Context.ResourcesContext, Context.ResourceContext,
  Context.SwitchBlockStatementGroupContext, Context.SwitchLabelContext, Context.ForInitContext,
  Context.ParExpressionContext, Context.ExpressionListContext, Context.MethodCallContext,
  Context.PostfixExpressionContext, Context.PrefixExpressionContext, Context.TypeExpressionContext,
  Context.MultiplicativeExpressionContext, Context.AdditiveExpressionContext,
  Context.ShiftExpressionContext, Context.RelationalExpressionContext,
  Context.EqualityExpressionContext, Context.BitwiseAndExpressionContext,
  Context.BitwiseXorExpressionContext, Context.BitwiseOrExpressionContext,
  Context.LogicalAndExpressionContext, Context.LogicalOrExpressionContext,
  Context.TernaryExpressionContext, Context.AssignmentExpressionContext, Context.ExpressionContext,
  Context.PatternContext, Context.LambdaExpressionContext, Context.LambdaParametersContext,
  Context.LambdaBodyContext, Context.ExplicitGenericInvocationExpressionContext,
  Context.ThisExpressionContext, Context.MemberReferenceExpressionContext,
  Context.MethodCallExpressionContext, Context.MethodReferenceExpressionContext,
  Context.ParExprContext, Context.LiteralExpressionContext, Context.ClassExpressionContext,
  Context.SuperExpressionContext, Context.ArrayAccessExpressionContext,
  Context.IdentifierExpressionContext, Context.SwitchExpressionContext,
  Context.SwitchLabeledRuleContext, Context.GuardedPatternContext, Context.SwitchRuleOutcomeContext,
  Context.ClassTypeContext, Context.CreatorContext, Context.ObjectCreatorContext,
  Context.CreatedNameContext, Context.CoitDiamondContext, Context.InnerCreatorContext,
  Context.DimExprContext, Context.ArrayCreatorContext, Context.ExplicitGenericInvocationContext,
  Context.TypeArgumentsOrDiamondContext, Context.NonWildcardTypeArgumentsOrDiamondContext,
  Context.NonWildcardTypeArgumentsContext, Context.TypeListContext, Context.TypeTypeContext,
  Context.PrimitiveTypeContext, Context.TypeArgumentsContext, Context.SuperSuffixContext,
  Context.ExplicitGenericInvocationSuffixContext, Context.ArgumentsContext
]

/-- One method of `JavaParserBaseVisitor`: its name, the class of its parameter `ctx` and its
body, a function of the inherited `visitChildren` and of `ctx`; `R` stands for `std::any`. -/
structure VisitMethod (R : Type) where
  name : String
  param : Context
  body : (ParseTree → R) → ParseTree → R

namespace JavaParserBaseVisitor

variable {R : Type}

/-- Override of `visitCompilationUnit(JavaParser::CompilationUnitContext *ctx)`. -/
def visitCompilationUnit (visitChildren : ParseTree → R) (ctx : ParseTree) : R :=
  visitChildren ctx

/-- Override of `visitDeclarationStart(JavaParser::DeclarationStartContext *ctx)`. -/
def visitDeclarationStart (visitChildren : ParseTree → R) (ctx : ParseTree) : R :=
  visitChildren ctx

/-- Override of `visitStatementStart(JavaParser::StatementStartContext *ctx)`. -/
def visitStatementStart (visitChildren : ParseTree → R) (ctx : ParseTree) : R :=
  visitChildren ctx

/-- Override of `visitExpressionStart(JavaParser::ExpressionStartContext *ctx)`. -/
def visitExpressionStart (visitChildren : ParseTree → R) (ctx : ParseTree) : R :=
  visitChildren ctx

/-- Override of `visitDirectiveStart(JavaParser::DirectiveStartContext *ctx)`. -/
def visitDirectiveStart (visitChildren : ParseTree → R) (ctx : ParseTree) : R :=
  visitChildren ctx

/-- Override of `visitOrdinaryCompilationUnit(JavaParser::OrdinaryCompilationUnitContext *ctx)`. -/
def visitOrdinaryCompilationUnit (visitChildren : ParseTree → R) (ctx : ParseTree) : R :=
  visitChildren ctx

/-- Override of `visitModularCompilationUnit(JavaParser::ModularCompilationUnitContext *ctx)`. -/
def visitModularCompilationUnit (visitChildren : ParseTree → R) (ctx : ParseTree) : R :=
  visitChildren ctx

/-- Override of `visitPackageDeclaration(JavaParser::PackageDeclarationContext *ctx)`. -/
def visitPackageDeclaration (visitChildren : ParseTree → R) (ctx : ParseTree) : R :=
  visitChildren ctx

/-- Override of `visitImportDeclaration(JavaParser::ImportDeclarationContext *ctx)`. -/
def visitImportDeclaration (visitChildren : ParseTree → R) (ctx : ParseTree) : R :=
  visitChildren ctx

/-- Override of `visitTypeDeclaration(JavaParser::TypeDeclarationContext *ctx)`. -/
def visitTypeDeclaration (visitChildren : ParseTree → R) (ctx : ParseTree) : R :=
  visitChildren ctx

/-- Override of `visitModifier(JavaParser::ModifierContext *ctx)`. -/
def visitModifier (visitChildren : ParseTree → R) (ctx : ParseTree) : R :=
  visitChildren ctx

/-- Override of `visitClassOrInterfaceModifier(JavaParser::ClassOrInterfaceModifierContext *ctx)`. -/
def visitClassOrInterfaceModifier (visitChildren : ParseTree → R) (ctx : ParseTree) : R :=
  visitChildren ctx

/-- Override of `visitVariableModifier(JavaParser::VariableModifierContext *ctx)`. -/
def visitVariableModifier (visitChildren : ParseTree → R) (ctx : ParseTree) : R :=
  visitChildren ctx

/-- Override of `visitClassDeclaration(JavaParser::ClassDeclarationContext *ctx)`. -/
def visitClassDeclaration (visitChildren : ParseTree → R) (ctx : ParseTree) : R :=
  visitChildren ctx

/-- Override of `visitClassExtends(JavaParser::ClassExtendsContext *ctx)`. -/
def visitClassExtends (visitChildren : ParseTree → R) (ctx : ParseTree) : R :=
  visitChildren ctx

/-- Override of `visitClassImplements(JavaParser::ClassImplementsContext *ctx)`. -/
def visitClassImplements (visitChildren : ParseTree → R) (ctx : ParseTree) : R :=
  visitChildren ctx

/-- Override of `visitClassPermits(JavaParser::ClassPermitsContext *ctx)`. -/
def visitClassPermits (visitChildren : ParseTree → R) (ctx : ParseTree) : R :=
  visitChildren ctx

/-- Override of `visitTypeParameters(JavaParser::TypeParametersContext *ctx)`. -/
def visitTypeParameters (visitChildren : ParseTree → R) (ctx : ParseTree) : R :=
  visitChildren ctx

/-- Override of `visitTypeParameter(JavaParser::TypeParameterContext *ctx)`. -/
def visitTypeParameter (visitChildren : ParseTree → R) (ctx : ParseTree) : R :=
  visitChildren ctx

/-- Override of `visitTypeBound(JavaParser::TypeBoundContext *ctx)`. -/
def visitTypeBound (visitChildren : ParseTree → R) (ctx : ParseTree) : R :=
  visitChildren ctx

/-- Override of `visitEnumDeclaration(JavaParser::EnumDeclarationContext *ctx)`. -/
def visitEnumDeclaration (visitChildren : ParseTree → R) (ctx : ParseTree) : R :=
  visitChildren ctx

/-- Override of `visitEnumConstants(JavaParser::EnumConstantsContext *ctx)`. -/
def visitEnumConstants (visitChildren : ParseTree → R) (ctx : ParseTree) : R :=
  visitChildren ctx

/-- Override of `visitEnumConstant(JavaParser::EnumConstantContext *ctx)`. -/
def visitEnumConstant (visitChildren : ParseTree → R) (ctx : ParseTree) : R :=
  visitChildren ctx

/-- Override of `visitEnumBodyDeclarations(JavaParser::EnumBodyDeclarationsContext *ctx)`. -/
def visitEnumBodyDeclarations (visitChildren : ParseTree → R) (ctx : ParseTree) : R :=
  visitChildren ctx

/-- Override of `visitInterfaceDeclaration(JavaParser::InterfaceDeclarationContext *ctx)`. -/
def visitInterfaceDeclaration (visitChildren : ParseTree → R) (ctx : ParseTree) : R :=
  visitChildren ctx

/-- Override of `visitClassBody(JavaParser::ClassBodyContext *ctx)`. -/
def visitClassBody (visitChildren : ParseTree → R) (ctx : ParseTree) : R :=
  visitChildren ctx

/-- Override of `visitInterfaceBody(JavaParser::InterfaceBodyContext *ctx)`. -/
def visitInterfaceBody (visitChildren : ParseTree → R) (ctx : ParseTree) : R :=
  visitChildren ctx

/-- Override of `visitClassBodyDeclaration(JavaParser::ClassBodyDeclarationContext *ctx)`. -/
def visitClassBodyDeclaration (visitChildren : ParseTree → R) (ctx : ParseTree) : R :=
  visitChildren ctx

/-- Override of `visitMemberDeclaration(JavaParser::MemberDeclarationContext *ctx)`. -/
def visitMemberDeclaration (visitChildren : ParseTree → R) (ctx : ParseTree) : R :=
  visitChildren ctx

/-- Override of `visitMethodDeclaration(JavaParser::MethodDeclarationContext *ctx)`. -/
def visitMethodDeclaration (visitChildren : ParseTree → R) (ctx : ParseTree) : R :=
  visitChildren ctx

/-- Override of `visitDims(JavaParser::DimsContext *ctx)`. -/
def visitDims (visitChildren : ParseTree → R) (ctx : ParseTree) : R :=
  visitChildren ctx

/-- Override of `visitDim(JavaParser::DimContext *ctx)`. -/
def visitDim (visitChildren : ParseTree → R) (ctx : ParseTree) : R :=
  visitChildren ctx

/-- Override of `visitThrows_(JavaParser::Throws_Context *ctx)`. -/
def visitThrows_ (visitChildren : ParseTree → R) (ctx : ParseTree) : R :=
  visitChildren ctx

/-- Override of `visitMethodBody(JavaParser::MethodBodyContext *ctx)`. -/
def visitMethodBody (visitChildren : ParseTree → R) (ctx : ParseTree) : R :=
  visitChildren ctx

/-- Override of `visitTypeTypeOrVoid(JavaParser::TypeTypeOrVoidContext *ctx)`. -/
def visitTypeTypeOrVoid (visitChildren : ParseTree → R) (ctx : ParseTree) : R :=
  visitChildren ctx

/-- Override of `visitConstructorDeclaration(JavaParser::ConstructorDeclarationContext *ctx)`. -/
def visitConstructorDeclaration (visitChildren : ParseTree → R) (ctx : ParseTree) : R :=
  visitChildren ctx

/-- Override of `visitCompactConstructorDeclaration(JavaParser::CompactConstructorDeclarationContext *ctx)`. -/
def visitCompactConstructorDeclaration (visitChildren : ParseTree → R) (ctx : ParseTree) : R :=
  visitChildren ctx

/-- Override of `visitFieldDeclaration(JavaParser::FieldDeclarationContext *ctx)`. -/
def visitFieldDeclaration (visitChildren : ParseTree → R) (ctx : ParseTree) : R :=
  visitChildren ctx

/-- Override of `visitInterfaceBodyDeclaration(JavaParser::InterfaceBodyDeclarationContext *ctx)`. -/
def visitInterfaceBodyDeclaration (visitChildren : ParseTree → R) (ctx : ParseTree) : R :=
  visitChildren ctx

/-- Override of `visitInterfaceMemberDeclaration(JavaParser::InterfaceMemberDeclarationContext *ctx)`. -/
def visitInterfaceMemberDeclaration (visitChildren : ParseTree → R) (ctx : ParseTree) : R :=
  visitChildren ctx

/-- Override of `visitConstDeclaration(JavaParser::ConstDeclarationContext *ctx)`. -/
def visitConstDeclaration (visitChildren : ParseTree → R) (ctx : ParseTree) : R :=
  visitChildren ctx

/-- Override of `visitInterfaceMethodModifier(JavaParser::InterfaceMethodModifierContext *ctx)`. -/
def visitInterfaceMethodModifier (visitChildren : ParseTree → R) (ctx : ParseTree) : R :=
  visitChildren ctx

/-- Override of `visitInterfaceMethodDeclaration(JavaParser::InterfaceMethodDeclarationContext *ctx)`. -/
def visitInterfaceMethodDeclaration (visitChildren : ParseTree → R) (ctx : ParseTree) : R :=
  visitChildren ctx

/-- Override of `visitVariableDeclarators(JavaParser::VariableDeclaratorsContext *ctx)`. -/
def visitVariableDeclarators (visitChildren : ParseTree → R) (ctx : ParseTree) : R :=
  visitChildren ctx

/-- Override of `visitVariableDeclarator(JavaParser::VariableDeclaratorContext *ctx)`. -/
def visitVariableDeclarator (visitChildren : ParseTree → R) (ctx : ParseTree) : R :=
  visitChildren ctx

/-- Override of `visitVariableDeclaratorId(JavaParser::VariableDeclaratorIdContext *ctx)`. -/
def visitVariableDeclaratorId (visitChildren : ParseTree → R) (ctx : ParseTree) : R :=
  visitChildren ctx

/-- Override of `visitVariableInitializer(JavaParser::VariableInitializerContext *ctx)`. -/
def visitVariableInitializer (visitChildren : ParseTree → R) (ctx : ParseTree) : R :=
  visitChildren ctx

/-- Override of `visitArrayInitializer(JavaParser::ArrayInitializerContext *ctx)`. -/
def visitArrayInitializer (visitChildren : ParseTree → R) (ctx : ParseTree) : R :=
  visitChildren ctx

/-- Override of `visitClassOrInterfaceType(JavaParser::ClassOrInterfaceTypeContext *ctx)`. -/
def visitClassOrInterfaceType (visitChildren : ParseTree → R) (ctx : ParseTree) : R :=
  visitChildren ctx

/-- Override of `visitCoit(JavaParser::CoitContext *ctx)`. -/
def visitCoit (visitChildren : ParseTree → R) (ctx : ParseTree) : R :=
  visitChildren ctx

/-- Override of `visitTypeArgument(JavaParser::TypeArgumentContext *ctx)`. -/
def visitTypeArgument (visitChildren : ParseTree → R) (ctx : ParseTree) : R :=
  visitChildren ctx

/-- Override of `visitQualifiedNameList(JavaParser::QualifiedNameListContext *ctx)`. -/
def visitQualifiedNameList (visitChildren : ParseTree → R) (ctx : ParseTree) : R :=
  visitChildren ctx

/-- Override of `visitFormalParameters(JavaParser::FormalParametersContext *ctx)`. -/
def visitFormalParameters (visitChildren : ParseTree → R) (ctx : ParseTree) : R :=
  visitChildren ctx

/-- Override of `visitReceiverParameter(JavaParser::ReceiverParameterContext *ctx)`. -/
def visitReceiverParameter (visitChildren : ParseTree → R) (ctx : ParseTree) : R :=
  visitChildren ctx

/-- Override of `visitFormalParameterList(JavaParser::FormalParameterListContext *ctx)`. -/
def visitFormalParameterList (visitChildren : ParseTree → R) (ctx : ParseTree) : R :=
  visitChildren ctx

/-- Override of `visitFormalParameter(JavaParser::FormalParameterContext *ctx)`. -/
def visitFormalParameter (visitChildren : ParseTree → R) (ctx : ParseTree) : R :=
  visitChildren ctx

/-- Override of `visitLastFormalParameter(JavaParser::LastFormalParameterContext *ctx)`. -/
def visitLastFormalParameter (visitChildren : ParseTree → R) (ctx : ParseTree) : R :=
  visitChildren ctx

/-- Override of `visitLambdaLVTIList(JavaParser::LambdaLVTIListContext *ctx)`. -/
def visitLambdaLVTIList (visitChildren : ParseTree → R) (ctx : ParseTree) : R :=
  visitChildren ctx

/-- Override of `visitLambdaLVTIParameter(JavaParser::LambdaLVTIParameterContext *ctx)`. -/
def visitLambdaLVTIParameter (visitChildren : ParseTree → R) (ctx : ParseTree) : R :=
  visitChildren ctx

/-- Override of `visitQualifiedName(JavaParser::QualifiedNameContext *ctx)`. -/
def visitQualifiedName (visitChildren : ParseTree → R) (ctx : ParseTree) : R :=
  visitChildren ctx

/-- Override of `visitLiteral(JavaParser::LiteralContext *ctx)`. -/
def visitLiteral (visitChildren : ParseTree → R) (ctx : ParseTree) : R :=
  visitChildren ctx

/-- Override of `visitIntegerLiteral(JavaParser::IntegerLiteralContext *ctx)`. -/
def visitIntegerLiteral (visitChildren : ParseTree → R) (ctx : ParseTree) : R :=
  visitChildren ctx

/-- Override of `visitFloatLiteral(JavaParser::FloatLiteralContext *ctx)`. -/
def visitFloatLiteral (visitChildren : ParseTree → R) (ctx : ParseTree) : R :=
  visitChildren ctx

/-- Override of `visitAnnotation(JavaParser::AnnotationContext *ctx)`. -/
def visitAnnotation (visitChildren : ParseTree → R) (ctx : ParseTree) : R :=
  visitChildren ctx

/-- Override of `visitElementValuePairs(JavaParser::ElementValuePairsContext *ctx)`. -/
def visitElementValuePairs (visitChildren : ParseTree → R) (ctx : ParseTree) : R :=
  visitChildren ctx

/-- Override of `visitElementValuePair(JavaParser::ElementValuePairContext *ctx)`. -/
def visitElementValuePair (visitChildren : ParseTree → R) (ctx : ParseTree) : R :=
  visitChildren ctx

/-- Override of `visitElementValue(JavaParser::ElementValueContext *ctx)`. -/
def visitElementValue (visitChildren : ParseTree → R) (ctx : ParseTree) : R :=
  visitChildren ctx

/-- Override of `visitElementValueArrayInitializer(JavaParser::ElementValueArrayInitializerContext *ctx)`. -/
def visitElementValueArrayInitializer (visitChildren : ParseTree → R) (ctx : ParseTree) : R :=
  visitChildren ctx

/-- Override of `visitAnnotationTypeDeclaration(JavaParser::AnnotationTypeDeclarationContext *ctx)`. -/
def visitAnnotationTypeDeclaration (visitChildren : ParseTree → R) (ctx : ParseTree) : R :=
  visitChildren ctx

/-- Override of `visitAnnotationTypeBody(JavaParser::AnnotationTypeBodyContext *ctx)`. -/
def visitAnnotationTypeBody (visitChildren : ParseTree → R) (ctx : ParseTree) : R :=
  visitChildren ctx

/-- Override of `visitAnnotationTypeElementDeclaration(JavaParser::AnnotationTypeElementDeclarationContext *ctx)`. -/
def visitAnnotationTypeElementDeclaration (visitChildren : ParseTree → R) (ctx : ParseTree) : R :=
  visitChildren ctx

/-- Override of `visitAnnotationTypeElementRest(JavaParser::AnnotationTypeElementRestContext *ctx)`. -/
def visitAnnotationTypeElementRest (visitChildren : ParseTree → R) (ctx : ParseTree) : R :=
  visitChildren ctx

/-- Override of `visitAnnotationConstantDeclaration(JavaParser::AnnotationConstantDeclarationContext *ctx)`. -/
def visitAnnotationConstantDeclaration (visitChildren : ParseTree → R) (ctx : ParseTree) : R :=
  visitChildren ctx

/-- Override of `visitAnnotationMethodDeclaration(JavaParser::AnnotationMethodDeclarationContext *ctx)`. -/
def visitAnnotationMethodDeclaration (visitChildren : ParseTree → R) (ctx : ParseTree) : R :=
  visitChildren ctx

/-- Override of `visitDefaultValue(JavaParser::DefaultValueContext *ctx)`. -/
def visitDefaultValue (visitChildren : ParseTree → R) (ctx : ParseTree) : R :=
  visitChildren ctx

/-- Override of `visitModuleDeclaration(JavaParser::ModuleDeclarationContext *ctx)`. -/
def visitModuleDeclaration (visitChildren : ParseTree → R) (ctx : ParseTree) : R :=
  visitChildren ctx

/-- Override of `visitModuleBody(JavaParser::ModuleBodyContext *ctx)`. -/
def visitModuleBody (visitChildren : ParseTree → R) (ctx : ParseTree) : R :=
  visitChildren ctx

/-- Override of `visitModuleDirective(JavaParser::ModuleDirectiveContext *ctx)`. -/
def visitModuleDirective (visitChildren : ParseTree → R) (ctx : ParseTree) : R :=
  visitChildren ctx

/-- Override of `visitRequiresModifier(JavaParser::RequiresModifierContext *ctx)`. -/
def visitRequiresModifier (visitChildren : ParseTree → R) (ctx : ParseTree) : R :=
  visitChildren ctx

/-- Override of `visitRecordDeclaration(JavaParser::RecordDeclarationContext *ctx)`. -/
def visitRecordDeclaration (visitChildren : ParseTree → R) (ctx : ParseTree) : R :=
  visitChildren ctx

/-- Override of `visitRecordComponentList(JavaParser::RecordComponentListContext *ctx)`. -/
def visitRecordComponentList (visitChildren : ParseTree → R) (ctx : ParseTree) : R :=
  visitChildren ctx

/-- Override of `visitRecordComponent(JavaParser::RecordComponentContext *ctx)`. -/
def visitRecordComponent (visitChildren : ParseTree → R) (ctx : ParseTree) : R :=
  visitChildren ctx

/-- Override of `visitRecordBody(JavaParser::RecordBodyContext *ctx)`. -/
def visitRecordBody (visitChildren : ParseTree → R) (ctx : ParseTree) : R :=
  visitChildren ctx

/-- Override of `visitRecordBodyDeclaration(JavaParser::RecordBodyDeclarationContext *ctx)`. -/
def visitRecordBodyDeclaration (visitChildren : ParseTree → R) (ctx : ParseTree) : R :=
  visitChildren ctx

/-- Override of `visitBlock(JavaParser::BlockContext *ctx)`. -/
def visitBlock (visitChildren : ParseTree → R) (ctx : ParseTree) : R :=
  visitChildren ctx

/-- Override of `visitBlockStatement(JavaParser::BlockStatementContext *ctx)`. -/
def visitBlockStatement (visitChildren : ParseTree → R) (ctx : ParseTree) : R :=
  visitChildren ctx

/-- Override of `visitLocalVariableDeclaration(JavaParser::LocalVariableDeclarationContext *ctx)`. -/
def visitLocalVariableDeclaration (visitChildren : ParseTree → R) (ctx : ParseTree) : R :=
  visitChildren ctx

/-- Override of `visitIdentifier(JavaParser::IdentifierContext *ctx)`. -/
def visitIdentifier (visitChildren : ParseTree → R) (ctx : ParseTree) : R :=
  visitChildren ctx

/-- Override of `visitTypeIdentifier(JavaParser::TypeIdentifierContext *ctx)`. -/
def visitTypeIdentifier (visitChildren : ParseTree → R) (ctx : ParseTree) : R :=
  visitChildren ctx

/-- Override of `visitLocalTypeDeclaration(JavaParser::LocalTypeDeclarationContext *ctx)`. -/
def visitLocalTypeDeclaration (visitChildren : ParseTree → R) (ctx : ParseTree) : R :=
  visitChildren ctx

/-- Override of `visitStatement(JavaParser::StatementContext *ctx)`. -/
def visitStatement (visitChildren : ParseTree → R) (ctx : ParseTree) : R :=
  visitChildren ctx

/-- Override of `visitSwitchBlock(JavaParser::SwitchBlockContext *ctx)`. -/
def visitSwitchBlock (visitChildren : ParseTree → R) (ctx : ParseTree) : R :=
  visitChildren ctx

/-- Override of `visitCatchClause(JavaParser::CatchClauseContext *ctx)`. -/
def visitCatchClause (visitChildren : ParseTree → R) (ctx : ParseTree) : R :=
  visitChildren ctx

/-- Override of `visitCatchType(JavaParser::CatchTypeContext *ctx)`. -/
def visitCatchType (visitChildren : ParseTree → R) (ctx : ParseTree) : R :=
  visitChildren ctx

/-- Override of `visitFinallyBlock(JavaParser::FinallyBlockContext *ctx)`. -/
def visitFinallyBlock (visitChildren : ParseTree → R) (ctx : ParseTree) : R :=
  visitChildren ctx

/-- Override of `visitResourceSpecification(JavaParser::ResourceSpecificationContext *ctx)`. -/
def visitResourceSpecification (visitChildren : ParseTree → R) (ctx : ParseTree) : R :=
  visitChildren ctx

/-- Override of `visitResources(JavaParser::ResourcesContext *ctx)`. -/
def visitResources (visitChildren : ParseTree → R) (ctx : ParseTree) : R :=
  visitChildren ctx

/-- Override of `visitResource(JavaParser::ResourceContext *ctx)`. -/
def visitResource (visitChildren : ParseTree → R) (ctx : ParseTree) : R :=
  visitChildren ctx

/-- Override of `visitSwitchBlockStatementGroup(JavaParser::SwitchBlockStatementGroupContext *ctx)`. -/
def visitSwitchBlockStatementGroup (visitChildren : ParseTree → R) (ctx : ParseTree) : R :=
  visitChildren ctx

/-- Override of `visitSwitchLabel(JavaParser::SwitchLabelContext *ctx)`. -/
def visitSwitchLabel (visitChildren : ParseTree → R) (ctx : ParseTree) : R :=
  visitChildren ctx

/-- Override of `visitForInit(JavaParser::ForInitContext *ctx)`. -/
def visitForInit (visitChildren : ParseTree → R) (ctx : ParseTree) : R :=
  visitChildren ctx

/-- Override of `visitParExpression(JavaParser::ParExpressionContext *ctx)`. -/
def visitParExpression (visitChildren : ParseTree → R) (ctx : ParseTree) : R :=
  visitChildren ctx

/-- Override of `visitExpressionList(JavaParser::ExpressionListContext *ctx)`. -/
def visitExpressionList (visitChildren : ParseTree → R) (ctx : ParseTree) : R :=
  visitChildren ctx

/-- Override of `visitMethodCall(JavaParser::MethodCallContext *ctx)`. -/
def visitMethodCall (visitChildren : ParseTree → R) (ctx : ParseTree) : R :=
  visitChildren ctx

/-- Override of `visitPostfixExpression(JavaParser::PostfixExpressionContext *ctx)`. -/
def visitPostfixExpression (visitChildren : ParseTree → R) (ctx : ParseTree) : R :=
  visitChildren ctx

/-- Override of `visitPrefixExpression(JavaParser::PrefixExpressionContext *ctx)`. -/
def visitPrefixExpression (visitChildren : ParseTree → R) (ctx : ParseTree) : R :=
  visitChildren ctx

/-- Override of `visitTypeExpression(JavaParser::TypeExpressionContext *ctx)`. -/
def visitTypeExpression (visitChildren : ParseTree → R) (ctx : ParseTree) : R :=
  visitChildren ctx

/-- Override of `visitMultiplicativeExpression(JavaParser::MultiplicativeExpressionContext *ctx)`. -/
def visitMultiplicativeExpression (visitChildren : ParseTree → R) (ctx : ParseTree) : R :=
  visitChildren ctx

/-- Override of `visitAdditiveExpression(JavaParser::AdditiveExpressionContext *ctx)`. -/
def visitAdditiveExpression (visitChildren : ParseTree → R) (ctx : ParseTree) : R :=
  visitChildren ctx

/-- Override of `visitShiftExpression(JavaParser::ShiftExpressionContext *ctx)`. -/
def visitShiftExpression (visitChildren : ParseTree → R) (ctx : ParseTree) : R :=
  visitChildren ctx

/-- Override of `visitRelationalExpression(JavaParser::RelationalExpressionContext *ctx)`. -/
def visitRelationalExpression (visitChildren : ParseTree → R) (ctx : ParseTree) : R :=
  visitChildren ctx

/-- Override of `visitEqualityExpression(JavaParser::EqualityExpressionContext *ctx)`. -/
def visitEqualityExpression (visitChildren : ParseTree → R) (ctx : ParseTree) : R :=
  visitChildren ctx

/-- Override of `visitBitwiseAndExpression(JavaParser::BitwiseAndExpressionContext *ctx)`. -/
def visitBitwiseAndExpression (visitChildren : ParseTree → R) (ctx : ParseTree) : R :=
  visitChildren ctx

/-- Override of `visitBitwiseXorExpression(JavaParser::BitwiseXorExpressionContext *ctx)`. -/
def visitBitwiseXorExpression (visitChildren : ParseTree → R) (ctx : ParseTree) : R :=
  visitChildren ctx

/-- Override of `visitBitwiseOrExpression(JavaParser::BitwiseOrExpressionContext *ctx)`. -/
def visitBitwiseOrExpression (visitChildren : ParseTree → R) (ctx : ParseTree) : R :=
  visitChildren ctx

/-- Override of `visitLogicalAndExpression(JavaParser::LogicalAndExpressionContext *ctx)`. -/
def visitLogicalAndExpression (visitChildren : ParseTree → R) (ctx : ParseTree) : R :=
  visitChildren ctx

/-- Override of `visitLogicalOrExpression(JavaParser::LogicalOrExpressionContext *ctx)`. -/
def visitLogicalOrExpression (visitChildren : ParseTree → R) (ctx : ParseTree) : R :=
  visitChildren ctx

/-- Override of `visitTernaryExpression(JavaParser::TernaryExpressionContext *ctx)`. -/
def visitTernaryExpression (visitChildren : ParseTree → R) (ctx : ParseTree) : R :=
  visitChildren ctx

/-- Override of `visitAssignmentExpression(JavaParser::AssignmentExpressionContext *ctx)`. -/
def visitAssignmentExpression (visitChildren : ParseTree → R) (ctx : ParseTree) : R :=
  visitChildren ctx

/-- Override of `visitExpression(JavaParser::ExpressionContext *ctx)`. -/
def visitExpression (visitChildren : ParseTree → R) (ctx : ParseTree) : R :=
  visitChildren ctx

/-- Override of `visitPattern(JavaParser::PatternContext *ctx)`. -/
def visitPattern (visitChildren : ParseTree → R) (ctx : ParseTree) : R :=
  visitChildren ctx

/-- Override of `visitLambdaExpression(JavaParser::LambdaExpressionContext *ctx)`. -/
def visitLambdaExpression (visitChildren : ParseTree → R) (ctx : ParseTree) : R :=
  visitChildren ctx

/-- Override of `visitLambdaParameters(JavaParser::LambdaParametersContext *ctx)`. -/
def visitLambdaParameters (visitChildren : ParseTree → R) (ctx : ParseTree) : R :=
  visitChildren ctx

/-- Override of `visitLambdaBody(JavaParser::LambdaBodyContext *ctx)`. -/
def visitLambdaBody (visitChildren : ParseTree → R) (ctx : ParseTree) : R :=
  visitChildren ctx

/-- Override of `visitExplicitGenericInvocationExpression(JavaParser::ExplicitGenericInvocationExpressionContext *ctx)`. -/
def visitExplicitGenericInvocationExpression (visitChildren : ParseTree → R) (ctx : ParseTree) : R :=
  visitChildren ctx

/-- Override of `visitThisExpression(JavaParser::ThisExpressionContext *ctx)`. -/
def visitThisExpression (visitChildren : ParseTree → R) (ctx : ParseTree) : R :=
  visitChildren ctx

/-- Override of `visitMemberReferenceExpression(JavaParser::MemberReferenceExpressionContext *ctx)`. -/
def visitMemberReferenceExpression (visitChildren : ParseTree → R) (ctx : ParseTree) : R :=
  visitChildren ctx

/-- Override of `visitMethodCallExpression(JavaParser::MethodCallExpressionContext *ctx)`. -/
def visitMethodCallExpression (visitChildren : ParseTree → R) (ctx : ParseTree) : R :=
  visitChildren ctx

/-- Override of `visitMethodReferenceExpression(JavaParser::MethodReferenceExpressionContext *ctx)`. -/
def visitMethodReferenceExpression (visitChildren : ParseTree → R) (ctx : ParseTree) : R :=
  visitChildren ctx

/-- Override of `visitParExpr(JavaParser::ParExprContext *ctx)`. -/
def visitParExpr (visitChildren : ParseTree → R) (ctx : ParseTree) : R :=
  visitChildren ctx

/-- Override of `visitLiteralExpression(JavaParser::LiteralExpressionContext *ctx)`. -/
def visitLiteralExpression (visitChildren : ParseTree → R) (ctx : ParseTree) : R :=
  visitChildren ctx

/-- Override of `visitClassExpression(JavaParser::ClassExpressionContext *ctx)`. -/
def visitClassExpression (visitChildren : ParseTree → R) (ctx : ParseTree) : R :=
  visitChildren ctx

/-- Override of `visitSuperExpression(JavaParser::SuperExpressionContext *ctx)`. -/
def visitSuperExpression (visitChildren : ParseTree → R) (ctx : ParseTree) : R :=
  visitChildren ctx

/-- Override of `visitArrayAccessExpression(JavaParser::ArrayAccessExpressionContext *ctx)`. -/
def visitArrayAccessExpression (visitChildren : ParseTree → R) (ctx : ParseTree) : R :=
  visitChildren ctx

/-- Override of `visitIdentifierExpression(JavaParser::IdentifierExpressionContext *ctx)`. -/
def visitIdentifierExpression (visitChildren : ParseTree → R) (ctx : ParseTree) : R :=
  visitChildren ctx

/-- Override of `visitSwitchExpression(JavaParser::SwitchExpressionContext *ctx)`. -/
def visitSwitchExpression (visitChildren : ParseTree → R) (ctx : ParseTree) : R :=
  visitChildren ctx

/-- Override of `visitSwitchLabeledRule(JavaParser::SwitchLabeledRuleContext *ctx)`. -/
def visitSwitchLabeledRule (visitChildren : ParseTree → R) (ctx : ParseTree) : R :=
  visitChildren ctx

/-- Override of `visitGuardedPattern(JavaParser::GuardedPatternContext *ctx)`. -/
def visitGuardedPattern (visitChildren : ParseTree → R) (ctx : ParseTree) : R :=
  visitChildren ctx

/-- Override of `visitSwitchRuleOutcome(JavaParser::SwitchRuleOutcomeContext *ctx)`. -/
def visitSwitchRuleOutcome (visitChildren : ParseTree → R) (ctx : ParseTree) : R :=
  visitChildren ctx

/-- Override of `visitClassType(JavaParser::ClassTypeContext *ctx)`. -/
def visitClassType (visitChildren : ParseTree → R) (ctx : ParseTree) : R :=
  visitChildren ctx

/-- Override of `visitCreator(JavaParser::CreatorContext *ctx)`. -/
def visitCreator (visitChildren : ParseTree → R) (ctx : ParseTree) : R :=
  visitChildren ctx

/-- Override of `visitObjectCreator(JavaParser::ObjectCreatorContext *ctx)`. -/
def visitObjectCreator (visitChildren : ParseTree → R) (ctx : ParseTree) : R :=
  visitChildren ctx

/-- Override of `visitCreatedName(JavaParser::CreatedNameContext *ctx)`. -/
def visitCreatedName (visitChildren : ParseTree → R) (ctx : ParseTree) : R :=
  visitChildren ctx

/-- Override of `visitCoitDiamond(JavaParser::CoitDiamondContext *ctx)`. -/
def visitCoitDiamond (visitChildren : ParseTree → R) (ctx : ParseTree) : R :=
  visitChildren ctx

/-- Override of `visitInnerCreator(JavaParser::InnerCreatorContext *ctx)`. -/
def visitInnerCreator (visitChildren : ParseTree → R) (ctx : ParseTree) : R :=
  visitChildren ctx

/-- Override of `visitDimExpr(JavaParser::DimExprContext *ctx)`. -/
def visitDimExpr (visitChildren : ParseTree → R) (ctx : ParseTree) : R :=
  visitChildren ctx

/-- Override of `visitArrayCreator(JavaParser::ArrayCreatorContext *ctx)`. -/
def visitArrayCreator (visitChildren : ParseTree → R) (ctx : ParseTree) : R :=
  visitChildren ctx

/-- Override of `visitExplicitGenericInvocation(JavaParser::ExplicitGenericInvocationContext *ctx)`. -/
def visitExplicitGenericInvocation (visitChildren : ParseTree → R) (ctx : ParseTree) : R :=
  visitChildren ctx

/-- Override of `visitTypeArgumentsOrDiamond(JavaParser::TypeArgumentsOrDiamondContext *ctx)`. -/
def visitTypeArgumentsOrDiamond (visitChildren : ParseTree → R) (ctx : ParseTree) : R :=
  visitChildren ctx

/-- Override of `visitNonWildcardTypeArgumentsOrDiamond(JavaParser::NonWildcardTypeArgumentsOrDiamondContext *ctx)`. -/
def visitNonWildcardTypeArgumentsOrDiamond (visitChildren : ParseTree → R) (ctx : ParseTree) : R :=
  visitChildren ctx

/-- Override of `visitNonWildcardTypeArguments(JavaParser::NonWildcardTypeArgumentsContext *ctx)`. -/
def visitNonWildcardTypeArguments (visitChildren : ParseTree → R) (ctx : ParseTree) : R :=
  visitChildren ctx

/-- Override of `visitTypeList(JavaParser::TypeListContext *ctx)`. -/
def visitTypeList (visitChildren : ParseTree → R) (ctx : ParseTree) : R :=
  visitChildren ctx

/-- Override of `visitTypeType(JavaParser::TypeTypeContext *ctx)`. -/
def visitTypeType (visitChildren : ParseTree → R) (ctx : ParseTree) : R :=
  visitChildren ctx

/-- Override of `visitPrimitiveType(JavaParser::PrimitiveTypeContext *ctx)`. -/
def visitPrimitiveType (visitChildren : ParseTree → R) (ctx : ParseTree) : R :=
  visitChildren ctx

/-- Override of `visitTypeArguments(JavaParser::TypeArgumentsContext *ctx)`. -/
def visitTypeArguments (visitChildren : ParseTree → R) (ctx : ParseTree) : R :=
  visitChildren ctx

/-- Override of `visitSuperSuffix(JavaParser::SuperSuffixContext *ctx)`. -/
def visitSuperSuffix (visitChildren : ParseTree → R) (ctx : ParseTree) : R :=
  visitChildren ctx

/-- Override of `visitExplicitGenericInvocationSuffix(JavaParser::ExplicitGenericInvocationSuffixContext *ctx)`. -/
def visitExplicitGenericInvocationSuffix (visitChildren : ParseTree → R) (ctx : ParseTree) : R :=
  visitChildren ctx

/-- Override of `visitArguments(JavaParser::ArgumentsContext *ctx)`. -/
def visitArguments (visitChildren : ParseTree → R) (ctx : ParseTree) : R :=
  visitChildren ctx

/-- Every override of `JavaParserBaseVisitor` with the class of its parameter, in source
order. -/
def methods (R : Type) : List (VisitMethod R) := [
  VisitMethod.mk "visitCompilationUnit" Context.CompilationUnitContext visitCompilationUnit,
  VisitMethod.mk "visitDeclarationStart" Context.DeclarationStartContext visitDeclarationStart,
  VisitMethod.mk "visitStatementStart" Context.StatementStartContext visitStatementStart,
  VisitMethod.mk "visitExpressionStart" Context.ExpressionStartContext visitExpressionStart,
  VisitMethod.mk "visitDirectiveStart" Context.DirectiveStartContext visitDirectiveStart,
  VisitMethod.mk "visitOrdinaryCompilationUnit" Context.OrdinaryCompilationUnitContext visitOrdinaryCompilationUnit,
  VisitMethod.mk "visitModularCompilationUnit" Context.ModularCompilationUnitContext visitModularCompilationUnit,
  VisitMethod.mk "visitPackageDeclaration" Context.PackageDeclarationContext visitPackageDeclaration,
  VisitMethod.mk "visitImportDeclaration" Context.ImportDeclarationContext visitImportDeclaration,
  VisitMethod.mk "visitTypeDeclaration" Context.TypeDeclarationContext visitTypeDeclaration,
  VisitMethod.mk "visitModifier" Context.ModifierContext visitModifier,
  VisitMethod.mk "visitClassOrInterfaceModifier" Context.ClassOrInterfaceModifierContext visitClassOrInterfaceModifier,
  VisitMethod.mk "visitVariableModifier" Context.VariableModifierContext visitVariableModifier,
  VisitMethod.mk "visitClassDeclaration" Context.ClassDeclarationContext visitClassDeclaration,
  VisitMethod.mk "visitClassExtends" Context.ClassExtendsContext visitClassExtends,
  VisitMethod.mk "visitClassImplements" Context.ClassImplementsContext visitClassImplements,
  VisitMethod.mk "visitClassPermits" Context.ClassPermitsContext visitClassPermits,
  VisitMethod.mk "visitTypeParameters" Context.TypeParametersContext visitTypeParameters,
  VisitMethod.mk "visitTypeParameter" Context.TypeParameterContext visitTypeParameter,
  VisitMethod.mk "visitTypeBound" Context.TypeBoundContext visitTypeBound,
  VisitMethod.mk "visitEnumDeclaration" Context.EnumDeclarationContext visitEnumDeclaration,
  VisitMethod.mk "visitEnumConstants" Context.EnumConstantsContext visitEnumConstants,
  VisitMethod.mk "visitEnumConstant" Context.EnumConstantContext visitEnumConstant,
  VisitMethod.mk "visitEnumBodyDeclarations" Context.EnumBodyDeclarationsContext visitEnumBodyDeclarations,
  VisitMethod.mk "visitInterfaceDeclaration" Context.InterfaceDeclarationContext visitInterfaceDeclaration,
  VisitMethod.mk "visitClassBody" Context.ClassBodyContext visitClassBody,
  VisitMethod.mk "visitInterfaceBody" Context.InterfaceBodyContext visitInterfaceBody,
  VisitMethod.mk "visitClassBodyDeclaration" Context.ClassBodyDeclarationContext visitClassBodyDeclaration,
  VisitMethod.mk "visitMemberDeclaration" Context.MemberDeclarationContext visitMemberDeclaration,
  VisitMethod.mk "visitMethodDeclaration" Context.MethodDeclarationContext visitMethodDeclaration,
  VisitMethod.mk "visitDims" Context.DimsContext visitDims,
  VisitMethod.mk "visitDim" Context.DimContext visitDim,
  VisitMethod.mk "visitThrows_" Context.Throws_Context visitThrows_,
  VisitMethod.mk "visitMethodBody" Context.MethodBodyContext visitMethodBody,
  VisitMethod.mk "visitTypeTypeOrVoid" Context.TypeTypeOrVoidContext visitTypeTypeOrVoid,
  VisitMethod.mk "visitConstructorDeclaration" Context.ConstructorDeclarationContext visitConstructorDeclaration,
  VisitMethod.mk "visitCompactConstructorDeclaration" Context.CompactConstructorDeclarationContext visitCompactConstructorDeclaration,
  VisitMethod.mk "visitFieldDeclaration" Context.FieldDeclarationContext visitFieldDeclaration,
  VisitMethod.mk "visitInterfaceBodyDeclaration" Context.InterfaceBodyDeclarationContext visitInterfaceBodyDeclaration,
  VisitMethod.mk "visitInterfaceMemberDeclaration" Context.InterfaceMemberDeclarationContext visitInterfaceMemberDeclaration,
  VisitMethod.mk "visitConstDeclaration" Context.ConstDeclarationContext visitConstDeclaration,
  VisitMethod.mk "visitInterfaceMethodModifier" Context.InterfaceMethodModifierContext visitInterfaceMethodModifier,
  VisitMethod.mk "visitInterfaceMethodDeclaration" Context.InterfaceMethodDeclarationContext visitInterfaceMethodDeclaration,
  VisitMethod.mk "visitVariableDeclarators" Context.VariableDeclaratorsContext visitVariableDeclarators,
  VisitMethod.mk "visitVariableDeclarator" Context.VariableDeclaratorContext visitVariableDeclarator,
  VisitMethod.mk "visitVariableDeclaratorId" Context.VariableDeclaratorIdContext visitVariableDeclaratorId,
  VisitMethod.mk "visitVariableInitializer" Context.VariableInitializerContext visitVariableInitializer,
  VisitMethod.mk "visitArrayInitializer" Context.ArrayInitializerContext visitArrayInitializer,
  VisitMethod.mk "visitClassOrInterfaceType" Context.ClassOrInterfaceTypeContext visitClassOrInterfaceType,
  VisitMethod.mk "visitCoit" Context.CoitContext visitCoit,
  VisitMethod.mk "visitTypeArgument" Context.TypeArgumentContext visitTypeArgument,
  VisitMethod.mk "visitQualifiedNameList" Context.QualifiedNameListContext visitQualifiedNameList,
  VisitMethod.mk "visitFormalParameters" Context.FormalParametersContext visitFormalParameters,
  VisitMethod.mk "visitReceiverParameter" Context.ReceiverParameterContext visitReceiverParameter,
  VisitMethod.mk "visitFormalParameterList" Context.FormalParameterListContext visitFormalParameterList,
  VisitMethod.mk "visitFormalParameter" Context.FormalParameterContext visitFormalParameter,
  VisitMethod.mk "visitLastFormalParameter" Context.LastFormalParameterContext visitLastFormalParameter,
  VisitMethod.mk "visitLambdaLVTIList" Context.LambdaLVTIListContext visitLambdaLVTIList,
  VisitMethod.mk "visitLambdaLVTIParameter" Context.LambdaLVTIParameterContext visitLambdaLVTIParameter,
  VisitMethod.mk "visitQualifiedName" Context.QualifiedNameContext visitQualifiedName,
  VisitMethod.mk "visitLiteral" Context.LiteralContext visitLiteral,
  VisitMethod.mk "visitIntegerLiteral" Context.IntegerLiteralContext visitIntegerLiteral,
  VisitMethod.mk "visitFloatLiteral" Context.FloatLiteralContext visitFloatLiteral,
  VisitMethod.mk "visitAnnotation" Context.AnnotationContext visitAnnotation,
  VisitMethod.mk "visitElementValuePairs" Context.ElementValuePairsContext visitElementValuePairs,
  VisitMethod.mk "visitElementValuePair" Context.ElementValuePairContext visitElementValuePair,
  VisitMethod.mk "visitElementValue" Context.ElementValueContext visitElementValue,
  VisitMethod.mk "visitElementValueArrayInitializer" Context.ElementValueArrayInitializerContext visitElementValueArrayInitializer,
  VisitMethod.mk "visitAnnotationTypeDeclaration" Context.AnnotationTypeDeclarationContext visitAnnotationTypeDeclaration,
  VisitMethod.mk "visitAnnotationTypeBody" Context.AnnotationTypeBodyContext visitAnnotationTypeBody,
  VisitMethod.mk "visitAnnotationTypeElementDeclaration" Context.AnnotationTypeElementDeclarationContext visitAnnotationTypeElementDeclaration,
  VisitMethod.mk "visitAnnotationTypeElementRest" Context.AnnotationTypeElementRestContext visitAnnotationTypeElementRest,
  VisitMethod.mk "visitAnnotationConstantDeclaration" Context.AnnotationConstantDeclarationContext visitAnnotationConstantDeclaration,
  VisitMethod.mk "visitAnnotationMethodDeclaration" Context.AnnotationMethodDeclarationContext visitAnnotationMethodDeclaration,
  VisitMethod.mk "visitDefaultValue" Context.DefaultValueContext visitDefaultValue,
  VisitMethod.mk "visitModuleDeclaration" Context.ModuleDeclarationContext visitModuleDeclaration,
  VisitMethod.mk "visitModuleBody" Context.ModuleBodyContext visitModuleBody,
  VisitMethod.mk "visitModuleDirective" Context.ModuleDirectiveContext visitModuleDirective,
  VisitMethod.mk "visitRequiresModifier" Context.RequiresModifierContext visitRequiresModifier,
  VisitMethod.mk "visitRecordDeclaration" Context.RecordDeclarationContext visitRecordDeclaration,
  VisitMethod.mk "visitRecordComponentList" Context.RecordComponentListContext visitRecordComponentList,
  VisitMethod.mk "visitRecordComponent" Context.RecordComponentContext visitRecordComponent,
  VisitMethod.mk "visitRecordBody" Context.RecordBodyContext visitRecordBody,
  VisitMethod.mk "visitRecordBodyDeclaration" Context.RecordBodyDeclarationContext visitRecordBodyDeclaration,
  VisitMethod.mk "visitBlock" Context.BlockContext visitBlock,
  VisitMethod.mk "visitBlockStatement" Context.BlockStatementContext visitBlockStatement,
  VisitMethod.mk "visitLocalVariableDeclaration" Context.LocalVariableDeclarationContext visitLocalVariableDeclaration,
  VisitMethod.mk "visitIdentifier" Context.IdentifierContext visitIdentifier,
  VisitMethod.mk "visitTypeIdentifier" Context.TypeIdentifierContext visitTypeIdentifier,
  VisitMethod.mk "visitLocalTypeDeclaration" Context.LocalTypeDeclarationContext visitLocalTypeDeclaration,
  VisitMethod.mk "visitStatement" Context.StatementContext visitStatement,
  VisitMethod.mk "visitSwitchBlock" Context.SwitchBlockContext visitSwitchBlock,
  VisitMethod.mk "visitCatchClause" Context.CatchClauseContext visitCatchClause,
  VisitMethod.mk "visitCatchType" Context.CatchTypeContext visitCatchType,
  VisitMethod.mk "visitFinallyBlock" Context.FinallyBlockContext visitFinallyBlock,
  VisitMethod.mk "visitResourceSpecification" Context.ResourceSpecificationContext visitResourceSpecification,
  VisitMethod.mk "visitResources" Context.ResourcesContext visitResources,
  VisitMethod.mk "visitResource" Context.ResourceContext visitResource,
  VisitMethod.mk "visitSwitchBlockStatementGroup" Context.SwitchBlockStatementGroupContext visitSwitchBlockStatementGroup,
  VisitMethod.mk "visitSwitchLabel" Context.SwitchLabelContext visitSwitchLabel,
  VisitMethod.mk "visitForInit" Context.ForInitContext visitForInit,
  VisitMethod.mk "visitParExpression" Context.ParExpressionContext visitParExpression,
  VisitMethod.mk "visitExpressionList" Context.ExpressionListContext visitExpressionList,
  VisitMethod.mk "visitMethodCall" Context.MethodCallContext visitMethodCall,
  VisitMethod.mk "visitPostfixExpression" Context.PostfixExpressionContext visitPostfixExpression,
  VisitMethod.mk "visitPrefixExpression" Context.PrefixExpressionContext visitPrefixExpression,
  VisitMethod.mk "visitTypeExpression" Context.TypeExpressionContext visitTypeExpression,
  VisitMethod.mk "visitMultiplicativeExpression" Context.MultiplicativeExpressionContext visitMultiplicativeExpression,
  VisitMethod.mk "visitAdditiveExpression" Context.AdditiveExpressionContext visitAdditiveExpression,
  VisitMethod.mk "visitShiftExpression" Context.ShiftExpressionContext visitShiftExpression,
  VisitMethod.mk "visitRelationalExpression" Context.RelationalExpressionContext visitRelationalExpression,
  VisitMethod.mk "visitEqualityExpression" Context.EqualityExpressionContext visitEqualityExpression,
  VisitMethod.mk "visitBitwiseAndExpression" Context.BitwiseAndExpressionContext visitBitwiseAndExpression,
  VisitMethod.mk "visitBitwiseXorExpression" Context.BitwiseXorExpressionContext visitBitwiseXorExpression,
  VisitMethod.mk "visitBitwiseOrExpression" Context.BitwiseOrExpressionContext visitBitwiseOrExpression,
  VisitMethod.mk "visitLogicalAndExpression" Context.LogicalAndExpressionContext visitLogicalAndExpression,
  VisitMethod.mk "visitLogicalOrExpression" Context.LogicalOrExpressionContext visitLogicalOrExpression,
  VisitMethod.mk "visitTernaryExpression" Context.TernaryExpressionContext visitTernaryExpression,
  VisitMethod.mk "visitAssignmentExpression" Context.AssignmentExpressionContext visitAssignmentExpression,
  VisitMethod.mk "visitExpression" Context.ExpressionContext visitExpression,
  VisitMethod.mk "visitPattern" Context.PatternContext visitPattern,
  VisitMethod.mk "visitLambdaExpression" Context.LambdaExpressionContext visitLambdaExpression,
  VisitMethod.mk "visitLambdaParameters" Context.LambdaParametersContext visitLambdaParameters,
  VisitMethod.mk "visitLambdaBody" Context.LambdaBodyContext visitLambdaBody,
  VisitMethod.mk "visitExplicitGenericInvocationExpression" Context.ExplicitGenericInvocationExpressionContext visitExplicitGenericInvocationExpression,
  VisitMethod.mk "visitThisExpression" Context.ThisExpressionContext visitThisExpression,
  VisitMethod.mk "visitMemberReferenceExpression" Context.MemberReferenceExpressionContext visitMemberReferenceExpression,
  VisitMethod.mk "visitMethodCallExpression" Context.MethodCallExpressionContext visitMethodCallExpression,
  VisitMethod.mk "visitMethodReferenceExpression" Context.MethodReferenceExpressionContext visitMethodReferenceExpression,
  VisitMethod.mk "visitParExpr" Context.ParExprContext visitParExpr,
  VisitMethod.mk "visitLiteralExpression" Context.LiteralExpressionContext visitLiteralExpression,
  VisitMethod.mk "visitClassExpression" Context.ClassExpressionContext visitClassExpression,
  VisitMethod.mk "visitSuperExpression" Context.SuperExpressionContext visitSuperExpression,
  VisitMethod.mk "visitArrayAccessExpression" Context.ArrayAccessExpressionContext visitArrayAccessExpression,
  VisitMethod.mk "visitIdentifierExpression" Context.IdentifierExpressionContext visitIdentifierExpression,
  VisitMethod.mk "visitSwitchExpression" Context.SwitchExpressionContext visitSwitchExpression,
  VisitMethod.mk "visitSwitchLabeledRule" Context.SwitchLabeledRuleContext visitSwitchLabeledRule,
  VisitMethod.mk "visitGuardedPattern" Context.GuardedPatternContext visitGuardedPattern,
  VisitMethod.mk "visitSwitchRuleOutcome" Context.SwitchRuleOutcomeContext visitSwitchRuleOutcome,
  VisitMethod.mk "visitClassType" Context.ClassTypeContext visitClassType,
  VisitMethod.mk "visitCreator" Context.CreatorContext visitCreator,
  VisitMethod.mk "visitObjectCreator" Context.ObjectCreatorContext visitObjectCreator,
  VisitMethod.mk "visitCreatedName" Context.CreatedNameContext visitCreatedName,
  VisitMethod.mk "visitCoitDiamond" Context.CoitDiamondContext visitCoitDiamond,
  VisitMethod.mk "visitInnerCreator" Context.InnerCreatorContext visitInnerCreator,
  VisitMethod.mk "visitDimExpr" Context.DimExprContext visitDimExpr,
  VisitMethod.mk "visitArrayCreator" Context.ArrayCreatorContext visitArrayCreator,
  VisitMethod.mk "visitExplicitGenericInvocation" Context.ExplicitGenericInvocationContext visitExplicitGenericInvocation,
  VisitMethod.mk "visitTypeArgumentsOrDiamond" Context.TypeArgumentsOrDiamondContext visitTypeArgumentsOrDiamond,
  VisitMethod.mk "visitNonWildcardTypeArgumentsOrDiamond" Context.NonWildcardTypeArgumentsOrDiamondContext visitNonWildcardTypeArgumentsOrDiamond,
  VisitMethod.mk "visitNonWildcardTypeArguments" Context.NonWildcardTypeArgumentsContext visitNonWildcardTypeArguments,
  VisitMethod.mk "visitTypeList" Context.TypeListContext visitTypeList,
  VisitMethod.mk "visitTypeType" Context.TypeTypeContext visitTypeType,
  VisitMethod.mk "visitPrimitiveType" Context.PrimitiveTypeContext visitPrimitiveType,
  VisitMethod.mk "visitTypeArguments" Context.TypeArgumentsContext visitTypeArguments,
  VisitMethod.mk "visitSuperSuffix" Context.SuperSuffixContext visitSuperSuffix,
  VisitMethod.mk "visitExplicitGenericInvocationSuffix" Context.ExplicitGenericInvocationSuffixContext visitExplicitGenericInvocationSuffix,
  VisitMethod.mk "visitArguments" Context.ArgumentsContext visitArguments
]

end JavaParserBaseVisitor

/-! ## Names and lookups -/

/-- The rule with a given index. -/
def ruleAt (i : Nat) : Option Rule :=
  rules.find? (fun r => r.index == i)

/-- The production a rule-index enumerator names: `RuleX` without its prefix `Rule`. -/
def Rule.stem (rule : Rule) : String :=
  String.mk (rule.name.data.drop 4)

/-- The accessors a context class declares. -/
def accessorsOf (cls : Context) : List Accessor :=
  cls.declaration.accessors

/-- The stronger neighbour of a rule in the operand chain: the rule with the immediately
smaller index, when the context of `rule` declares a single-valued accessor for it. -/
def nextStronger (rule : Rule) : Option Rule :=
  match rule.index with
  | i + 1 =>
    match ruleAt i with
    | some r => if (accessorsOf rule.context).contains (one r.context) then some r else none
    | none => none
  | 0 => none

/-- The operand chain below a rule, weakest level first, followed for at most `fuel` steps. -/
def operandChain : Nat → Rule → List Rule
  | 0, _ => []
  | fuel + 1, rule =>
    match nextStronger rule with
    | some r => r :: operandChain fuel r
    | none => []

/-- The operator levels of the expression grammar: the operand chain below `RuleExpression`,
weakest level first. -/
def operatorLevels : List Rule :=
  operandChain rules.length Rule.RuleExpression

/-- Whether the parser declares the precedence-parameterised overload `x(int precedence)` of
the rule function of a rule. -/
def hasPrecedenceEntry (rule : Rule) : Bool :=
  ruleFunctions.contains (precedenceEntry rule.context)

/-- Whether the parser declares the semantic predicate `xSempred(XContext *, size_t)` of a
rule. -/
def hasSempred (rule : Rule) : Bool :=
  sempreds.contains rule.context

/-- Whether the context of a rule declares a single-valued accessor for a context of the same
rule. -/
def hasOwnLevelSlot (rule : Rule) : Bool :=
  (accessorsOf rule.context).contains (one rule.context)

/-- A rule is left-recursive when the parser declares its precedence-parameterised overload and
its semantic predicate: ANTLR emits the two for the rules it rewrote from left recursion. -/
def leftRecursive (rule : Rule) : Bool :=
  hasPrecedenceEntry rule && hasSempred rule

/-- The context classes that declare the accessor `EOF()`: the start productions. -/
def startContexts : List Context :=
  contexts.filter (fun c => (accessorsOf c).contains eof)

/-- Whether the constructor of a context class takes a parameter called `parent`. -/
def takesParent (c : Context) : Bool :=
  c.declaration.ctor.params.any (fun p => p.2 == "parent")

/-- The context classes for which a context class declares an accessor, in source order. -/
def childClasses (cls : Context) : List Context :=
  ((accessorsOf cls).filterMap fun a =>
    match a.target with
    | Target.context c => some c
    | _ => none).dedup

/-- The token types for which a context class declares a terminal accessor, in source
order. -/
def terminalsOf (cls : Context) : List TokenType :=
  ((accessorsOf cls).filterMap fun a =>
    match a.target with
    | Target.terminal t => some t
    | _ => none).dedup

/-! ## Parse trees that conform to the context classes -/

/-- The class of a context node; a terminal node has none. -/
def ParseTree.cls : ParseTree → Option Context
  | ParseTree.context c _ => some c
  | _ => none

/-- Whether a context of class `d` is a `b`: `d` is `b` or is declared to derive from it. -/
def derivesFrom (d b : Context) : Bool :=
  d == b || d.declaration.base == some b

/-- Whether an accessor returns a given child: a terminal accessor `X()` the terminal nodes of
token type `X`, `EOF()` the terminal node of the end of input, an accessor for `TContext` the
contexts that are a `TContext`. -/
def Accessor.yields (a : Accessor) : ParseTree → Bool
  | ParseTree.terminal type => a.target == Target.terminal type
  | ParseTree.EOF => a.target == Target.EOF
  | ParseTree.context c _ =>
    match a.target with
    | Target.context b => derivesFrom c b
    | _ => false

/-- Whether a context class declares an accessor that returns the child. -/
def admits (cls : Context) (child : ParseTree) : Bool :=
  (accessorsOf cls).any (fun a => a.yields child)

/-- Whether the children respect the single-valued accessors of a context class: an accessor
declared as `T *t();` and not as a vector returns at most one of them. -/
def withinArity (cls : Context) (children : List ParseTree) : Bool :=
  (accessorsOf cls).all
    (fun a => a.form != AccessorForm.single || (children.filter a.yields).length ≤ 1)

/-- Whether a list of children conforms to the declaration of a context class: every child is
returned by one of its accessors, and the single-valued accessors are respected. -/
def conforms (cls : Context) (children : List ParseTree) : Bool :=
  children.all (admits cls) && withinArity cls children

/-- Whether a terminal of one of the token types of the context of the rule is among the
children. -/
def carriesOperator (rule : Rule) (children : List ParseTree) : Bool :=
  children.any fun child =>
    match child with
    | ParseTree.terminal type => (terminalsOf rule.context).contains type
    | _ => false

/-- Modelled from the spec: the class of the left-hand side of a binary operator node. The
bodies of the rule functions, which fix the order of a context's children, are not among the
sources. By §4.3 a level parses "a single operand of level L+1 as the initial left-hand side" and
then "wraps the accumulated left-hand side and new right-hand side in a binary-expression node",
"producing a left-deep tree": the left-hand side of a left-recursive level is the accumulated
node of the level itself, that of any other level the operand of the next stronger level. -/
def leftOperandClass (rule : Rule) : Option Context :=
  if leftRecursive rule then some rule.context else (nextStronger rule).map Rule.context

/-- Modelled from the spec: the order of the children of a binary operator node. The bodies of
the rule functions are not among the sources; by §4.3 the left-hand side is parsed before the
operator is consumed and the right-hand side after it, so that in a node that carries an
operator the first child is the left-hand side. -/
def leftOperandFirst (rule : Rule) (children : List ParseTree) : Bool :=
  !carriesOperator rule children ||
    match children with
    | ParseTree.context c _ :: _ => leftOperandClass rule == some c
    | _ => false

/-- A well-formed node of a binary operator level: its children conform to the declaration of
the context class of the level and come in the order of §4.3. -/
def binaryNode (rule : Rule) (children : List ParseTree) : Bool :=
  conforms rule.context children && leftOperandFirst rule children

/-- The context chain that the parse tree of a single identifier has at an operator level: one
context per level from the first of `levels` to the strongest level, then the
switch-expression, the identifier alternative of `primary`, the identifier and its terminal. -/
def identifierAt : List Rule → ParseTree
  | [] =>
    ParseTree.context Context.SwitchExpressionContext
      [ParseTree.context Context.IdentifierExpressionContext
        [ParseTree.context Context.IdentifierContext
          [ParseTree.terminal TokenType.IDENTIFIER]]]
  | rule :: stronger => ParseTree.context rule.context [identifierAt stronger]

/-- The levels from a rule to the strongest one, weakest first. -/
def levelsFrom (rule : Rule) : List Rule :=
  operatorLevels.dropWhile (fun r => r != rule)

/-- The children of the root of the parse tree of `a + b * c`: the additive node of `a`, the
terminal `ADD` and the multiplicative node of `b * c`. -/
def sumWithProduct : List ParseTree :=
  [identifierAt (levelsFrom Rule.RuleAdditiveExpression), ParseTree.terminal TokenType.ADD,
   ParseTree.context Context.MultiplicativeExpressionContext (
     [identifierAt (levelsFrom Rule.RuleMultiplicativeExpression),
      ParseTree.terminal TokenType.MUL, identifierAt (levelsFrom Rule.RuleTypeExpression)])]

/-- The parse tree of the expression `b = c`: an expression whose assignment node holds the
ternary node of `b`, the terminal `ASSIGN` and the expression node of `c`. -/
def innerAssignment : ParseTree :=
  ParseTree.context Context.ExpressionContext
    [ParseTree.context Context.AssignmentExpressionContext
      [identifierAt (levelsFrom Rule.RuleTernaryExpression),
       ParseTree.terminal TokenType.ASSIGN,
       ParseTree.context Context.ExpressionContext
         [identifierAt (levelsFrom Rule.RuleAssignmentExpression)]]]

/-- The children of the root assignment node of the parse tree of `a = b = c`: the ternary node
of `a`, the terminal `ASSIGN` and the expression node of `b = c`. -/
def chainedAssignment : List ParseTree :=
  [identifierAt (levelsFrom Rule.RuleTernaryExpression), ParseTree.terminal TokenType.ASSIGN,
   innerAssignment]

/-- The number of children of a node, a sample `visitChildren`. -/
def childCount : ParseTree → Nat
  | ParseTree.context _ children => children.length
  | _ => 0

/-! ## The expression precedence engine of the specification

The bodies of the rule functions are not among the sources; the engine is modelled from §4.3 of
the specification. -/

/-- Modelled from the spec: the expression nodes of the tree node model (§3), whose
constructors are not among the sources: "each variant carries child nodes/tokens specific to
that production, stored as named optional or repeated slots". An operand is a token, a group a
parenthesised expression, a unary node a prefix operator with its operand, a cast a
parenthesised type with its operand, a lambda its parameter tokens with its body, and a
binary-expression node is tagged with its operator and has a slot for the left and a slot for
the right operand; `missing` is an empty slot. -/
inductive SyntaxNode
  | missing
  | operand (token : TokenType)
  | group (inner : SyntaxNode)
  | unary (op : TokenType) (operand : SyntaxNode)
  | cast (type : TokenType) (operand : SyntaxNode)
  | lambda (parameters : List TokenType) (body : SyntaxNode)
  | binary (op : TokenType) (left right : SyntaxNode)
  deriving DecidableEq, Repr

/-- Modelled from the spec: one level of the precedence table (§3), "a static ordering of
binary operator categories ... with each operator's associativity". -/
structure PrecedenceLevel where
  operators : List TokenType
  rightAssociative : Bool
  deriving DecidableEq, Repr

/-- Modelled from the spec: the failures of the engine (§4.3, §7), each with the tokens that
remain at the point of failure, the offending token first; `OutOfFuel` is the model running out
of steps. -/
inductive SyntaxError
  | ExpectedExpression (remaining : List TokenType)
  | UnexpectedToken (remaining : List TokenType)
  | OutOfFuel
  deriving DecidableEq, Repr

deriving instance DecidableEq for Except

/-- The outcome of a parsing step of the engine: the node built and the tokens that remain, or
a failure. -/
abbrev Parsed := Except SyntaxError (SyntaxNode × List TokenType)

/-- Whether a slot is filled. -/
def SyntaxNode.present : SyntaxNode → Bool
  | SyntaxNode.missing => false
  | _ => true

/-- Whether every binary-expression node of a tree has both its operand slots filled. -/
def SyntaxNode.operandsFilled : SyntaxNode → Bool
  | SyntaxNode.missing => true
  | SyntaxNode.operand _ => true
  | SyntaxNode.group inner => inner.operandsFilled
  | SyntaxNode.unary _ inner => inner.operandsFilled
  | SyntaxNode.cast _ inner => inner.operandsFilled
  | SyntaxNode.lambda _ body => body.operandsFilled
  | SyntaxNode.binary _ left right =>
    left.present && right.present && left.operandsFilled && right.operandsFilled

/-- The terminal leaves of a tree, from left to right. -/
def SyntaxNode.leaves : SyntaxNode → List TokenType
  | SyntaxNode.missing => []
  | SyntaxNode.operand token => [token]
  | SyntaxNode.group inner => TokenType.LPAREN :: (inner.leaves ++ [TokenType.RPAREN])
  | SyntaxNode.unary op inner => op :: inner.leaves
  | SyntaxNode.cast type inner =>
    TokenType.LPAREN :: type :: TokenType.RPAREN :: inner.leaves
  | SyntaxNode.lambda parameters body => parameters ++ TokenType.ARROW :: body.leaves
  | SyntaxNode.binary op left right => left.leaves ++ op :: right.leaves

/-- Whether the operand of every cast node of a tree begins with a token that satisfies
`allowed`. -/
def SyntaxNode.castOperandsBegin (allowed : TokenType → Bool) : SyntaxNode → Bool
  | SyntaxNode.missing => true
  | SyntaxNode.operand _ => true
  | SyntaxNode.group inner => inner.castOperandsBegin allowed
  | SyntaxNode.unary _ inner => inner.castOperandsBegin allowed
  | SyntaxNode.cast _ inner =>
    (match inner.leaves with
      | first :: _ => allowed first
      | [] => false) && inner.castOperandsBegin allowed
  | SyntaxNode.lambda _ body => body.castOperandsBegin allowed
  | SyntaxNode.binary _ left right =>
    left.castOperandsBegin allowed && right.castOperandsBegin allowed

/-- The token types that are an operand by themselves: the identifier (code 128) and the
literals (codes 67 to 77). -/
def isOperand (type : TokenType) : Bool :=
  type.code == 128 || (67 ≤ type.code && type.code ≤ 77)

/-- The prefix operators: the terminals of the prefix-expression context. -/
def prefixOperators : List TokenType :=
  terminalsOf Context.PrefixExpressionContext

/-- The postfix operators: the terminals of the postfix-expression context. -/
def postfixOperators : List TokenType :=
  terminalsOf Context.PostfixExpressionContext

/-- The token types that name a type by themselves: the identifier and the primitive types,
the terminals of the primitive-type context. -/
def isTypeName (type : TokenType) : Bool :=
  type == TokenType.IDENTIFIER || (terminalsOf Context.PrimitiveTypeContext).contains type

/-- Whether a token starts an infix (or postfix) continuation of a primary expression: it is
an operator of the table or a postfix operator. -/
def continuesPrimary (table : List PrecedenceLevel) (type : TokenType) : Bool :=
  table.any (fun entry => entry.operators.contains type) || postfixOperators.contains type

/-- Whether a token starts an operand: an operand token, a parenthesis or a prefix operator. -/
def startsOperand (type : TokenType) : Bool :=
  isOperand type || type == TokenType.LPAREN || prefixOperators.contains type

/-- Modelled from the spec: cast against parenthesised expression (§4.3). "On seeing `( Type )`
followed by a token that cannot start an infix continuation of a primary expression, the engine
commits to a cast; otherwise it reinterprets the parenthesized construct as a grouped
expression", by "one token of trial lookahead past the closing parenthesis". Given the tokens
after the opening parenthesis, the result is the type and the tokens of the operand when the
engine commits to a cast. A type is a single type name here. -/
def castTarget (table : List PrecedenceLevel) :
    List TokenType → Option (TokenType × List TokenType)
  | type :: closing :: next :: more =>
    if isTypeName type && closing == TokenType.RPAREN && startsOperand next &&
        !continuesPrimary table next then
      some (type, next :: more)
    else none
  | _ => none

/-- Modelled from the spec: the parameters of a lambda in parentheses (§4.3, "`( params ) ->`
is recognized by scanning ahead for `->`"). Given the tokens after the opening parenthesis,
the result is the tokens up to the closing parenthesis and the tokens after the arrow, when
identifiers separated by commas, a closing parenthesis and an arrow are ahead. -/
def scanParameters : List TokenType → Option (List TokenType × List TokenType)
  | [] => none
  | [_] => none
  | first :: second :: more =>
    if first == TokenType.IDENTIFIER && second == TokenType.COMMA then
      match scanParameters more with
      | some (parameters, rest) => some (first :: second :: parameters, rest)
      | none => none
    else if first == TokenType.IDENTIFIER && second == TokenType.RPAREN then
      match more with
      | arrow :: rest =>
        if arrow == TokenType.ARROW then some ([first, second], rest) else none
      | [] => none
    else none

/-- Modelled from the spec: lambda against parenthesised expression (§4.3). "`identifier ->` or
`( params ) ->` is recognized by scanning ahead for `->` before committing; otherwise falls
through". The result is the parameter tokens and the tokens after the arrow. -/
def lambdaHead : List TokenType → Option (List TokenType × List TokenType)
  | [] => none
  | [_] => none
  | first :: second :: more =>
    if first == TokenType.IDENTIFIER && second == TokenType.ARROW then
      some ([first], more)
    else if first == TokenType.LPAREN && second == TokenType.RPAREN then
      match more with
      | arrow :: rest =>
        if arrow == TokenType.ARROW then some ([first, second], rest) else none
      | [] => none
    else if first == TokenType.LPAREN then
      match scanParameters (second :: more) with
      | some (parameters, rest) => some (first :: parameters, rest)
      | none => none
    else none

/-- Modelled from the spec: the loop of `parseLevel` (§4.3). It "repeatedly checks whether the
current token matches an operator belonging to level L; if so, consumes it, recursively parses
the right-hand side at the appropriate level ..., and wraps the accumulated left-hand side and
new right-hand side in a binary-expression node tagged with the operator. Loop terminates when
no operator at level L matches." A failure of the right-hand side propagates. -/
def climb (operators : List TokenType) (parseRhs : List TokenType → Parsed) :
    Nat → SyntaxNode → List TokenType → Parsed
  | 0, _, _ => Except.error SyntaxError.OutOfFuel
  | _ + 1, lhs, [] => Except.ok (lhs, [])
  | fuel + 1, lhs, token :: rest =>
    if operators.contains token then
      match parseRhs rest with
      | Except.ok (rhs, rest') =>
        climb operators parseRhs fuel (SyntaxNode.binary token lhs rhs) rest'
      | Except.error e => Except.error e
    else
      Except.ok (lhs, token :: rest)

/-- Modelled from the spec: an operand past the strongest level of the table (§4.3, "unary /
postfix, primary"): an operand token, a prefix operator with its operand, a cast, or a
parenthesised expression; `operand` parses an operand and `expression` an expression. "A level
that cannot find a valid operand signals `ExpectedExpression` at the current token". -/
def parsePrimary (table : List PrecedenceLevel) (operand expression : List TokenType → Parsed) :
    List TokenType → Parsed
  | [] => Except.error (SyntaxError.ExpectedExpression [])
  | token :: rest =>
    if isOperand token then
      Except.ok (SyntaxNode.operand token, rest)
    else if prefixOperators.contains token then
      match operand rest with
      | Except.ok (inner, rest') => Except.ok (SyntaxNode.unary token inner, rest')
      | Except.error e => Except.error e
    else if token == TokenType.LPAREN then
      match castTarget table rest with
      | some (type, after) =>
        match operand after with
        | Except.ok (inner, rest') => Except.ok (SyntaxNode.cast type inner, rest')
        | Except.error e => Except.error e
      | none =>
        match expression rest with
        | Except.ok (_, []) => Except.error (SyntaxError.UnexpectedToken [])
        | Except.ok (inner, closing :: rest') =>
          if closing == TokenType.RPAREN then Except.ok (SyntaxNode.group inner, rest')
          else Except.error (SyntaxError.UnexpectedToken (closing :: rest'))
        | Except.error e => Except.error e
    else
      Except.error (SyntaxError.ExpectedExpression (token :: rest))

/-- Modelled from the spec: `parseLevel(L)` (§4.3), levels counted from the weakest, 0. At
level 0, the level of a whole expression, a lambda is recognised by scanning ahead for the
arrow. Otherwise the level "parses a single operand of level L+1 as the initial left-hand side"
and enters the loop; past the strongest level of the table it parses a primary operand. A
failure "propagates up, never silently producing a partial tree". The level at which the
right-hand side of an operator of level `L` is parsed is the parameter `rhs`. -/
def parseLevel (table : List PrecedenceLevel) (rhs : Nat → Nat) :
    Nat → Nat → List TokenType → Parsed
  | 0, _, _ => Except.error SyntaxError.OutOfFuel
  | fuel + 1, level, tokens =>
    match (if level = 0 then lambdaHead tokens else none) with
    | some (parameters, rest) =>
      match parseLevel table rhs fuel 0 rest with
      | Except.ok (body, rest') => Except.ok (SyntaxNode.lambda parameters body, rest')
      | Except.error e => Except.error e
    | none =>
      match table.get? level with
      | some entry =>
        match parseLevel table rhs fuel (level + 1) tokens with
        | Except.ok (lhs, rest) =>
          climb entry.operators (parseLevel table rhs fuel (rhs level)) fuel lhs rest
        | Except.error e => Except.error e
      | none =>
        parsePrimary table (parseLevel table rhs fuel level) (parseLevel table rhs fuel 0)
          tokens

/-- The binary operator levels of the header, weakest first: assignment and the levels from
logicalOr to multiplicative. -/
def binaryLevels : List Rule :=
  [Rule.RuleAssignmentExpression, Rule.RuleLogicalOrExpression, Rule.RuleLogicalAndExpression,
   Rule.RuleBitwiseOrExpression, Rule.RuleBitwiseXorExpression, Rule.RuleBitwiseAndExpression,
   Rule.RuleEqualityExpression, Rule.RuleRelationalExpression, Rule.RuleShiftExpression,
   Rule.RuleAdditiveExpression, Rule.RuleMultiplicativeExpression]

/-- Modelled from the spec: the precedence table (§3) of the binary levels, with the operators
the header declares for each of them; assignment is the one right-associative level among
them. -/
def precedenceTable : List PrecedenceLevel :=
  binaryLevels.map fun rule =>
    PrecedenceLevel.mk (terminalsOf rule.context) (rule == Rule.RuleAssignmentExpression)

/-- Modelled from the spec: the level of the right-hand side as §4.3 words it, "same level for
left-associative operators ...; the next weaker level for right-associative operators". -/
def specRhs (table : List PrecedenceLevel) (level : Nat) : Nat :=
  match table.get? level with
  | some entry => if entry.rightAssociative then level - 1 else level
  | none => level

/-- Modelled from the spec: the level of the right-hand side with which the loop of §4.3 is
left-associative, "producing a left-deep tree matching Java operator precedence and
associativity": the next stronger level for a left-associative operator, the next weaker level
for a right-associative one. -/
def strongerRhs (table : List PrecedenceLevel) (level : Nat) : Nat :=
  match table.get? level with
  | some entry => if entry.rightAssociative then level - 1 else level + 1
  | none => level

/-- The token types of `a + b * c`. -/
def sumWithProductTokens : List TokenType :=
  [TokenType.IDENTIFIER, TokenType.ADD, TokenType.IDENTIFIER, TokenType.MUL,
   TokenType.IDENTIFIER]

/-- The token types of `a = b = c`. -/
def chainedAssignmentTokens : List TokenType :=
  [TokenType.IDENTIFIER, TokenType.ASSIGN, TokenType.IDENTIFIER, TokenType.ASSIGN,
   TokenType.IDENTIFIER]

/-- The Add node over `a` and the Multiply node of `b * c`. -/
def sumWithProductNode : SyntaxNode :=
  SyntaxNode.binary TokenType.ADD (SyntaxNode.operand TokenType.IDENTIFIER)
    (SyntaxNode.binary TokenType.MUL (SyntaxNode.operand TokenType.IDENTIFIER) (SyntaxNode.operand TokenType.IDENTIFIER))

/-- The Assign node over `a` and the Assign node of `b = c`. -/
def chainedAssignmentNode : SyntaxNode :=
  SyntaxNode.binary TokenType.ASSIGN (SyntaxNode.operand TokenType.IDENTIFIER)
    (SyntaxNode.binary TokenType.ASSIGN (SyntaxNode.operand TokenType.IDENTIFIER)
      (SyntaxNode.operand TokenType.IDENTIFIER))

/-- The token types of `(a + 1) * b = c - d - e`. -/
def sampleTokens : List TokenType :=
  [TokenType.LPAREN, TokenType.IDENTIFIER, TokenType.ADD, TokenType.DECIMAL_LITERAL,
   TokenType.RPAREN, TokenType.MUL, TokenType.IDENTIFIER, TokenType.ASSIGN,
   TokenType.IDENTIFIER, TokenType.SUB, TokenType.IDENTIFIER, TokenType.SUB,
   TokenType.IDENTIFIER]

/-- The tree the engine builds of `(a + 1) * b = c - d - e` when the right-hand side is parsed
at the level §4.3 names. -/
def sampleNode : SyntaxNode :=
  SyntaxNode.binary TokenType.ASSIGN
    (SyntaxNode.binary TokenType.MUL
      (SyntaxNode.group (SyntaxNode.binary TokenType.ADD (SyntaxNode.operand TokenType.IDENTIFIER)
        (SyntaxNode.operand TokenType.DECIMAL_LITERAL)))
      (SyntaxNode.operand TokenType.IDENTIFIER))
    (SyntaxNode.binary TokenType.SUB (SyntaxNode.operand TokenType.IDENTIFIER)
      (SyntaxNode.binary TokenType.SUB (SyntaxNode.operand TokenType.IDENTIFIER)
        (SyntaxNode.operand TokenType.IDENTIFIER)))


/-- The token types of `a * b + c`. -/
def productWithSumTokens : List TokenType :=
  [TokenType.IDENTIFIER, TokenType.MUL, TokenType.IDENTIFIER, TokenType.ADD,
   TokenType.IDENTIFIER]

/-- The Add node over the Multiply node of `a * b` and `c`. -/
def productWithSumNode : SyntaxNode :=
  SyntaxNode.binary TokenType.ADD
    (SyntaxNode.binary TokenType.MUL (SyntaxNode.operand TokenType.IDENTIFIER)
      (SyntaxNode.operand TokenType.IDENTIFIER))
    (SyntaxNode.operand TokenType.IDENTIFIER)

/-- Whether a token is an operator of a level of the table. -/
def operatorAt (table : List PrecedenceLevel) (level : Nat) (op : TokenType) : Bool :=
  match table.get? level with
  | some entry => entry.operators.contains op
  | none => false

/-- Whether a node is an operand of a level of the table: its root is no binary operator of a
weaker level only, and a lambda only at the weakest level; a token, a group, a unary node and a
cast are operands of every level. -/
def SyntaxNode.atLevel (table : List PrecedenceLevel) (level : Nat) : SyntaxNode → Bool
  | SyntaxNode.binary op _ _ =>
    (List.range table.length).any fun l => decide (level ≤ l) && operatorAt table l op
  | SyntaxNode.lambda _ _ => level == 0
  | _ => true

/-- Whether a tree follows the precedence table with the right-hand side at the level `rhs`
gives: every binary node has an operator of a level `l` of the table, a left operand of that
level and a right operand of the level `rhs l`. -/
def SyntaxNode.ordered (table : List PrecedenceLevel) (rhs : Nat → Nat) : SyntaxNode → Bool
  | SyntaxNode.missing => true
  | SyntaxNode.operand _ => true
  | SyntaxNode.group inner => inner.ordered table rhs
  | SyntaxNode.unary _ inner => inner.ordered table rhs
  | SyntaxNode.cast _ inner => inner.ordered table rhs
  | SyntaxNode.lambda _ body => body.ordered table rhs
  | SyntaxNode.binary op left right =>
    ((List.range table.length).any fun l =>
      operatorAt table l op && left.atLevel table l && right.atLevel table (rhs l)) &&
    left.ordered table rhs && right.ordered table rhs

/-- The level of the multiplicative operators in the precedence table. -/
def multiplicativeLevel : Nat :=
  binaryLevels.indexOf Rule.RuleMultiplicativeExpression

/-- Whether multiplication binds tighter than addition in a tree: the right operand of every
binary node with an operator of the additive context is an operand of the multiplicative
level, and so are both operands of every binary node with an operator of the multiplicative
context. -/
def SyntaxNode.productsBindTighter : SyntaxNode → Bool
  | SyntaxNode.missing => true
  | SyntaxNode.operand _ => true
  | SyntaxNode.group inner => inner.productsBindTighter
  | SyntaxNode.unary _ inner => inner.productsBindTighter
  | SyntaxNode.cast _ inner => inner.productsBindTighter
  | SyntaxNode.lambda _ body => body.productsBindTighter
  | SyntaxNode.binary op left right =>
    (!(terminalsOf Context.AdditiveExpressionContext).contains op ||
      right.atLevel precedenceTable multiplicativeLevel) &&
    (!(terminalsOf Context.MultiplicativeExpressionContext).contains op ||
      (left.atLevel precedenceTable multiplicativeLevel &&
        right.atLevel precedenceTable multiplicativeLevel)) &&
    left.productsBindTighter && right.productsBindTighter
/-- The production a context class is named after: `XContext` without `Context`. -/
def Context.stem (cls : Context) : String :=
  String.mk (cls.name.data.take (cls.name.data.length - 7))

/-- Whether the name of a token type ends in a given suffix. -/
def TokenType.nameEndsIn (type : TokenType) (suffix : String) : Bool :=
  suffix.data.isSuffixOf type.name.data

/-- The left-associative binary operator levels, strongest first: multiplicative to
logicalOr. -/
def leftAssociativeLevels : List Rule :=
  [Rule.RuleMultiplicativeExpression, Rule.RuleAdditiveExpression, Rule.RuleShiftExpression,
   Rule.RuleRelationalExpression, Rule.RuleEqualityExpression, Rule.RuleBitwiseAndExpression,
   Rule.RuleBitwiseXorExpression, Rule.RuleBitwiseOrExpression, Rule.RuleLogicalAndExpression,
   Rule.RuleLogicalOrExpression]

/-! ## Parsers of the specification for declarations, statements, types and literals -/

/-- The outcome of a parsing step that builds a parse tree. -/
abbrev ParsedTree := Except SyntaxError (ParseTree × List TokenType)

/-- The outcome of a parsing step that builds a list of parse trees. -/
abbrev ParsedTrees := Except SyntaxError (List ParseTree × List TokenType)

/-- An optional part: parsed when `starts` holds of the tokens ahead, absent otherwise. -/
def parseOptional (starts : List TokenType → Bool) (item : List TokenType → ParsedTree)
    (tokens : List TokenType) : ParsedTrees :=
  if starts tokens then
    match item tokens with
    | Except.ok (node, rest) => Except.ok ([node], rest)
    | Except.error e => Except.error e
  else Except.ok ([], tokens)

/-- A repeated part: parsed as long as `starts` holds of the tokens ahead. -/
def parseWhile (starts : List TokenType → Bool) (item : List TokenType → ParsedTree) :
    Nat → List TokenType → ParsedTrees
  | 0, _ => Except.error SyntaxError.OutOfFuel
  | fuel + 1, tokens =>
    if starts tokens then
      match item tokens with
      | Except.ok (node, rest) =>
        match parseWhile starts item fuel rest with
        | Except.ok (nodes, rest') => Except.ok (node :: nodes, rest')
        | Except.error e => Except.error e
      | Except.error e => Except.error e
    else Except.ok ([], tokens)

/-- Whether the next token is of a given type. -/
def nextIs (type : TokenType) (tokens : List TokenType) : Bool :=
  match tokens with
  | next :: _ => next == type
  | [] => false

/-- Modelled from the spec: the tokens after any leading annotations (§4.4); an annotation is
`@` and a name here. -/
def skipAnnotations : List TokenType → List TokenType
  | [] => []
  | [only] => [only]
  | first :: second :: rest =>
    if first == TokenType.AT && second == TokenType.IDENTIFIER then skipAnnotations rest
    else first :: second :: rest

/-- Modelled from the spec: whether a module declaration is ahead, "selected by one token of
lookahead after any leading annotations" (§4.4): the token is `module` or `open`, the
terminals of the module-declaration context. -/
def startsModule (tokens : List TokenType) : Bool :=
  match skipAnnotations tokens with
  | next :: _ => (terminalsOf Context.ModuleDeclarationContext).contains next
  | [] => false

/-- Modelled from the spec: `parseCompilationUnit` (§4.4) "reads an optional package
declaration, then import declarations, then repeated type declarations"; "Module declarations
... are parsed as an alternate top-level form mutually exclusive with ordinary type
declarations, selected by one token of lookahead after any leading annotations." The parsers of
the declarations are parameters. A module declaration after a package declaration is rejected,
the modular compilation unit of the header having no place for it. -/
def parseCompilationUnit
    (packageDeclaration importDeclaration typeDeclaration moduleDeclaration :
      List TokenType → ParsedTree)
    (fuel : Nat) (tokens : List TokenType) : Except SyntaxError ParseTree :=
  match parseOptional (fun ts => nextIs TokenType.PACKAGE (skipAnnotations ts))
      packageDeclaration tokens with
  | Except.error e => Except.error e
  | Except.ok (package, rest) =>
    match parseWhile (nextIs TokenType.IMPORT) importDeclaration fuel rest with
    | Except.error e => Except.error e
    | Except.ok (imports, rest') =>
      if startsModule rest' then
        if package.isEmpty then
          match moduleDeclaration rest' with
          | Except.ok (module, []) =>
            Except.ok (ParseTree.context Context.CompilationUnitContext
              [ParseTree.context Context.ModularCompilationUnitContext (imports ++ [module]),
               ParseTree.EOF])
          | Except.ok (_, token :: after) =>
            Except.error (SyntaxError.UnexpectedToken (token :: after))
          | Except.error e => Except.error e
        else Except.error (SyntaxError.UnexpectedToken rest')
      else
        match parseWhile (fun ts => !ts.isEmpty) typeDeclaration fuel rest' with
        | Except.ok (types, _) =>
          Except.ok (ParseTree.context Context.CompilationUnitContext
            [ParseTree.context Context.OrdinaryCompilationUnitContext
              (package ++ (imports ++ types)),
             ParseTree.EOF])
        | Except.error e => Except.error e

/-- Modelled from the spec: a class declaration (§4.4, §8): the keyword `class`, the
identifier and the rest of the declaration, whose parser is a parameter. A token that is no
identifier "fails with `UnexpectedToken` pointing at" it: the error holds the tokens from the
offending token on. -/
def parseClassDeclaration (remainder : List TokenType → ParsedTrees) :
    List TokenType → ParsedTree
  | [] => Except.error (SyntaxError.UnexpectedToken [])
  | keyword :: rest =>
    if keyword == TokenType.CLASS then
      match rest with
      | [] => Except.error (SyntaxError.UnexpectedToken [])
      | name :: rest' =>
        if (terminalsOf Context.IdentifierContext).contains name then
          match remainder rest' with
          | Except.ok (members, after) =>
            Except.ok (ParseTree.context Context.ClassDeclarationContext
              (ParseTree.terminal TokenType.CLASS ::
                ParseTree.context Context.IdentifierContext [ParseTree.terminal name] ::
                members), after)
          | Except.error e => Except.error e
        else Except.error (SyntaxError.UnexpectedToken (name :: rest'))
    else Except.error (SyntaxError.UnexpectedToken (keyword :: rest))

/-- Modelled from the spec: the `try` statement (§4.5): "`try` must assemble zero-or-more
catch clauses ... and an optional resource specification and finally block, with the
constraint that a `try` must have at least one of {resources, catch clause, finally block}."
The parsers of the parts are parameters; a resource specification starts with `(`, a catch
clause with `catch`, a finally block with `finally`. -/
def parseTryStatement
    (resourceSpecification block catchClause finallyBlock : List TokenType → ParsedTree)
    (fuel : Nat) : List TokenType → ParsedTree
  | [] => Except.error (SyntaxError.UnexpectedToken [])
  | keyword :: rest =>
    if keyword == TokenType.TRY then
      match parseOptional (nextIs TokenType.LPAREN) resourceSpecification rest with
      | Except.error e => Except.error e
      | Except.ok (resources, rest1) =>
        match block rest1 with
        | Except.error e => Except.error e
        | Except.ok (body, rest2) =>
          match parseWhile (nextIs TokenType.CATCH) catchClause fuel rest2 with
          | Except.error e => Except.error e
          | Except.ok (catches, rest3) =>
            match parseOptional (nextIs TokenType.FINALLY) finallyBlock rest3 with
            | Except.error e => Except.error e
            | Except.ok (finalizer, rest4) =>
              if resources.isEmpty && catches.isEmpty && finalizer.isEmpty then
                Except.error (SyntaxError.UnexpectedToken rest4)
              else
                Except.ok (ParseTree.context Context.StatementContext
                  (ParseTree.terminal TokenType.TRY ::
                    (resources ++ body :: (catches ++ finalizer))), rest4)
    else Except.error (SyntaxError.UnexpectedToken (keyword :: rest))

/-- A sample parser of a part in braces: the empty `{ }`, as a node of a given class. -/
def parseBraces (cls : Context) : List TokenType → ParsedTree
  | [] => Except.error (SyntaxError.UnexpectedToken [])
  | [only] => Except.error (SyntaxError.UnexpectedToken [only])
  | opening :: closing :: rest =>
    if opening == TokenType.LBRACE && closing == TokenType.RBRACE then
      Except.ok (ParseTree.context cls
        [ParseTree.terminal TokenType.LBRACE, ParseTree.terminal TokenType.RBRACE], rest)
    else Except.error (SyntaxError.UnexpectedToken (opening :: closing :: rest))

/-- A sample parser of a block: the empty block `{ }`. -/
def parseEmptyBlock : List TokenType → ParsedTree :=
  parseBraces Context.BlockContext

/-- A sample parser of a part that is a keyword and an empty block, as `finally { }`. -/
def parseKeywordBlock (keyword : TokenType) (cls : Context) : List TokenType → ParsedTree
  | [] => Except.error (SyntaxError.UnexpectedToken [])
  | first :: rest =>
    if first == keyword then
      match parseEmptyBlock rest with
      | Except.ok (block, rest') =>
        Except.ok (ParseTree.context cls [ParseTree.terminal keyword, block], rest')
      | Except.error e => Except.error e
    else Except.error (SyntaxError.UnexpectedToken (first :: rest))

/-- The node of a type argument that is a named type with its own type arguments, if any. -/
def typeArgumentNode (name : TokenType) (arguments : List ParseTree) : ParseTree :=
  ParseTree.context Context.TypeArgumentContext
    [ParseTree.context Context.TypeTypeContext
      [ParseTree.context Context.ClassOrInterfaceTypeContext
        [ParseTree.context Context.CoitContext
          (ParseTree.context Context.TypeIdentifierContext [ParseTree.terminal name] ::
            arguments)]]]

/-- Modelled from the spec: the end of a type-argument list (§4.3): the list is closed by one
`>` token, which is consumed, "`>>` and `>>>` ... as nested single `>` tokens"; the node holds
the `<`, the arguments and the `>`. -/
def closeTypeArguments : ParsedTrees → ParsedTree
  | Except.ok (_, []) => Except.error (SyntaxError.UnexpectedToken [])
  | Except.ok (arguments, closing :: rest) =>
    if closing == TokenType.GT then
      Except.ok (ParseTree.context Context.TypeArgumentsContext
        (ParseTree.terminal TokenType.LT :: (arguments ++ [ParseTree.terminal TokenType.GT])),
        rest)
    else Except.error (SyntaxError.UnexpectedToken (closing :: rest))
  | Except.error e => Except.error e

/-- Modelled from the spec: the arguments of a type-argument list (§4.3), after its `<`:
named types separated by commas, each with its own type-argument list if a `<` follows. -/
def typeArgumentList : Nat → List TokenType → ParsedTrees
  | 0, _ => Except.error SyntaxError.OutOfFuel
  | _ + 1, [] => Except.error (SyntaxError.UnexpectedToken [])
  | fuel + 1, name :: rest =>
    if (terminalsOf Context.TypeIdentifierContext).contains name then
      match (if nextIs TokenType.LT rest then
          match closeTypeArguments (typeArgumentList fuel rest.tail) with
          | Except.ok (nested, after) => Except.ok ([nested], after)
          | Except.error e => Except.error e
        else (Except.ok ([], rest) : ParsedTrees)) with
      | Except.error e => Except.error e
      | Except.ok (nested, after) =>
        if nextIs TokenType.COMMA after then
          match typeArgumentList fuel after.tail with
          | Except.ok (siblings, rest') =>
            Except.ok (typeArgumentNode name nested :: ParseTree.terminal TokenType.COMMA ::
              siblings, rest')
          | Except.error e => Except.error e
        else Except.ok ([typeArgumentNode name nested], after)
    else Except.error (SyntaxError.UnexpectedToken (name :: rest))

/-- Modelled from the spec: a type-argument list (§4.3): `<`, the arguments and `>`. -/
def parseTypeArguments (fuel : Nat) : List TokenType → ParsedTree
  | [] => Except.error (SyntaxError.UnexpectedToken [])
  | opening :: rest =>
    if opening == TokenType.LT then closeTypeArguments (typeArgumentList fuel rest)
    else Except.error (SyntaxError.UnexpectedToken (opening :: rest))

/-- The number of terminals of a token type among the children of a node: of the children
that the accessor `X()` returns. -/
def terminalCount (type : TokenType) (children : List ParseTree) : Nat :=
  (children.filter (tok type).yields).length

/-- Modelled from the spec: a literal (§4.3): "integer/float literal tokens are passed through
as opaque lexemes": the node of an integer or a float literal holds the token and nothing
else, inside the literal node; any other literal token is a child of the literal node
itself. -/
def parseLiteral : List TokenType → ParsedTree
  | [] => Except.error (SyntaxError.ExpectedExpression [])
  | token :: rest =>
    if (terminalsOf Context.IntegerLiteralContext).contains token then
      Except.ok (ParseTree.context Context.LiteralContext
        [ParseTree.context Context.IntegerLiteralContext [ParseTree.terminal token]], rest)
    else if (terminalsOf Context.FloatLiteralContext).contains token then
      Except.ok (ParseTree.context Context.LiteralContext
        [ParseTree.context Context.FloatLiteralContext [ParseTree.terminal token]], rest)
    else if (terminalsOf Context.LiteralContext).contains token then
      Except.ok (ParseTree.context Context.LiteralContext [ParseTree.terminal token], rest)
    else Except.error (SyntaxError.ExpectedExpression (token :: rest))

/-- The token types of `Map<String, List<Integer>>` after the name `Map`. -/
def nestedArgumentsTokens : List TokenType :=
  [TokenType.LT, TokenType.IDENTIFIER, TokenType.COMMA, TokenType.IDENTIFIER, TokenType.LT,
   TokenType.IDENTIFIER, TokenType.GT, TokenType.GT]

/-- The parse tree of the type arguments of `Map<String, List<Integer>>`. -/
def nestedArgumentsNode : ParseTree :=
  ParseTree.context Context.TypeArgumentsContext
    [ParseTree.terminal TokenType.LT,
     typeArgumentNode TokenType.IDENTIFIER [],
     ParseTree.terminal TokenType.COMMA,
     typeArgumentNode TokenType.IDENTIFIER
       [ParseTree.context Context.TypeArgumentsContext
         [ParseTree.terminal TokenType.LT, typeArgumentNode TokenType.IDENTIFIER [],
          ParseTree.terminal TokenType.GT]],
     ParseTree.terminal TokenType.GT]


/-- The node of a name that is one identifier. -/
def nameNode : ParseTree :=
  ParseTree.context Context.QualifiedNameContext
    [ParseTree.context Context.IdentifierContext [ParseTree.terminal TokenType.IDENTIFIER]]

/-- A sample parser of a declaration that is a keyword, a name and `;`, as `import x;`. -/
def parseNamed (keyword : TokenType) (cls : Context) : List TokenType → ParsedTree
  | first :: name :: semi :: rest =>
    if first == keyword && name == TokenType.IDENTIFIER && semi == TokenType.SEMI then
      Except.ok (ParseTree.context cls
        [ParseTree.terminal keyword, nameNode, ParseTree.terminal TokenType.SEMI], rest)
    else Except.error (SyntaxError.UnexpectedToken (first :: name :: semi :: rest))
  | tokens => Except.error (SyntaxError.UnexpectedToken tokens)

/-- A sample parser of a module declaration: `module m { }`. -/
def parseSampleModule : List TokenType → ParsedTree
  | first :: name :: rest =>
    if first == TokenType.MODULE && name == TokenType.IDENTIFIER then
      match parseBraces Context.ModuleBodyContext rest with
      | Except.ok (body, rest') =>
        Except.ok (ParseTree.context Context.ModuleDeclarationContext
          [ParseTree.terminal TokenType.MODULE, nameNode, body], rest')
      | Except.error e => Except.error e
    else Except.error (SyntaxError.UnexpectedToken (first :: name :: rest))
  | tokens => Except.error (SyntaxError.UnexpectedToken tokens)

/-- A sample parser of a type declaration: a class with an empty body, `class A { }`. -/
def parseSampleType (tokens : List TokenType) : ParsedTree :=
  match parseClassDeclaration
      (parseOptional (fun _ => true) (parseBraces Context.ClassBodyContext)) tokens with
  | Except.ok (declaration, rest) =>
    Except.ok (ParseTree.context Context.TypeDeclarationContext [declaration], rest)
  | Except.error e => Except.error e

/-- The compilation-unit parser over the sample parsers of the declarations. -/
def parseSampleUnit (tokens : List TokenType) : Except SyntaxError ParseTree :=
  parseCompilationUnit (parseNamed TokenType.PACKAGE Context.PackageDeclarationContext)
    (parseNamed TokenType.IMPORT Context.ImportDeclarationContext) parseSampleType
    parseSampleModule 10 tokens

/-- The node of `import x;`. -/
def importNode : ParseTree :=
  ParseTree.context Context.ImportDeclarationContext
    [ParseTree.terminal TokenType.IMPORT, nameNode, ParseTree.terminal TokenType.SEMI]

/-- The node of `package p;`. -/
def packageNode : ParseTree :=
  ParseTree.context Context.PackageDeclarationContext
    [ParseTree.terminal TokenType.PACKAGE, nameNode, ParseTree.terminal TokenType.SEMI]

/-- The node of `module m { }`. -/
def moduleNode : ParseTree :=
  ParseTree.context Context.ModuleDeclarationContext
    [ParseTree.terminal TokenType.MODULE, nameNode,
     ParseTree.context Context.ModuleBodyContext
       [ParseTree.terminal TokenType.LBRACE, ParseTree.terminal TokenType.RBRACE]]

/-- The node of the type declaration `class A { }`. -/
def classNode : ParseTree :=
  ParseTree.context Context.TypeDeclarationContext
    [ParseTree.context Context.ClassDeclarationContext
      [ParseTree.terminal TokenType.CLASS,
       ParseTree.context Context.IdentifierContext [ParseTree.terminal TokenType.IDENTIFIER],
       ParseTree.context Context.ClassBodyContext
         [ParseTree.terminal TokenType.LBRACE, ParseTree.terminal TokenType.RBRACE]]]

/-- The token types of `import x; module m { }`. -/
def modularUnitTokens : List TokenType :=
  [TokenType.IMPORT, TokenType.IDENTIFIER, TokenType.SEMI, TokenType.MODULE,
   TokenType.IDENTIFIER, TokenType.LBRACE, TokenType.RBRACE]

/-- The token types of `package p; import x; import y; class A { } class B { }`. -/
def ordinaryUnitTokens : List TokenType :=
  [TokenType.PACKAGE, TokenType.IDENTIFIER, TokenType.SEMI,
   TokenType.IMPORT, TokenType.IDENTIFIER, TokenType.SEMI,
   TokenType.IMPORT, TokenType.IDENTIFIER, TokenType.SEMI,
   TokenType.CLASS, TokenType.IDENTIFIER, TokenType.LBRACE, TokenType.RBRACE,
   TokenType.CLASS, TokenType.IDENTIFIER, TokenType.LBRACE, TokenType.RBRACE]
/-! ## Auxiliary facts -/

/-- The operand chain below `RuleExpression`, computed once. -/
theorem operatorLevels_eq :
    operatorLevels =
      [Rule.RuleAssignmentExpression, Rule.RuleTernaryExpression, Rule.RuleLogicalOrExpression,
       Rule.RuleLogicalAndExpression, Rule.RuleBitwiseOrExpression,
       Rule.RuleBitwiseXorExpression, Rule.RuleBitwiseAndExpression,
       Rule.RuleEqualityExpression, Rule.RuleRelationalExpression, Rule.RuleShiftExpression,
       Rule.RuleAdditiveExpression, Rule.RuleMultiplicativeExpression,
       Rule.RuleTypeExpression, Rule.RulePrefixExpression, Rule.RulePostfixExpression] := by
  decide!

/-- Every context class derives from `antlr4::ParserRuleContext` or from `PrimaryContext`. -/
theorem base_cases (c : Context) :
    c.declaration.base = none ∨ c.declaration.base = some Context.PrimaryContext := by
  cases c <;> first | exact Or.inl rfl | exact Or.inr rfl

/-- A context that is a `b` has class `b` itself, unless `b` is `PrimaryContext`. -/
theorem derivesFrom_eq {c b : Context} (hb : b ≠ Context.PrimaryContext)
    (h : derivesFrom c b = true) : c = b := by
  unfold derivesFrom at h
  rcases Bool.or_eq_true _ _ ▸ h with h | h
  · exact eq_of_beq h
  · have h' : c.declaration.base = some b := eq_of_beq h
    rcases base_cases c with hc | hc
    · rw [hc] at h'
      cases h'
    · rw [hc] at h'
      exact absurd (Option.some.inj h').symm hb

theorem derivesFrom_self (c : Context) : derivesFrom c c = true := by
  simp [derivesFrom]

/-- In a node that carries an operator and has its left-hand side first, the first child is a
context of the class of the left-hand side. -/
theorem leftOperandFirst_head {rule : Rule} {children : List ParseTree}
    (h : leftOperandFirst rule children = true) (hop : carriesOperator rule children = true) :
    ∃ c cs rest, children = ParseTree.context c cs :: rest ∧ leftOperandClass rule = some c := by
  unfold leftOperandFirst at h
  rw [hop] at h
  match children, h with
  | ParseTree.context c cs :: rest, h =>
    exact ⟨c, cs, rest, rfl, by simpa using h⟩
  | ParseTree.terminal _ :: _, h => simp at h
  | ParseTree.EOF :: _, h => simp at h
  | [], h => simp at h

/-- When the first child already is the one child a single-valued accessor returns, the
accessor returns none of the others. -/
theorem single_accessor_rest {cls : Context} {a : Accessor} {child : ParseTree}
    {rest : List ParseTree} (ha : a ∈ accessorsOf cls) (hs : a.form = AccessorForm.single)
    (hw : withinArity cls (child :: rest) = true) (hy : a.yields child = true) :
    ∀ other ∈ rest, a.yields other = false := by
  unfold withinArity at hw
  have h := List.all_eq_true.mp hw a ha
  simp only [hs, bne_self_eq_false, Bool.false_or, decide_eq_true_eq, List.filter_cons, hy,
    if_true, List.length_cons] at h
  have h0 : (rest.filter a.yields).length = 0 := by omega
  intro other ho
  by_contra hne
  have hmem : other ∈ rest.filter a.yields := by
    rw [List.mem_filter]
    exact ⟨ho, by simpa using hne⟩
  rw [List.length_eq_zero] at h0
  rw [h0] at hmem
  exact absurd hmem (List.not_mem_nil _)

/-- A context child that a class admits is a context of one of its child classes. -/
theorem admits_context {cls c : Context} {cs : List ParseTree}
    (h : admits cls (ParseTree.context c cs) = true) :
    ∃ b ∈ childClasses cls, derivesFrom c b = true := by
  unfold admits at h
  obtain ⟨a, ha, hy⟩ := List.any_eq_true.mp h
  unfold Accessor.yields at hy
  cases ht : a.target with
  | terminal t => simp [ht] at hy
  | EOF => simp [ht] at hy
  | context b =>
    simp only [ht] at hy
    refine ⟨b, ?_, hy⟩
    unfold childClasses
    rw [List.mem_dedup, List.mem_filterMap]
    exact ⟨a, ha, by simp [ht]⟩

/-- The other children of a well-formed operator node: when the first child is the context of
class `left` that the single-valued accessor for `left` returns, every other context among the
children is of one of the other child classes. -/
theorem operator_node_rest {cls left : Context} {cs : List ParseTree} {rest : List ParseTree}
    (hleft : left ≠ Context.PrimaryContext) (hacc : one left ∈ accessorsOf cls)
    (hwf : conforms cls (ParseTree.context left cs :: rest) = true) :
    ∀ child ∈ rest, ∀ c, child.cls = some c →
      ∃ b ∈ childClasses cls, b ≠ left ∧ derivesFrom c b = true := by
  unfold conforms at hwf
  simp only [Bool.and_eq_true] at hwf
  obtain ⟨hadm, har⟩ := hwf
  intro child hchild c hcls
  cases child with
  | terminal t => simp [ParseTree.cls] at hcls
  | EOF => simp [ParseTree.cls] at hcls
  | context d ds =>
    simp only [ParseTree.cls, Option.some.injEq] at hcls
    subst hcls
    have hself := single_accessor_rest (a := one left) hacc rfl har
      (by simp [Accessor.yields, one, derivesFrom_self]) _ hchild
    obtain ⟨b, hb, hd⟩ := admits_context
      (List.all_eq_true.mp hadm _ (List.mem_cons_of_mem _ hchild))
    refine ⟨b, hb, ?_, hd⟩
    intro hbl
    subst hbl
    simp [Accessor.yields, one, hd] at hself

/-! ## The precedence engine: auxiliary facts -/

/-- Induction over the loop: a property of a node, the tokens it was parsed from and the tokens
that remain, which the parser of the right-hand side establishes and which passes from the two
operands to a binary node, passes from the accumulated left-hand side to the result. -/
theorem climb_induct (P : SyntaxNode → List TokenType → List TokenType → Prop)
    (operators : List TokenType) (parseRhs : List TokenType → Parsed) (start : List TokenType)
    (hbinary : ∀ op lhs rhs mid r, P lhs start (op :: mid) → P rhs mid r →
      P (SyntaxNode.binary op lhs rhs) start r)
    (hrhs : ∀ tokens node rest, parseRhs tokens = Except.ok (node, rest) → P node tokens rest) :
    ∀ (fuel : Nat) (lhs : SyntaxNode) (tokens : List TokenType) (node : SyntaxNode)
      (rest : List TokenType), P lhs start tokens →
      climb operators parseRhs fuel lhs tokens = Except.ok (node, rest) → P node start rest := by
  intro fuel
  induction fuel with
  | zero =>
    intro lhs tokens node rest _ h
    simp [climb] at h
  | succ fuel ih =>
    intro lhs tokens node rest hp h
    cases tokens with
    | nil =>
      simp only [climb, Except.ok.injEq, Prod.mk.injEq] at h
      rw [← h.1, ← h.2]
      exact hp
    | cons token tail =>
      simp only [climb] at h
      split at h
      · split at h
        · rename_i rhs rest' hr
          exact ih _ _ _ _ (hbinary _ _ _ _ _ hp (hrhs _ _ _ hr)) h
        · simp at h
      · simp only [Except.ok.injEq, Prod.mk.injEq] at h
        rw [← h.1, ← h.2]
        exact hp

/-- More fuel, and a right-hand-side parser that succeeds more often with the same results,
leave a successful run of the loop unchanged. -/
theorem climb_mono (operators : List TokenType) (p q : List TokenType → Parsed)
    (hpq : ∀ tokens r, p tokens = Except.ok r → q tokens = Except.ok r) :
    ∀ (fuel : Nat) (lhs : SyntaxNode) (tokens : List TokenType) (r : SyntaxNode × List TokenType),
      climb operators p fuel lhs tokens = Except.ok r →
      climb operators q (fuel + 1) lhs tokens = Except.ok r := by
  intro fuel
  induction fuel with
  | zero =>
    intro lhs tokens r h
    simp [climb] at h
  | succ fuel ih =>
    intro lhs tokens r h
    cases tokens with
    | nil => simpa [climb] using h
    | cons token tail =>
      rw [climb] at h
      rw [climb]
      split at h
      · rename_i hop
        rw [if_pos hop]
        split at h
        · rename_i rhs rest' hr
          rw [hpq _ _ hr]
          exact ih _ _ _ h
        · simp at h
      · rename_i hop
        rw [if_neg hop]
        exact h

/-- Induction over a primary operand: a property which the parsers of the operand and of the
expression establish, and which passes to an operand token, a unary node, a cast and a group,
holds of the result. -/
theorem parsePrimary_induct (P : SyntaxNode → List TokenType → List TokenType → Prop)
    (table : List PrecedenceLevel) (operand expression : List TokenType → Parsed)
    (hoperand : ∀ token rest, isOperand token = true →
      P (SyntaxNode.operand token) (token :: rest) rest)
    (hunary : ∀ op inner rest r, prefixOperators.contains op = true → P inner rest r →
      P (SyntaxNode.unary op inner) (op :: rest) r)
    (hcast : ∀ type after inner rest r, castTarget table rest = some (type, after) →
      P inner after r → P (SyntaxNode.cast type inner) (TokenType.LPAREN :: rest) r)
    (hgroup : ∀ inner rest r, P inner rest (TokenType.RPAREN :: r) →
      P (SyntaxNode.group inner) (TokenType.LPAREN :: rest) r)
    (hop : ∀ tokens node rest, operand tokens = Except.ok (node, rest) → P node tokens rest)
    (hex : ∀ tokens node rest, expression tokens = Except.ok (node, rest) → P node tokens rest)
    (tokens : List TokenType) (node : SyntaxNode) (rest : List TokenType)
    (h : parsePrimary table operand expression tokens = Except.ok (node, rest)) :
    P node tokens rest := by
  cases tokens with
  | nil => simp [parsePrimary] at h
  | cons token tail =>
    simp only [parsePrimary] at h
    split at h
    · rename_i hisop
      simp only [Except.ok.injEq, Prod.mk.injEq] at h
      rw [← h.1, ← h.2]
      exact hoperand _ _ hisop
    · split at h
      · rename_i hpre
        split at h
        · rename_i inner rest' hi
          simp only [Except.ok.injEq, Prod.mk.injEq] at h
          rw [← h.1, ← h.2]
          exact hunary _ _ _ _ hpre (hop _ _ _ hi)
        · simp at h
      · split at h
        · rename_i hpar
          have hpar' : token = TokenType.LPAREN := eq_of_beq hpar
          subst hpar'
          split at h
          · rename_i type after hct
            split at h
            · rename_i inner rest' hi
              simp only [Except.ok.injEq, Prod.mk.injEq] at h
              rw [← h.1, ← h.2]
              exact hcast _ _ _ _ _ hct (hop _ _ _ hi)
            · simp at h
          · split at h
            · simp at h
            · rename_i inner closing rest' hi
              split at h
              · rename_i hclose
                have hclose' : closing = TokenType.RPAREN := eq_of_beq hclose
                subst hclose'
                simp only [Except.ok.injEq, Prod.mk.injEq] at h
                rw [← h.1, ← h.2]
                exact hgroup _ _ _ (hex _ _ _ hi)
              · simp at h
            · simp at h
        · simp at h

/-- Parsers of the operand and of the expression that succeed more often with the same results
leave a successful parse of a primary operand unchanged. -/
theorem parsePrimary_mono (table : List PrecedenceLevel)
    (operand expression operand2 expression2 : List TokenType → Parsed)
    (hop : ∀ tokens r, operand tokens = Except.ok r → operand2 tokens = Except.ok r)
    (hex : ∀ tokens r, expression tokens = Except.ok r → expression2 tokens = Except.ok r)
    (tokens : List TokenType) (r : SyntaxNode × List TokenType)
    (h : parsePrimary table operand expression tokens = Except.ok r) :
    parsePrimary table operand2 expression2 tokens = Except.ok r := by
  cases tokens with
  | nil => simp [parsePrimary] at h
  | cons token tail =>
    simp only [parsePrimary] at h ⊢
    split at h
    · rename_i hisop
      rw [if_pos hisop]
      exact h
    · rename_i hisop
      rw [if_neg hisop]
      split at h
      · rename_i hpre
        rw [if_pos hpre]
        cases hi : operand tail with
        | error e => simp [hi] at h
        | ok p =>
          rw [hi] at h
          rw [hop _ _ hi]
          exact h
      · rename_i hpre
        rw [if_neg hpre]
        split at h
        · rename_i hpar
          rw [if_pos hpar]
          cases hct : castTarget table tail with
          | some p =>
            obtain ⟨type, after⟩ := p
            simp only [hct] at h ⊢
            cases hi : operand after with
            | error e => simp [hi] at h
            | ok q =>
              rw [hi] at h
              rw [hop _ _ hi]
              exact h
          | none =>
            simp only [hct] at h ⊢
            cases hi : expression tail with
            | error e => simp [hi] at h
            | ok q =>
              rw [hi] at h
              rw [hex _ _ hi]
              exact h
        · simp at h

/-- One step of `parseLevel`. -/
theorem parseLevel_step (table : List PrecedenceLevel) (rhs : Nat → Nat) (fuel level : Nat)
    (tokens : List TokenType) :
    parseLevel table rhs (fuel + 1) level tokens =
      match (if level = 0 then lambdaHead tokens else none) with
      | some (parameters, rest) =>
        match parseLevel table rhs fuel 0 rest with
        | Except.ok (body, rest') => Except.ok (SyntaxNode.lambda parameters body, rest')
        | Except.error e => Except.error e
      | none =>
        match table.get? level with
        | some entry =>
          match parseLevel table rhs fuel (level + 1) tokens with
          | Except.ok (lhs, rest) =>
            climb entry.operators (parseLevel table rhs fuel (rhs level)) fuel lhs rest
          | Except.error e => Except.error e
        | none =>
          parsePrimary table (parseLevel table rhs fuel level) (parseLevel table rhs fuel 0)
            tokens := by
  rfl

/-- Induction over the engine: a property of a node, the tokens it was parsed from and the
tokens that remain, which passes to every kind of node from its parts, holds of every node the
engine returns. -/
theorem parseLevel_induct (P : SyntaxNode → List TokenType → List TokenType → Prop)
    (table : List PrecedenceLevel) (rhs : Nat → Nat)
    (hoperand : ∀ token rest, isOperand token = true →
      P (SyntaxNode.operand token) (token :: rest) rest)
    (hunary : ∀ op inner rest r, prefixOperators.contains op = true → P inner rest r →
      P (SyntaxNode.unary op inner) (op :: rest) r)
    (hcast : ∀ type after inner rest r, castTarget table rest = some (type, after) →
      P inner after r → P (SyntaxNode.cast type inner) (TokenType.LPAREN :: rest) r)
    (hgroup : ∀ inner rest r, P inner rest (TokenType.RPAREN :: r) →
      P (SyntaxNode.group inner) (TokenType.LPAREN :: rest) r)
    (hlambda : ∀ parameters tokens rest body r, lambdaHead tokens = some (parameters, rest) →
      P body rest r → P (SyntaxNode.lambda parameters body) tokens r)
    (hbinary : ∀ op lhs rhs tokens mid r, P lhs tokens (op :: mid) → P rhs mid r →
      P (SyntaxNode.binary op lhs rhs) tokens r) :
    ∀ (fuel level : Nat) (tokens : List TokenType) (node : SyntaxNode) (rest : List TokenType),
      parseLevel table rhs fuel level tokens = Except.ok (node, rest) → P node tokens rest := by
  intro fuel
  induction fuel with
  | zero =>
    intro level tokens node rest h
    simp [parseLevel] at h
  | succ fuel ih =>
    intro level tokens node rest h
    rw [parseLevel_step] at h
    split at h
    · rename_i parameters rest' hhead
      split at h
      · rename_i body rest'' hb
        simp only [Except.ok.injEq, Prod.mk.injEq] at h
        rw [← h.1, ← h.2]
        have hhead' : lambdaHead tokens = some (parameters, rest') := by
          by_cases hl : level = 0
          · simpa [hl] using hhead
          · simp [hl] at hhead
        exact hlambda _ _ _ _ _ hhead' (ih _ _ _ _ hb)
      · simp at h
    · split at h
      · rename_i entry _
        split at h
        · rename_i lhs rest' hl
          exact climb_induct P entry.operators _ tokens (fun op l r mid x => hbinary op l r tokens mid x)
            (fun ts n r hn => ih _ _ _ _ hn) fuel lhs rest' node rest (ih _ _ _ _ hl) h
        · simp at h
      · exact parsePrimary_induct P table _ _ hoperand hunary hcast hgroup
          (fun ts n r hn => ih _ _ _ _ hn) (fun ts n r hn => ih _ _ _ _ hn) tokens node rest h

/-- One more unit of fuel leaves a successful parse unchanged. -/
theorem parseLevel_succ (table : List PrecedenceLevel) (rhs : Nat → Nat) :
    ∀ (fuel level : Nat) (tokens : List TokenType) (r : SyntaxNode × List TokenType),
      parseLevel table rhs fuel level tokens = Except.ok r →
      parseLevel table rhs (fuel + 1) level tokens = Except.ok r := by
  intro fuel
  induction fuel with
  | zero =>
    intro level tokens r h
    simp [parseLevel] at h
  | succ fuel ih =>
    intro level tokens r h
    rw [parseLevel_step] at h
    rw [parseLevel_step]
    cases hhead : (if level = 0 then lambdaHead tokens else none) with
    | some p =>
      obtain ⟨parameters, rest'⟩ := p
      simp only [hhead] at h ⊢
      cases hb : parseLevel table rhs fuel 0 rest' with
      | error e => simp [hb] at h
      | ok q =>
        rw [hb] at h
        rw [ih _ _ _ hb]
        exact h
    | none =>
      simp only [hhead] at h ⊢
      cases hentry : table.get? level with
      | some entry =>
        simp only [hentry] at h ⊢
        cases hl : parseLevel table rhs fuel (level + 1) tokens with
        | error e => simp [hl] at h
        | ok p =>
          obtain ⟨lhs, rest'⟩ := p
          simp only [hl] at h
          simp only [ih _ _ _ hl]
          exact climb_mono entry.operators _ _ (fun ts x hx => ih _ _ x hx) fuel lhs rest' r h
      | none =>
        simp only [hentry] at h ⊢
        exact parsePrimary_mono table _ _ _ _ (fun ts x hx => ih _ _ x hx)
          (fun ts x hx => ih _ _ x hx) tokens r h

/-- Any larger amount of fuel leaves a successful parse unchanged. -/
theorem parseLevel_fuel (table : List PrecedenceLevel) (rhs : Nat → Nat) (fuel more level : Nat)
    (tokens : List TokenType) (r : SyntaxNode × List TokenType)
    (h : parseLevel table rhs fuel level tokens = Except.ok r) :
    parseLevel table rhs (fuel + more) level tokens = Except.ok r := by
  induction more with
  | zero => exact h
  | succ more ih => exact parseLevel_succ table rhs _ _ _ _ ih

/-- The parameters of a lambda in parentheses are the tokens up to the arrow. -/
theorem scanParameters_tokens : ∀ (tokens parameters rest : List TokenType),
    scanParameters tokens = some (parameters, rest) →
    tokens = parameters ++ TokenType.ARROW :: rest
  | [], _, _, h => by simp [scanParameters] at h
  | [_], _, _, h => by simp [scanParameters] at h
  | first :: second :: more, parameters, rest, h => by
    simp only [scanParameters] at h
    split at h
    · cases hs : scanParameters more with
      | none => simp [hs] at h
      | some p =>
        obtain ⟨ps, r⟩ := p
        simp only [hs, Option.some.injEq, Prod.mk.injEq] at h
        have ih := scanParameters_tokens more ps r hs
        rw [← h.1, ← h.2, ih]
        rfl
    · split at h
      · cases more with
        | nil => simp at h
        | cons arrow r =>
          simp only at h
          split at h
          · rename_i harrow
            have harrow' : arrow = TokenType.ARROW := eq_of_beq harrow
            simp only [Option.some.injEq, Prod.mk.injEq] at h
            rw [← h.1, ← h.2, harrow']
            rfl
          · simp at h
      · simp at h

/-- The head of a lambda is the tokens up to the arrow. -/
theorem lambdaHead_tokens (tokens parameters rest : List TokenType)
    (h : lambdaHead tokens = some (parameters, rest)) :
    tokens = parameters ++ TokenType.ARROW :: rest := by
  match tokens, h with
  | [], h => simp [lambdaHead] at h
  | [_], h => simp [lambdaHead] at h
  | first :: second :: more, h =>
    simp only [lambdaHead] at h
    split at h
    · rename_i hc
      simp only [Bool.and_eq_true, beq_iff_eq] at hc
      simp only [Option.some.injEq, Prod.mk.injEq] at h
      rw [← h.1, ← h.2, hc.2]
      rfl
    · split at h
      · cases more with
        | nil => simp at h
        | cons arrow r =>
          simp only at h
          split at h
          · rename_i harrow
            have harrow' : arrow = TokenType.ARROW := eq_of_beq harrow
            simp only [Option.some.injEq, Prod.mk.injEq] at h
            rw [← h.1, ← h.2, harrow']
            rfl
          · simp at h
      · split at h
        · cases hs : scanParameters (second :: more) with
          | none => simp [hs] at h
          | some p =>
            obtain ⟨ps, r⟩ := p
            simp only [hs, Option.some.injEq, Prod.mk.injEq] at h
            have ih := scanParameters_tokens _ ps r hs
            rw [← h.1, ← h.2, ih]
            rfl
        · simp at h

/-- The target of a cast is the tokens after the opening parenthesis: the type, the closing
parenthesis and the operand, whose first token starts an operand and continues no primary
expression. -/
theorem castTarget_tokens (table : List PrecedenceLevel) (tokens after : List TokenType)
    (type : TokenType) (h : castTarget table tokens = some (type, after)) :
    tokens = type :: TokenType.RPAREN :: after ∧
    ∃ next more, after = next :: more ∧ startsOperand next = true ∧
      continuesPrimary table next = false := by
  match tokens, h with
  | [], h => simp [castTarget] at h
  | [_], h => simp [castTarget] at h
  | [_, _], h => simp [castTarget] at h
  | ty :: closing :: next :: more, h =>
    rw [castTarget] at h
    split at h
    · rename_i hc
      simp only [Bool.and_eq_true, beq_iff_eq, Bool.not_eq_true, Bool.not_eq_eq_eq_not] at hc
      simp only [Option.some.injEq, Prod.mk.injEq] at h
      rw [← h.1, ← h.2, hc.1.1.2]
      exact ⟨rfl, next, more, rfl, hc.1.2, by simpa using hc.2⟩
    · simp at h

/-- A weaker condition on the first token of the operand of a cast holds where a stronger one
does. -/
theorem castOperandsBegin_mono (p q : TokenType → Bool) (hpq : ∀ t, p t = true → q t = true) :
    ∀ node : SyntaxNode, node.castOperandsBegin p = true → node.castOperandsBegin q = true := by
  intro node
  induction node with
  | missing => intro _; rfl
  | operand token => intro _; rfl
  | group inner ih => exact ih
  | unary op inner ih => exact ih
  | cast type inner ih =>
    intro h
    simp only [SyntaxNode.castOperandsBegin, Bool.and_eq_true] at h ⊢
    refine ⟨?_, ih h.2⟩
    cases hl : inner.leaves with
    | nil => simp [hl] at h
    | cons first l =>
      simp only [hl] at h ⊢
      exact hpq _ h.1
  | lambda parameters body ih => exact ih
  | binary op left right ihl ihr =>
    intro h
    simp only [SyntaxNode.castOperandsBegin, Bool.and_eq_true] at h ⊢
    exact ⟨ihl h.1, ihr h.2⟩

/-- The operand of every cast node that the engine returns begins with a token that starts an
operand and continues no primary expression. -/
theorem parseLevel_casts (table : List PrecedenceLevel) (rhs : Nat → Nat) (fuel level : Nat)
    (tokens : List TokenType) (node : SyntaxNode) (rest : List TokenType)
    (h : parseLevel table rhs fuel level tokens = Except.ok (node, rest)) :
    node.castOperandsBegin (fun t => startsOperand t && !continuesPrimary table t) = true := by
  have key := parseLevel_induct
    (fun node tokens rest => node.leaves ++ rest = tokens ∧ node.leaves ≠ [] ∧
      node.castOperandsBegin (fun t => startsOperand t && !continuesPrimary table t) = true)
    table rhs ?_ ?_ ?_ ?_ ?_ ?_ fuel level tokens node rest h
  · exact key.2.2
  · intro token rest _
    exact ⟨rfl, by simp [SyntaxNode.leaves], rfl⟩
  · intro op inner rest r _ hi
    exact ⟨by simp [SyntaxNode.leaves, hi.1], by simp [SyntaxNode.leaves], hi.2.2⟩
  · intro type after inner rest r hct hi
    obtain ⟨hrest, next, more, hafter, hstart, hcont⟩ := castTarget_tokens table rest after type hct
    refine ⟨by simp [SyntaxNode.leaves, hi.1, hrest], by simp [SyntaxNode.leaves], ?_⟩
    simp only [SyntaxNode.castOperandsBegin, Bool.and_eq_true]
    refine ⟨?_, hi.2.2⟩
    cases hl : inner.leaves with
    | nil => exact absurd hl hi.2.1
    | cons first l =>
      have h1 := hi.1
      rw [hl, hafter] at h1
      simp only [List.cons_append, List.cons.injEq] at h1
      simp only [h1.1, hstart, hcont, Bool.not_false, Bool.and_self]
  · intro inner rest r hi
    exact ⟨by simp [SyntaxNode.leaves, ← hi.1], by simp [SyntaxNode.leaves], hi.2.2⟩
  · intro parameters tokens rest body r hhead hb
    refine ⟨?_, by simp [SyntaxNode.leaves], hb.2.2⟩
    rw [lambdaHead_tokens tokens parameters rest hhead]
    simp [SyntaxNode.leaves, hb.1]
  · intro op lhs rhs tokens mid r hl hr
    refine ⟨by simp [SyntaxNode.leaves, ← hl.1, ← hr.1], by simp [SyntaxNode.leaves], ?_⟩
    simp [SyntaxNode.castOperandsBegin, hl.2.2, hr.2.2]

/-- An operand of a level is an operand of every weaker level. -/
theorem atLevel_mono (table : List PrecedenceLevel) {a b : Nat} (hab : a ≤ b)
    (node : SyntaxNode) (h : node.atLevel table b = true) : node.atLevel table a = true := by
  cases node with
  | binary op left right =>
    simp only [SyntaxNode.atLevel, List.any_eq_true, Bool.and_eq_true, decide_eq_true_eq] at h ⊢
    obtain ⟨l, hl, hbl, hop⟩ := h
    exact ⟨l, hl, Nat.le_trans hab hbl, hop⟩
  | lambda parameters body =>
    simp only [SyntaxNode.atLevel, beq_iff_eq] at h ⊢
    omega
  | missing => rfl
  | operand token => rfl
  | group inner => rfl
  | unary op inner => rfl
  | cast type inner => rfl

/-- The loop at a level of the table returns an operand of that level that follows the table,
when the accumulated left-hand side is one and the parser of the right-hand side returns
operands of the level of the right-hand side that follow the table. -/
theorem climb_ordered (table : List PrecedenceLevel) (rhs : Nat → Nat) (level : Nat)
    (entry : PrecedenceLevel) (hentry : table.get? level = some entry)
    (parseRhs : List TokenType → Parsed)
    (hrhs : ∀ tokens node rest, parseRhs tokens = Except.ok (node, rest) →
      node.atLevel table (rhs level) = true ∧ node.ordered table rhs = true) :
    ∀ (fuel : Nat) (lhs : SyntaxNode) (tokens : List TokenType) (node : SyntaxNode)
      (rest : List TokenType), lhs.atLevel table level = true → lhs.ordered table rhs = true →
      climb entry.operators parseRhs fuel lhs tokens = Except.ok (node, rest) →
      node.atLevel table level = true ∧ node.ordered table rhs = true := by
  have hlt : level < table.length := by
    rw [List.get?_eq_some] at hentry
    exact hentry.1
  intro fuel
  induction fuel with
  | zero =>
    intro lhs tokens node rest _ _ h
    simp [climb] at h
  | succ fuel ih =>
    intro lhs tokens node rest hl ho h
    cases tokens with
    | nil =>
      simp only [climb, Except.ok.injEq, Prod.mk.injEq] at h
      rw [← h.1]
      exact ⟨hl, ho⟩
    | cons token tail =>
      simp only [climb] at h
      split at h
      · rename_i hop
        split at h
        · rename_i right rest' hr
          have hr' := hrhs _ _ _ hr
          have hat : operatorAt table level token = true := by
            simp only [operatorAt, hentry]
            exact hop
          apply ih _ _ _ _ _ _ h
          · simp only [SyntaxNode.atLevel, List.any_eq_true, Bool.and_eq_true,
              decide_eq_true_eq]
            exact ⟨level, List.mem_range.mpr hlt, Nat.le_refl _, hat⟩
          · simp only [SyntaxNode.ordered, Bool.and_eq_true, List.any_eq_true]
            exact ⟨⟨⟨level, List.mem_range.mpr hlt, ⟨hat, hl⟩, hr'.1⟩, ho⟩, hr'.2⟩
        · simp at h
      · simp only [Except.ok.injEq, Prod.mk.injEq] at h
        rw [← h.1]
        exact ⟨hl, ho⟩

/-- A primary operand is a token, or a unary node or a cast over a node that the parser of the
operand returned, or a group over a node that the parser of the expression returned. -/
theorem parsePrimary_shape (table : List PrecedenceLevel)
    (operand expression : List TokenType → Parsed) (tokens : List TokenType)
    (node : SyntaxNode) (rest : List TokenType)
    (h : parsePrimary table operand expression tokens = Except.ok (node, rest)) :
    (∃ token, node = SyntaxNode.operand token) ∨
    (∃ op inner ts r, node = SyntaxNode.unary op inner ∧ operand ts = Except.ok (inner, r)) ∨
    (∃ type inner ts r, node = SyntaxNode.cast type inner ∧
      operand ts = Except.ok (inner, r)) ∨
    (∃ inner ts r, node = SyntaxNode.group inner ∧ expression ts = Except.ok (inner, r)) := by
  cases tokens with
  | nil => simp [parsePrimary] at h
  | cons token tail =>
    simp only [parsePrimary] at h
    split at h
    · simp only [Except.ok.injEq, Prod.mk.injEq] at h
      exact Or.inl ⟨token, h.1.symm⟩
    · split at h
      · split at h
        · rename_i inner rest' hi
          simp only [Except.ok.injEq, Prod.mk.injEq] at h
          exact Or.inr (Or.inl ⟨token, inner, _, _, h.1.symm, hi⟩)
        · simp at h
      · split at h
        · split at h
          · rename_i type after hct
            split at h
            · rename_i inner rest' hi
              simp only [Except.ok.injEq, Prod.mk.injEq] at h
              exact Or.inr (Or.inr (Or.inl ⟨type, inner, _, _, h.1.symm, hi⟩))
            · simp at h
          · split at h
            · simp at h
            · rename_i inner closing rest' hi
              split at h
              · simp only [Except.ok.injEq, Prod.mk.injEq] at h
                exact Or.inr (Or.inr (Or.inr ⟨inner, _, _, h.1.symm, hi⟩))
              · simp at h
            · simp at h
        · simp at h

/-- Every node the engine returns at a level is an operand of that level and follows the
table, with the right-hand side at the level the engine parses it at. -/
theorem parseLevel_ordered (table : List PrecedenceLevel) (rhs : Nat → Nat) :
    ∀ (fuel level : Nat) (tokens : List TokenType) (node : SyntaxNode) (rest : List TokenType),
      parseLevel table rhs fuel level tokens = Except.ok (node, rest) →
      node.atLevel table level = true ∧ node.ordered table rhs = true := by
  intro fuel
  induction fuel with
  | zero =>
    intro level tokens node rest h
    simp [parseLevel] at h
  | succ fuel ih =>
    intro level tokens node rest h
    rw [parseLevel_step] at h
    split at h
    · rename_i parameters rest' hhead
      split at h
      · rename_i body rest'' hb
        simp only [Except.ok.injEq, Prod.mk.injEq] at h
        rw [← h.1]
        have hlevel : level = 0 := by
          by_cases hl : level = 0
          · exact hl
          · simp [hl] at hhead
        refine ⟨?_, (ih _ _ _ _ hb).2⟩
        simp [SyntaxNode.atLevel, hlevel]
      · simp at h
    · split at h
      · rename_i entry hentry
        split at h
        · rename_i lhs rest' hl
          have hl' := ih _ _ _ _ hl
          exact climb_ordered table rhs level entry hentry _ (fun ts n r hn => ih _ _ _ _ hn)
            fuel lhs rest' node rest (atLevel_mono table (Nat.le_succ level) lhs hl'.1) hl'.2 h
        · simp at h
      · rcases parsePrimary_shape table _ _ tokens node rest h with
          ⟨token, rfl⟩ | ⟨op, inner, ts, r, rfl, hi⟩ | ⟨type, inner, ts, r, rfl, hi⟩ |
          ⟨inner, ts, r, rfl, hi⟩
        · exact ⟨rfl, rfl⟩
        · exact ⟨rfl, (ih _ _ _ _ hi).2⟩
        · exact ⟨rfl, (ih _ _ _ _ hi).2⟩
        · exact ⟨rfl, (ih _ _ _ _ hi).2⟩

/-- In a tree that follows the precedence table of the header with the right-hand side of a
left-associative operator at the next stronger level, multiplication binds tighter than
addition. -/
theorem ordered_productsBindTighter :
    ∀ node : SyntaxNode,
      node.ordered precedenceTable (strongerRhs precedenceTable) = true →
      node.productsBindTighter = true := by
  have hlen : precedenceTable.length = 11 := by decide!
  have hmul : multiplicativeLevel = 10 := by decide!
  have hadd : ∀ l ∈ List.range 11, ∀ op ∈ terminalsOf Context.AdditiveExpressionContext,
      operatorAt precedenceTable l op = true → l = 9 := by decide!
  have hprod : ∀ l ∈ List.range 11, ∀ op ∈ terminalsOf Context.MultiplicativeExpressionContext,
      operatorAt precedenceTable l op = true → l = 10 := by decide!
  have h9 : strongerRhs precedenceTable 9 = 10 := by decide!
  have h10 : strongerRhs precedenceTable 10 = 11 := by decide!
  intro node
  induction node with
  | missing => intro _; rfl
  | operand token => intro _; rfl
  | group inner ih => exact ih
  | unary op inner ih => exact ih
  | cast type inner ih => exact ih
  | lambda parameters body ih => exact ih
  | binary op left right ihl ihr =>
    intro h
    simp only [SyntaxNode.ordered, Bool.and_eq_true, List.any_eq_true, hlen] at h
    obtain ⟨⟨⟨l, hl, ⟨hop, hleft⟩, hright⟩, hlo⟩, hro⟩ := h
    simp only [SyntaxNode.productsBindTighter, Bool.and_eq_true, Bool.or_eq_true,
      Bool.not_eq_true', hmul]
    refine ⟨⟨⟨?_, ?_⟩, ihl hlo⟩, ihr hro⟩
    · by_cases hmem : (terminalsOf Context.AdditiveExpressionContext).contains op = true
      · right
        have hl9 : l = 9 := hadd l hl op (by simpa using hmem) hop
        subst hl9
        rw [h9] at hright
        exact hright
      · left
        simpa using hmem
    · by_cases hmem : (terminalsOf Context.MultiplicativeExpressionContext).contains op = true
      · right
        have hl10 : l = 10 := hprod l hl op (by simpa using hmem) hop
        subst hl10
        rw [h10] at hright
        exact ⟨hleft, atLevel_mono precedenceTable (by omega) right hright⟩
      · left
        simpa using hmem
/-- A single-valued accessor returns at most one of the children of a conforming node. -/
theorem conforms_single {cls : Context} {a : Accessor} {children : List ParseTree}
    (ha : a ∈ accessorsOf cls) (hs : a.form = AccessorForm.single)
    (h : conforms cls children = true) : (children.filter a.yields).length ≤ 1 := by
  unfold conforms withinArity at h
  simp only [Bool.and_eq_true] at h
  have h' := List.all_eq_true.mp h.2 a ha
  simpa [hs] using h'

/-- A context among the children of a conforming node is of one of the child classes. -/
theorem conforms_child {cls : Context} {children : List ParseTree}
    (h : conforms cls children = true) {c : Context} {cs : List ParseTree}
    (hc : ParseTree.context c cs ∈ children) : ∃ b ∈ childClasses cls, derivesFrom c b = true := by
  unfold conforms at h
  simp only [Bool.and_eq_true] at h
  exact admits_context (List.all_eq_true.mp h.1 _ hc)

/-- A conforming node stays conforming when a child is added that only repeated accessors
return. -/
theorem conforms_cons_repeated {cls : Context} {child : ParseTree} {children : List ParseTree}
    (hadm : admits cls child = true)
    (hrep : ∀ a ∈ accessorsOf cls, a.form = AccessorForm.single → a.yields child = false)
    (h : conforms cls children = true) : conforms cls (child :: children) = true := by
  unfold conforms withinArity at h ⊢
  simp only [Bool.and_eq_true, List.all_cons] at h ⊢
  refine ⟨⟨hadm, h.1⟩, ?_⟩
  rw [List.all_eq_true]
  intro a ha
  have h' := List.all_eq_true.mp h.2 a ha
  by_cases hs : a.form = AccessorForm.single
  · simp only [hs, bne_self_eq_false, Bool.false_or, decide_eq_true_eq] at h' ⊢
    rw [List.filter_cons, hrep a ha hs]
    simpa using h'
  · simp [hs]

/-! ## The parsers for declarations, statements and types: auxiliary facts -/

/-- An optional part is at most one node, which its parser returned. -/
theorem parseOptional_items (starts : List TokenType → Bool) (item : List TokenType → ParsedTree)
    (tokens : List TokenType) (nodes : List ParseTree) (rest : List TokenType)
    (h : parseOptional starts item tokens = Except.ok (nodes, rest)) :
    nodes.length ≤ 1 ∧ ∀ node ∈ nodes, ∃ ts r, item ts = Except.ok (node, r) := by
  unfold parseOptional at h
  split at h
  · split at h
    · rename_i node r hn
      simp only [Except.ok.injEq, Prod.mk.injEq] at h
      rw [← h.1]
      refine ⟨by simp, ?_⟩
      intro d hd
      simp only [List.mem_singleton] at hd
      subst hd
      exact ⟨_, _, hn⟩
    · simp at h
  · simp only [Except.ok.injEq, Prod.mk.injEq] at h
    rw [← h.1]
    exact ⟨by simp, by simp⟩

/-- An optional part whose start is not ahead is absent. -/
theorem parseOptional_absent (starts : List TokenType → Bool) (item : List TokenType → ParsedTree)
    (tokens : List TokenType) (h : starts tokens = false) :
    parseOptional starts item tokens = Except.ok ([], tokens) := by
  simp [parseOptional, h]

/-- A repeated part whose start is not ahead is empty. -/
theorem parseWhile_absent (starts : List TokenType → Bool) (item : List TokenType → ParsedTree)
    (fuel : Nat) (tokens : List TokenType) (h : starts tokens = false) :
    parseWhile starts item (fuel + 1) tokens = Except.ok ([], tokens) := by
  simp [parseWhile, h]

/-- Every node of a repeated part is one its parser returned. -/
theorem parseWhile_items (starts : List TokenType → Bool) (item : List TokenType → ParsedTree) :
    ∀ (fuel : Nat) (tokens : List TokenType) (nodes : List ParseTree) (rest : List TokenType),
      parseWhile starts item fuel tokens = Except.ok (nodes, rest) →
      ∀ node ∈ nodes, ∃ ts r, item ts = Except.ok (node, r) := by
  intro fuel
  induction fuel with
  | zero =>
    intro tokens nodes rest h
    simp [parseWhile] at h
  | succ fuel ih =>
    intro tokens nodes rest h
    simp only [parseWhile] at h
    split at h
    · split at h
      · rename_i node r hn
        split at h
        · rename_i more r2 hmore
          simp only [Except.ok.injEq, Prod.mk.injEq] at h
          rw [← h.1]
          intro d hd
          simp only [List.mem_cons] at hd
          rcases hd with rfl | hd
          · exact ⟨_, _, hn⟩
          · exact ih _ _ _ hmore d hd
        · simp at h
      · simp at h
    · simp only [Except.ok.injEq, Prod.mk.injEq] at h
      rw [← h.1]
      simp

/-- A closed type-argument list is the node of the arguments between one `<` and one `>`, and
the `>` is the one token consumed. -/
theorem closeTypeArguments_node (r : ParsedTrees) (node : ParseTree) (rest : List TokenType)
    (h : closeTypeArguments r = Except.ok (node, rest)) :
    ∃ arguments, r = Except.ok (arguments, TokenType.GT :: rest) ∧
      node = ParseTree.context Context.TypeArgumentsContext
        (ParseTree.terminal TokenType.LT :: (arguments ++ [ParseTree.terminal TokenType.GT])) := by
  unfold closeTypeArguments at h
  split at h
  · simp at h
  · rename_i arguments closing after
    split at h
    · rename_i hclose
      have hclose' : closing = TokenType.GT := eq_of_beq hclose
      simp only [Except.ok.injEq, Prod.mk.injEq] at h
      rw [← h.1, ← h.2, hclose']
      exact ⟨arguments, rfl, rfl⟩
    · simp at h
  · simp at h

/-- No `<` and no `>` is among the arguments of a type-argument list: they are type-argument
nodes and commas. -/
theorem typeArgumentList_terminals :
    ∀ (fuel : Nat) (tokens : List TokenType) (nodes : List ParseTree) (rest : List TokenType),
      typeArgumentList fuel tokens = Except.ok (nodes, rest) →
      terminalCount TokenType.LT nodes = 0 ∧ terminalCount TokenType.GT nodes = 0 := by
  intro fuel
  induction fuel with
  | zero =>
    intro tokens nodes rest h
    simp [typeArgumentList] at h
  | succ fuel ih =>
    intro tokens nodes rest h
    cases tokens with
    | nil => simp [typeArgumentList] at h
    | cons name tail =>
      simp only [typeArgumentList] at h
      split at h
      · split at h
        · simp at h
        · rename_i nested after hnested
          split at h
          · split at h
            · rename_i siblings rest' hs
              simp only [Except.ok.injEq, Prod.mk.injEq] at h
              rw [← h.1]
              have ih' := ih _ _ _ hs
              unfold terminalCount at ih' ⊢
              simp only [List.filter_cons, typeArgumentNode, Accessor.yields, tok]
              exact ⟨by simpa using ih'.1, by simpa using ih'.2⟩
            · simp at h
          · simp only [Except.ok.injEq, Prod.mk.injEq] at h
            rw [← h.1]
            exact ⟨rfl, rfl⟩
      · simp at h
/-! ## The enums and the classes -/

/-- C1: the operand chain below `expression` has exactly 15 levels; from the strongest to the
weakest they are postfix, prefix, typeExpression, multiplicative, additive, shift, relational,
equality, bitwiseAnd, bitwiseXor, bitwiseOr, logicalAnd, logicalOr, ternary, assignment, their
rule indices are 104, ..., 118 and so strictly increasing, assignment is the weakest level and
postfix the strongest. -/
theorem precedence_levels :
    operatorLevels.reverse =
      [Rule.RulePostfixExpression, Rule.RulePrefixExpression, Rule.RuleTypeExpression,
       Rule.RuleMultiplicativeExpression, Rule.RuleAdditiveExpression, Rule.RuleShiftExpression,
       Rule.RuleRelationalExpression, Rule.RuleEqualityExpression,
       Rule.RuleBitwiseAndExpression, Rule.RuleBitwiseXorExpression,
       Rule.RuleBitwiseOrExpression, Rule.RuleLogicalAndExpression,
       Rule.RuleLogicalOrExpression, Rule.RuleTernaryExpression,
       Rule.RuleAssignmentExpression] ∧
    operatorLevels.length = 15 ∧
    operatorLevels.head? = some Rule.RuleAssignmentExpression ∧
    operatorLevels.getLast? = some Rule.RulePostfixExpression ∧
    operatorLevels.reverse.map Rule.index = List.range' 104 15 ∧
    (operatorLevels.reverse.map Rule.index).Pairwise (fun i j => i < j) ∧
    nextStronger Rule.RulePostfixExpression = none := by
  rw [operatorLevels_eq]
  decide!

/-- C2: among the 15 operator levels exactly postfix, multiplicative, additive, shift,
relational, equality, bitwiseAnd, bitwiseXor, bitwiseOr, logicalAnd and logicalOr are
left-recursive; a level has the overload `x(int precedence)` exactly when it has the predicate
`xSempred`, and then its context has an accessor for a context of its own level; the ternary and
the assignment level have neither overload nor predicate, only the parameterless rule function,
and they recurse through the accessors `ternaryExpression` and `expression` of the ternary
context and `expression` of the assignment context, next to the single operand of the next
stronger level. -/
theorem left_recursive_levels :
    operatorLevels.reverse.filter leftRecursive =
      [Rule.RulePostfixExpression, Rule.RuleMultiplicativeExpression,
       Rule.RuleAdditiveExpression, Rule.RuleShiftExpression, Rule.RuleRelationalExpression,
       Rule.RuleEqualityExpression, Rule.RuleBitwiseAndExpression,
       Rule.RuleBitwiseXorExpression, Rule.RuleBitwiseOrExpression,
       Rule.RuleLogicalAndExpression, Rule.RuleLogicalOrExpression] ∧
    (∀ r ∈ operatorLevels, hasPrecedenceEntry r = hasSempred r) ∧
    (∀ r ∈ operatorLevels, leftRecursive r = true → hasOwnLevelSlot r = true) ∧
    (∀ r ∈ [Rule.RuleTernaryExpression, Rule.RuleAssignmentExpression],
      r ∈ operatorLevels ∧ hasPrecedenceEntry r = false ∧ hasSempred r = false ∧
      ruleFunctions.filter (fun f => f.returns == r.context) = [entry r.context]) ∧
    childClasses Context.TernaryExpressionContext =
      [Context.LogicalOrExpressionContext, Context.ExpressionContext,
       Context.TernaryExpressionContext, Context.LambdaExpressionContext] ∧
    childClasses Context.AssignmentExpressionContext =
      [Context.TernaryExpressionContext, Context.ExpressionContext] ∧
    accessorsOf Context.ExpressionContext =
      [one Context.AssignmentExpressionContext, one Context.LambdaExpressionContext] := by
  rw [operatorLevels_eq]
  decide!

/-- C5 as stated fails: five context classes, not four, declare the end-of-input terminal; the
fifth is `DirectiveStartContext`. -/
theorem start_productions_not_four :
    Context.DirectiveStartContext ∈ startContexts ∧ ¬ startContexts.length = 4 := by
  decide!

/-- C5 as amended: exactly five productions are start rules whose node carries the end-of-input
terminal: compilationUnit, declarationStart, statementStart, expressionStart and directiveStart.
They are the productions of rule indices 0 to 4, each has a parameterless rule function and no
other, and the fifth parses a single module directive. -/
theorem start_productions :
    startContexts =
      [Context.CompilationUnitContext, Context.DeclarationStartContext,
       Context.StatementStartContext, Context.ExpressionStartContext,
       Context.DirectiveStartContext] ∧
    startContexts = (rules.take 5).map Rule.context ∧
    (rules.take 5).map Rule.index = [0, 1, 2, 3, 4] ∧
    (∀ c ∈ startContexts, ruleFunctions.filter (fun f => f.returns == c) = [entry c]) ∧
    accessorsOf Context.ExpressionStartContext = [one Context.ExpressionContext, eof] ∧
    accessorsOf Context.StatementStartContext = [one Context.BlockStatementContext, eof] ∧
    accessorsOf Context.DirectiveStartContext = [one Context.ModuleDirectiveContext, eof] := by
  decide!

/-- C7: the token-type enum defines exactly 128 kinds; their codes are pairwise distinct and are
exactly 1, ..., 128 in the order of declaration, from `ABSTRACT = 1` to `IDENTIFIER = 128`;
codes 1 to 66 are the keywords, 67 to 77 the literals, 78 to 124 the punctuation and operators,
125 to 127 white space and comments, 128 the identifier. -/
theorem token_types :
    tokenTypes.Nodup ∧
    tokenTypes.length = 128 ∧
    tokenTypes.map TokenType.code = List.range' 1 128 ∧
    (tokenTypes.map TokenType.code).Nodup ∧
    (tokenTypes.head?.map fun t => (t.name, t.code)) = some ("ABSTRACT", 1) ∧
    (tokenTypes.getLast?.map fun t => (t.name, t.code)) = some ("IDENTIFIER", 128) ∧
    [TokenType.ABSTRACT, TokenType.NON_SEALED, TokenType.DECIMAL_LITERAL,
      TokenType.NULL_LITERAL, TokenType.LPAREN, TokenType.ELLIPSIS, TokenType.WS,
      TokenType.LINE_COMMENT, TokenType.IDENTIFIER].map TokenType.code =
      [1, 66, 67, 77, 78, 124, 125, 127, 128] := by
  have hcodes : tokenTypes.map TokenType.code = List.range' 1 128 := by decide!
  have hnodup : (tokenTypes.map TokenType.code).Nodup := by
    rw [hcodes]
    exact List.nodup_range' 1 128
  exact ⟨List.Nodup.of_map TokenType.code hnodup, by decide!, hcodes, hnodup, by decide!,
    by decide!, by decide!⟩

/-- C8 as stated fails: `ThisExpressionContext` is a context class of the parser that is named
after no rule, and the parser defines 159 context classes, not 148. -/
theorem context_class_without_rule :
    Context.ThisExpressionContext ∈ contexts ∧
    (∀ r ∈ rules, ¬ r.context = Context.ThisExpressionContext) ∧
    (∀ r ∈ rules, ¬ r.stem ++ "Context" = Context.ThisExpressionContext.name) ∧
    ¬ contexts.length = 148 := by
  decide!

/-- C8 as amended: the rule-index enum lists 148 productions whose values are pairwise distinct
and exactly 0, ..., 147; each rule has exactly one context class named after it, `XContext` for
`RuleX`; these classes are the 148 forward-declared ones, in the same order, and exactly the
classes that derive from `antlr4::ParserRuleContext`; the 11 other context classes are the
labelled alternatives of `primary`, which derive from `PrimaryContext`; there are 159 classes
in all. -/
theorem node_kinds :
    rules.length = 148 ∧
    rules.map Rule.index = List.range 148 ∧
    (∀ r ∈ rules, r.name = "Rule" ++ r.stem ∧ r.context.name = r.stem ++ "Context") ∧
    rules.map Rule.context = forwardDeclarations ∧
    forwardDeclarations.Nodup ∧
    contexts.filter (fun c => c.declaration.base == none) = forwardDeclarations ∧
    contexts.filter (fun c => c.declaration.base != none) =
      [Context.ExplicitGenericInvocationExpressionContext, Context.ThisExpressionContext,
       Context.MemberReferenceExpressionContext, Context.MethodCallExpressionContext,
       Context.MethodReferenceExpressionContext, Context.ParExprContext,
       Context.LiteralExpressionContext, Context.ClassExpressionContext,
       Context.SuperExpressionContext, Context.ArrayAccessExpressionContext,
       Context.IdentifierExpressionContext] ∧
    (∀ c ∈ contexts, c.declaration.base = none ∨
      c.declaration.base = some Context.PrimaryContext) ∧
    contexts.length = 159 ∧
    contexts.Nodup := by
  have hidx : contexts.map Context.toCtorIdx = List.range 159 := by decide!
  have hfwd : forwardDeclarations.map Context.toCtorIdx =
      (List.range 159).filter (fun i => i ≤ 124 || 136 ≤ i) := by decide!
  refine ⟨by decide!, by decide!, by decide!, by decide!, ?_, by decide!, by decide!,
    by decide!, by decide!, ?_⟩
  · apply List.Nodup.of_map Context.toCtorIdx
    rw [hfwd]
    exact (List.nodup_range 159).filter _
  · apply List.Nodup.of_map Context.toCtorIdx
    rw [hidx]
    exact List.nodup_range 159

/-- C9 as stated fails: the constructor of `CompilationUnitContext` takes a reference to the
parent node. -/
theorem node_with_parent_reference :
    Context.CompilationUnitContext ∈ contexts ∧
    ("antlr4::ParserRuleContext *", "parent") ∈
      Context.CompilationUnitContext.declaration.ctor.params ∧
    takesParent Context.CompilationUnitContext = true := by
  decide!

/-- C9 as amended: every context class of a production (148 classes, `PrimaryContext` among
them) is constructed from a pointer to its parent context and the invoking state, and every
labelled alternative of `primary` (11 classes) from the `PrimaryContext` it takes over, which
declares `copyFrom`; no constructor takes a child. -/
theorem node_construction :
    (∀ c ∈ contexts,
      (c.declaration.base = none ∧ takesParent c = true ∧
        c.declaration.ctor.params =
          [("antlr4::ParserRuleContext *", "parent"), ("size_t", "invokingState")]) ∨
      (c.declaration.base = some Context.PrimaryContext ∧
        c.declaration.ctor.params = [("PrimaryContext *", "ctx")])) ∧
    (contexts.filter takesParent).length = 148 ∧
    (contexts.filter fun c => c.declaration.base == some Context.PrimaryContext).length = 11 ∧
    Context.PrimaryContext.declaration.copyFrom = true := by
  decide!

/-! ## Operator nodes -/

/-- C3: multiplication binds tighter than addition. In the precedence engine of the
specification, with the precedence table of the header and the right-hand side of a
left-associative operator parsed at the next stronger level, `a + b * c` yields, with any fuel
from 20 on, the Add node whose right child is the Multiply node of `b * c`, and `a * b + c` the
Add node over the Multiply node of `a * b`; in every tree the engine returns, the right operand
of every Add or Sub node is an operand of the multiplicative level, whose root, if it is a
binary operator, is `MUL`, `DIV` or `MOD`, and so are both operands of every node of these
three. In the header, no node that conforms to the multiplicative context class has an
additive-expression node as a direct child, and the contexts among the children of a conforming
additive node are at most one additive and at most one multiplicative node. -/
theorem multiplication_binds_tighter :
    terminalsOf Context.AdditiveExpressionContext = [TokenType.ADD, TokenType.SUB] ∧
    terminalsOf Context.MultiplicativeExpressionContext =
      [TokenType.MUL, TokenType.DIV, TokenType.MOD] ∧
    (∀ more, parseLevel precedenceTable (strongerRhs precedenceTable) (20 + more) 0
      sumWithProductTokens = Except.ok (sumWithProductNode, [])) ∧
    (∀ more, parseLevel precedenceTable (strongerRhs precedenceTable) (20 + more) 0
      productWithSumTokens = Except.ok (productWithSumNode, [])) ∧
    (∀ (fuel level : Nat) (tokens : List TokenType) (node : SyntaxNode)
      (rest : List TokenType),
      parseLevel precedenceTable (strongerRhs precedenceTable) fuel level tokens =
        Except.ok (node, rest) →
      node.productsBindTighter = true) ∧
    tokenTypes.filter (fun op =>
      (SyntaxNode.binary op SyntaxNode.missing SyntaxNode.missing).atLevel precedenceTable
        multiplicativeLevel) = [TokenType.MUL, TokenType.DIV, TokenType.MOD] ∧
    (SyntaxNode.binary TokenType.ADD (SyntaxNode.operand TokenType.IDENTIFIER)
      (SyntaxNode.binary TokenType.ADD (SyntaxNode.operand TokenType.IDENTIFIER)
        (SyntaxNode.operand TokenType.IDENTIFIER))).productsBindTighter = false ∧
    (SyntaxNode.binary TokenType.MUL
      (SyntaxNode.binary TokenType.ADD (SyntaxNode.operand TokenType.IDENTIFIER)
        (SyntaxNode.operand TokenType.IDENTIFIER))
      (SyntaxNode.operand TokenType.IDENTIFIER)).productsBindTighter = false ∧
    (∀ children : List ParseTree,
      conforms Context.MultiplicativeExpressionContext children = true →
      ∀ child ∈ children, child.cls ≠ some Context.AdditiveExpressionContext) ∧
    (∀ children : List ParseTree,
      conforms Context.AdditiveExpressionContext children = true →
      (∀ child ∈ children, ∀ c, child.cls = some c →
        c = Context.MultiplicativeExpressionContext ∨
          c = Context.AdditiveExpressionContext) ∧
      (children.filter (one Context.AdditiveExpressionContext).yields).length ≤ 1 ∧
      (children.filter (one Context.MultiplicativeExpressionContext).yields).length ≤ 1) := by
  refine ⟨by decide!, by decide!, ?_, ?_, ?_, by decide!, by decide!, by decide!, ?_, ?_⟩
  · intro more
    exact parseLevel_fuel _ _ 20 more 0 _ _ (by decide!)
  · intro more
    exact parseLevel_fuel _ _ 20 more 0 _ _ (by decide!)
  · intro fuel level tokens node rest h
    exact ordered_productsBindTighter node (parseLevel_ordered _ _ _ _ _ _ _ h).2
  · intro children hwf child hchild hcls
    cases child with
    | terminal t => simp [ParseTree.cls] at hcls
    | EOF => simp [ParseTree.cls] at hcls
    | context d ds =>
      simp only [ParseTree.cls, Option.some.injEq] at hcls
      subst hcls
      obtain ⟨b, hb, hd⟩ := conforms_child hwf hchild
      have hch : childClasses Context.MultiplicativeExpressionContext =
          [Context.TypeExpressionContext, Context.MultiplicativeExpressionContext] := by
        decide!
      rw [hch] at hb
      simp only [List.mem_cons, List.mem_singleton, List.not_mem_nil, or_false] at hb
      rcases hb with rfl | rfl <;> exact absurd (derivesFrom_eq (by decide) hd) (by decide)
  · intro children hwf
    have hacc : accessorsOf Context.AdditiveExpressionContext =
        [one Context.MultiplicativeExpressionContext, one Context.AdditiveExpressionContext,
         tok TokenType.ADD, tok TokenType.SUB] := by decide!
    refine ⟨?_, conforms_single (by rw [hacc]; simp) rfl hwf,
      conforms_single (by rw [hacc]; simp) rfl hwf⟩
    intro child hchild c hcls
    cases child with
    | terminal t => simp [ParseTree.cls] at hcls
    | EOF => simp [ParseTree.cls] at hcls
    | context d ds =>
      simp only [ParseTree.cls, Option.some.injEq] at hcls
      subst hcls
      obtain ⟨b, hb, hd⟩ := conforms_child hwf hchild
      have hch : childClasses Context.AdditiveExpressionContext =
          [Context.MultiplicativeExpressionContext, Context.AdditiveExpressionContext] := by
        decide!
      rw [hch] at hb
      simp only [List.mem_cons, List.mem_singleton, List.not_mem_nil, or_false] at hb
      rcases hb with rfl | rfl
      · exact Or.inl (derivesFrom_eq (by decide) hd)
      · exact Or.inr (derivesFrom_eq (by decide) hd)

/-- C4: assignment is right-associative. In a well-formed assignment node that carries one of
the twelve assignment operators, the first child, the left operand, is a ternary-expression
node and every other context among the children, hence the right operand, is an expression
node; no node that conforms to the ternary context class has an assignment node as a direct
child, and the one context class with an accessor for an assignment node is
`ExpressionContext`, so that the right operand may again be an assignment and the left operand
holds one only inside a nested expression. In the precedence engine of the specification, with
any fuel from 20 on, `a = b = c` yields the Assign node whose right child is the Assign node of
`b = c`. -/
theorem assignment_operands (children : List ParseTree) :
    terminalsOf Context.AssignmentExpressionContext =
      [TokenType.ASSIGN, TokenType.ADD_ASSIGN, TokenType.SUB_ASSIGN, TokenType.MUL_ASSIGN,
       TokenType.DIV_ASSIGN, TokenType.AND_ASSIGN, TokenType.OR_ASSIGN, TokenType.XOR_ASSIGN,
       TokenType.RSHIFT_ASSIGN, TokenType.URSHIFT_ASSIGN, TokenType.LSHIFT_ASSIGN,
       TokenType.MOD_ASSIGN] ∧
    (binaryNode Rule.RuleAssignmentExpression children = true →
      carriesOperator Rule.RuleAssignmentExpression children = true →
      ∃ cs rest, children = ParseTree.context Context.TernaryExpressionContext cs :: rest ∧
        ∀ child ∈ rest, ∀ c, child.cls = some c → c = Context.ExpressionContext) ∧
    (conforms Context.TernaryExpressionContext children = true →
      ∀ child ∈ children, child.cls ≠ some Context.AssignmentExpressionContext) ∧
    contexts.filter (fun k => (childClasses k).contains Context.AssignmentExpressionContext) =
      [Context.ExpressionContext] ∧
    (∀ cs, admits Context.ExpressionContext
      (ParseTree.context Context.AssignmentExpressionContext cs) = true) ∧
    (∀ rhs ∈ [specRhs precedenceTable, strongerRhs precedenceTable], ∀ more,
      parseLevel precedenceTable rhs (20 + more) 0 chainedAssignmentTokens =
        Except.ok (chainedAssignmentNode, [])) := by
  refine ⟨by decide!, ?_, ?_, by decide!, ?_, ?_⟩
  · intro hwf hop
    unfold binaryNode at hwf
    simp only [Bool.and_eq_true] at hwf
    obtain ⟨c, cs, rest, rfl, hc⟩ := leftOperandFirst_head hwf.2 hop
    have hleft : leftOperandClass Rule.RuleAssignmentExpression =
        some Context.TernaryExpressionContext := by decide!
    rw [hleft] at hc
    cases hc
    refine ⟨cs, rest, rfl, ?_⟩
    intro child hchild c hcls
    obtain ⟨b, hb, hne, hd⟩ := operator_node_rest (by decide) (by decide!) hwf.1 child hchild c hcls
    have hch : childClasses Context.AssignmentExpressionContext =
        [Context.TernaryExpressionContext, Context.ExpressionContext] := by
      decide!
    have hb' : b ∈ [Context.TernaryExpressionContext, Context.ExpressionContext] := hch ▸ hb
    simp only [List.mem_cons, List.mem_singleton, List.not_mem_nil, or_false] at hb'
    rcases hb' with rfl | rfl
    · exact absurd rfl hne
    · exact derivesFrom_eq (by decide) hd
  · intro hwf child hchild hcls
    unfold conforms at hwf
    simp only [Bool.and_eq_true] at hwf
    cases child with
    | terminal t => simp [ParseTree.cls] at hcls
    | EOF => simp [ParseTree.cls] at hcls
    | context d ds =>
      simp only [ParseTree.cls, Option.some.injEq] at hcls
      subst hcls
      obtain ⟨b, hb, hd⟩ := admits_context (List.all_eq_true.mp hwf.1 _ hchild)
      have hch : childClasses Context.TernaryExpressionContext =
          [Context.LogicalOrExpressionContext, Context.ExpressionContext,
           Context.TernaryExpressionContext, Context.LambdaExpressionContext] := by
        decide!
      have hb' : b ∈ [Context.LogicalOrExpressionContext, Context.ExpressionContext,
           Context.TernaryExpressionContext, Context.LambdaExpressionContext] := hch ▸ hb
      simp only [List.mem_cons, List.mem_singleton, List.not_mem_nil, or_false] at hb'
      rcases hb' with rfl | rfl | rfl | rfl <;>
        exact absurd (derivesFrom_eq (by decide) hd) (by decide)
  · intro cs
    have hacc : accessorsOf Context.ExpressionContext =
        [one Context.AssignmentExpressionContext, one Context.LambdaExpressionContext] := by
      decide!
    unfold admits
    rw [hacc]
    simp [Accessor.yields, one, derivesFrom_self]
  · intro rhs hrhs more
    simp only [List.mem_cons, List.mem_singleton, List.not_mem_nil, or_false] at hrhs
    rcases hrhs with rfl | rfl
    · exact parseLevel_fuel _ _ 20 more 0 _ _ (by decide!)
    · exact parseLevel_fuel _ _ 20 more 0 _ _ (by decide!)

/-- Witness of C4 on the parse tree of `a = b = c`: the children of its root are a well-formed
assignment node with the operator `ASSIGN`, whose left operand is the ternary node of `a` and
whose right operand is the expression node that holds the assignment `b = c`. -/
theorem assignment_operands_witness :
    binaryNode Rule.RuleAssignmentExpression chainedAssignment = true ∧
    carriesOperator Rule.RuleAssignmentExpression chainedAssignment = true ∧
    (∃ cs rest, chainedAssignment =
        ParseTree.context Context.TernaryExpressionContext cs :: rest ∧
      ∀ child ∈ rest, ∀ c, child.cls = some c → c = Context.ExpressionContext) ∧
    chainedAssignment.getLast? = some innerAssignment :=
  have h1 : binaryNode Rule.RuleAssignmentExpression chainedAssignment = true := by decide!
  have h2 : carriesOperator Rule.RuleAssignmentExpression chainedAssignment = true := by
    decide!
  ⟨h1, h2, (assignment_operands chainedAssignment).2.1 h1 h2, rfl⟩

/-! ## The base visitor -/

/-- C6: `JavaParserBaseVisitor` is an empty implementation of the visitor: every method
`visitX` it defines returns, for every node `ctx`, exactly the result of `visitChildren(ctx)`,
whatever `visitChildren` is overridden to do. -/
theorem base_visitor_visits_children {R : Type} (visitChildren : ParseTree → R)
    (m : VisitMethod R) (hm : m ∈ JavaParserBaseVisitor.methods R) (ctx : ParseTree) :
    m.body visitChildren ctx = visitChildren ctx := by
  have hbodies : (JavaParserBaseVisitor.methods R).map (fun m => m.body) =
      List.replicate 158 (fun visitChildren ctx => visitChildren ctx) := rfl
  have hmem : m.body ∈ (JavaParserBaseVisitor.methods R).map (fun m => m.body) :=
    List.mem_map.mpr ⟨m, hm, rfl⟩
  rw [hbodies] at hmem
  rw [List.eq_of_mem_replicate hmem]

/-- Witness of C6: `visitCompilationUnit` is a method of the base visitor, and with a
`visitChildren` that counts the children it returns their number, 3, on the root of
`a + b * c`. -/
theorem base_visitor_visits_children_witness :
    VisitMethod.mk "visitCompilationUnit" Context.CompilationUnitContext
        JavaParserBaseVisitor.visitCompilationUnit ∈ JavaParserBaseVisitor.methods Nat ∧
    JavaParserBaseVisitor.visitCompilationUnit childCount
      (ParseTree.context Context.AdditiveExpressionContext sumWithProduct) = 3 :=
  have hm : VisitMethod.mk "visitCompilationUnit" Context.CompilationUnitContext
      JavaParserBaseVisitor.visitCompilationUnit ∈ JavaParserBaseVisitor.methods Nat :=
    List.mem_cons_self _ _
  ⟨hm, (base_visitor_visits_children childCount _ hm
    (ParseTree.context Context.AdditiveExpressionContext sumWithProduct)).trans rfl⟩

/-! ## The precedence engine -/

/-- C10: in the precedence engine of the specification, for every precedence table, every level
of the right-hand side, every amount of fuel, every level and every token sequence, a node that
the engine returns is no empty slot and every binary-expression node in it has both its
left-operand and its right-operand slot filled; a failure returns no node. -/
theorem binary_operands_filled (table : List PrecedenceLevel) (rhs : Nat → Nat)
    (fuel level : Nat) (tokens : List TokenType) (node : SyntaxNode) (rest : List TokenType)
    (h : parseLevel table rhs fuel level tokens = Except.ok (node, rest)) :
    node.present = true ∧ node.operandsFilled = true := by
  refine parseLevel_induct (fun node _ _ => node.present = true ∧ node.operandsFilled = true)
    table rhs ?_ ?_ ?_ ?_ ?_ ?_ fuel level tokens node rest h
  · intro token rest _
    exact ⟨rfl, rfl⟩
  · intro op inner rest r _ hi
    exact ⟨rfl, by simpa [SyntaxNode.operandsFilled] using hi.2⟩
  · intro type after inner rest r _ hi
    exact ⟨rfl, by simpa [SyntaxNode.operandsFilled] using hi.2⟩
  · intro inner rest r hi
    exact ⟨rfl, by simpa [SyntaxNode.operandsFilled] using hi.2⟩
  · intro parameters tokens rest body r _ hb
    exact ⟨rfl, by simpa [SyntaxNode.operandsFilled] using hb.2⟩
  · intro op lhs rhs tokens mid r hl hr
    exact ⟨rfl, by simp [SyntaxNode.operandsFilled, hl.1, hl.2, hr.1, hr.2]⟩

/-- Witness of C10: with the precedence table of the header and the right-hand side at the level
the specification names, `(a + 1) * b = c - d - e` parses to a tree all of whose binary nodes
have both operands, and `a +` fails with `ExpectedExpression` at the end of the input. -/
theorem binary_operands_filled_witness :
    parseLevel precedenceTable (specRhs precedenceTable) 40 0 sampleTokens =
      Except.ok (sampleNode, []) ∧
    (sampleNode.present = true ∧ sampleNode.operandsFilled = true) ∧
    parseLevel precedenceTable (specRhs precedenceTable) 40 0
        [TokenType.IDENTIFIER, TokenType.ADD] =
      Except.error (SyntaxError.ExpectedExpression []) ∧
    (SyntaxNode.binary TokenType.ADD (SyntaxNode.operand TokenType.IDENTIFIER)
      SyntaxNode.missing).operandsFilled = false :=
  have h : parseLevel precedenceTable (specRhs precedenceTable) 40 0 sampleTokens =
      Except.ok (sampleNode, []) := by
    decide!
  ⟨h, binary_operands_filled _ _ _ _ _ _ _ h, by decide!, rfl⟩

/-! ## Declarations, statements and patterns -/

/-- C11: the node of an ordinary compilation unit has a single-valued slot for the package
declaration, repeated slots for the import and the type declarations (and for `SEMI`) and no
other slot: a conforming node holds at most one package declaration and no module declaration,
and it stays conforming when one more import or type declaration is added. -/
theorem ordinary_compilation_unit (children : List ParseTree) (child : ParseTree) :
    accessorsOf Context.OrdinaryCompilationUnitContext =
      [one Context.PackageDeclarationContext] ++ many Context.ImportDeclarationContext ++
        toks TokenType.SEMI ++ many Context.TypeDeclarationContext ∧
    (conforms Context.OrdinaryCompilationUnitContext children = true →
      (children.filter (one Context.PackageDeclarationContext).yields).length ≤ 1 ∧
      ∀ cs, ParseTree.context Context.ModuleDeclarationContext cs ∉ children) ∧
    (conforms Context.OrdinaryCompilationUnitContext children = true →
      child.cls = some Context.ImportDeclarationContext ∨
        child.cls = some Context.TypeDeclarationContext →
      conforms Context.OrdinaryCompilationUnitContext (child :: children) = true) := by
  have hacc : accessorsOf Context.OrdinaryCompilationUnitContext =
      [one Context.PackageDeclarationContext] ++ many Context.ImportDeclarationContext ++
        toks TokenType.SEMI ++ many Context.TypeDeclarationContext := by decide!
  have hch : childClasses Context.OrdinaryCompilationUnitContext =
      [Context.PackageDeclarationContext, Context.ImportDeclarationContext,
       Context.TypeDeclarationContext] := by decide!
  refine ⟨hacc, ?_, ?_⟩
  · intro h
    refine ⟨conforms_single (by rw [hacc]; simp) rfl h, ?_⟩
    intro cs hmem
    obtain ⟨b, hb, hd⟩ := conforms_child h hmem
    rw [hch] at hb
    simp only [List.mem_cons, List.mem_singleton, List.not_mem_nil, or_false] at hb
    rcases hb with rfl | rfl | rfl <;>
      exact absurd (derivesFrom_eq (by decide) hd) (by decide)
  · intro h hcls
    cases child with
    | terminal t => simp [ParseTree.cls] at hcls
    | EOF => simp [ParseTree.cls] at hcls
    | context c cs =>
      simp only [ParseTree.cls, Option.some.injEq] at hcls
      apply conforms_cons_repeated _ _ h
      · unfold admits
        rw [hacc]
        rcases hcls with rfl | rfl <;> simp [Accessor.yields, one, many, toks, derivesFrom_self]
      · intro a ha hs
        rw [hacc] at ha
        simp only [one, many, toks, List.cons_append, List.nil_append, List.mem_cons,
          List.mem_singleton, List.not_mem_nil, or_false] at ha
        rcases ha with rfl | rfl | rfl | rfl | rfl | rfl | rfl <;>
          first
          | exact absurd hs (by decide)
          | (rcases hcls with rfl | rfl <;> rfl)

/-- Witness of C11: a unit with a package declaration stays conforming with an import added. -/
theorem ordinary_compilation_unit_witness :
    conforms Context.OrdinaryCompilationUnitContext
      [ParseTree.context Context.PackageDeclarationContext []] = true ∧
    conforms Context.OrdinaryCompilationUnitContext
      [ParseTree.context Context.ImportDeclarationContext [],
       ParseTree.context Context.PackageDeclarationContext []] = true ∧
    conforms Context.OrdinaryCompilationUnitContext
      [ParseTree.context Context.PackageDeclarationContext [],
       ParseTree.context Context.PackageDeclarationContext []] = false :=
  have h : conforms Context.OrdinaryCompilationUnitContext
      [ParseTree.context Context.PackageDeclarationContext []] = true := by decide!
  ⟨h, (ordinary_compilation_unit _ _).2.2 h (Or.inl rfl), by decide!⟩

/-- C13 as stated fails: the switch label of a switch block admits no `ARROW` terminal. -/
theorem switch_label_without_arrow :
    Context.SwitchLabelContext ∈ childClasses Context.SwitchBlockContext ∧
    admits Context.SwitchLabelContext (ParseTree.terminal TokenType.ARROW) = false ∧
    TokenType.ARROW ∉ terminalsOf Context.SwitchLabelContext := by
  decide!

/-- C13 as amended: colon-labelled groups and arrow-labelled rules are two constructs. A switch
block holds statement groups and switch labels, and a switch label admits `CASE`, `COLON` and
`DEFAULT` and no `ARROW`; a switch expression holds labelled rules, and a labelled rule admits
`CASE`, `ARROW`, `COLON` and `DEFAULT`, so that each of its labels is followed by a `COLON` or
an `ARROW`, each at most once. -/
theorem switch_labels :
    childClasses Context.SwitchBlockContext =
      [Context.SwitchBlockStatementGroupContext, Context.SwitchLabelContext] ∧
    childClasses Context.SwitchBlockStatementGroupContext =
      [Context.SwitchLabelContext, Context.BlockStatementContext] ∧
    terminalsOf Context.SwitchLabelContext =
      [TokenType.CASE, TokenType.COLON, TokenType.DEFAULT] ∧
    childClasses Context.SwitchExpressionContext =
      [Context.ParExpressionContext, Context.SwitchLabeledRuleContext,
       Context.PrimaryContext] ∧
    terminalsOf Context.SwitchLabeledRuleContext =
      [TokenType.CASE, TokenType.ARROW, TokenType.COLON, TokenType.DEFAULT] ∧
    tok TokenType.ARROW ∈ accessorsOf Context.SwitchLabeledRuleContext ∧
    tok TokenType.COLON ∈ accessorsOf Context.SwitchLabeledRuleContext ∧
    tok TokenType.COLON ∈ accessorsOf Context.SwitchLabelContext ∧
    contexts.filter (fun k => (childClasses k).contains Context.SwitchLabelContext) =
      [Context.SwitchBlockContext, Context.SwitchBlockStatementGroupContext] ∧
    contexts.filter (fun k => (childClasses k).contains Context.SwitchLabeledRuleContext) =
      [Context.SwitchExpressionContext] ∧
    contexts.filter (fun k => (terminalsOf k).contains TokenType.ARROW) =
      [Context.LambdaExpressionContext, Context.SwitchLabeledRuleContext] := by
  decide!

/-- C14 as stated fails: the switch label admits no pattern node as a child. -/
theorem switch_label_without_pattern :
    admits Context.SwitchLabelContext (ParseTree.context Context.PatternContext []) = false ∧
    Context.PatternContext ∉ childClasses Context.SwitchLabelContext ∧
    Context.PatternContext ∉ childClasses Context.SwitchLabeledRuleContext := by
  decide!

/-- C14 as amended: the pattern node is a child slot of the relational-expression node and of
no other node; a switch label spells its type pattern as a type and an identifier (the label
`varName`), a labelled rule of a switch expression holds a guarded pattern, and the
guarded-pattern node has a single-valued child slot of its own kind. -/
theorem pattern_slots :
    contexts.filter (fun k => (childClasses k).contains Context.PatternContext) =
      [Context.RelationalExpressionContext] ∧
    one Context.PatternContext ∈ accessorsOf Context.RelationalExpressionContext ∧
    tok TokenType.INSTANCEOF ∈ accessorsOf Context.RelationalExpressionContext ∧
    childClasses Context.SwitchLabelContext =
      [Context.TypeTypeContext, Context.ExpressionContext, Context.IdentifierContext] ∧
    Context.SwitchLabelContext.declaration.labels =
      [("JavaParser::ExpressionContext", "constantExpression"),
       ("JavaParser::IdentifierContext", "varName")] ∧
    contexts.filter (fun k => (childClasses k).contains Context.GuardedPatternContext) =
      [Context.SwitchLabeledRuleContext, Context.GuardedPatternContext] ∧
    one Context.GuardedPatternContext ∈ accessorsOf Context.GuardedPatternContext ∧
    childClasses Context.GuardedPatternContext =
      [Context.GuardedPatternContext, Context.TypeTypeContext, Context.IdentifierContext,
       Context.VariableModifierContext, Context.AnnotationContext,
       Context.ExpressionContext] ∧
    hasPrecedenceEntry Rule.RuleGuardedPattern = true ∧
    terminalsOf Context.GuardedPatternContext =
      [TokenType.LPAREN, TokenType.RPAREN, TokenType.AND] := by
  decide!

/-- C22: each of the 14 levels from assignment down to prefix has a single-valued child slot
typed as the immediately next stronger level (assignment to ternary, ..., prefix to postfix),
whose rule index is smaller by one, and no level has a child slot typed as a level two or more
steps stronger. -/
theorem operand_of_next_stronger_level :
    (operatorLevels.zip operatorLevels.tail).map (fun p => (p.1.context, p.2.context)) =
      [(Context.AssignmentExpressionContext, Context.TernaryExpressionContext),
       (Context.TernaryExpressionContext, Context.LogicalOrExpressionContext),
       (Context.LogicalOrExpressionContext, Context.LogicalAndExpressionContext),
       (Context.LogicalAndExpressionContext, Context.BitwiseOrExpressionContext),
       (Context.BitwiseOrExpressionContext, Context.BitwiseXorExpressionContext),
       (Context.BitwiseXorExpressionContext, Context.BitwiseAndExpressionContext),
       (Context.BitwiseAndExpressionContext, Context.EqualityExpressionContext),
       (Context.EqualityExpressionContext, Context.RelationalExpressionContext),
       (Context.RelationalExpressionContext, Context.ShiftExpressionContext),
       (Context.ShiftExpressionContext, Context.AdditiveExpressionContext),
       (Context.AdditiveExpressionContext, Context.MultiplicativeExpressionContext),
       (Context.MultiplicativeExpressionContext, Context.TypeExpressionContext),
       (Context.TypeExpressionContext, Context.PrefixExpressionContext),
       (Context.PrefixExpressionContext, Context.PostfixExpressionContext)] ∧
    (∀ p ∈ operatorLevels.zip operatorLevels.tail,
      one p.2.context ∈ accessorsOf p.1.context ∧ p.2.index + 1 = p.1.index) ∧
    (∀ level ∈ operatorLevels, ∀ other ∈ operatorLevels,
      other.context ∈ childClasses level.context → level.index ≤ other.index + 1) := by
  rw [operatorLevels_eq]
  decide!

/-- C27: visitor dispatch is total and one-to-one. The context classes that override `accept`
are exactly the 158 classes other than `PrimaryContext`: the 147 other productions and the 11
labelled alternatives of `primary`; `JavaParserVisitor` declares one pure-virtual method for
each of them, in the same order and none twice, and `JavaParserBaseVisitor` overrides exactly
these methods, each once, under the name `visitX` for the class `XContext`. -/
theorem visitor_dispatch :
    contexts.filter (fun c => c.declaration.accept) = JavaParserVisitor ∧
    JavaParserVisitor = contexts.filter (fun c => c != Context.PrimaryContext) ∧
    Context.PrimaryContext.declaration.accept = false ∧
    JavaParserVisitor.length = 158 ∧
    JavaParserVisitor.Nodup ∧
    JavaParserVisitor.filter (fun c => c.declaration.base == none) =
      forwardDeclarations.filter (fun c => c != Context.PrimaryContext) ∧
    (JavaParserVisitor.filter (fun c => c.declaration.base == none)).length = 147 ∧
    JavaParserVisitor.filter (fun c => c.declaration.base == some Context.PrimaryContext) =
      [Context.ExplicitGenericInvocationExpressionContext, Context.ThisExpressionContext,
       Context.MemberReferenceExpressionContext, Context.MethodCallExpressionContext,
       Context.MethodReferenceExpressionContext, Context.ParExprContext,
       Context.LiteralExpressionContext, Context.ClassExpressionContext,
       Context.SuperExpressionContext, Context.ArrayAccessExpressionContext,
       Context.IdentifierExpressionContext] ∧
    (JavaParserBaseVisitor.methods Unit).map (fun m => m.param) = JavaParserVisitor ∧
    (JavaParserBaseVisitor.methods Unit).map (fun m => m.name) =
      JavaParserVisitor.map (fun c => "visit" ++ c.stem) := by
  have hidx : JavaParserVisitor.map Context.toCtorIdx =
      (List.range 159).filter (fun i => i != 124) := by decide!
  refine ⟨by decide!, by decide!, by decide!, by decide!, ?_, by decide!, by decide!,
    by decide!, by decide!, by decide!⟩
  apply List.Nodup.of_map Context.toCtorIdx
  rw [hidx]
  exact (List.nodup_range 159).filter _

/-- C28: the operator terminals of the ten binary levels from multiplicative to logicalOr are
those the claim lists, and a terminal accepted by two different levels is `LT` or `GT`, accepted
by the shift and by the relational level, which both accept the two. -/
theorem operator_terminals_disjoint :
    leftAssociativeLevels.map (fun r => terminalsOf r.context) =
      [[TokenType.MUL, TokenType.DIV, TokenType.MOD], [TokenType.ADD, TokenType.SUB],
       [TokenType.LT, TokenType.GT],
       [TokenType.LE, TokenType.GE, TokenType.GT, TokenType.LT, TokenType.INSTANCEOF],
       [TokenType.EQUAL, TokenType.NOTEQUAL], [TokenType.BITAND], [TokenType.CARET],
       [TokenType.BITOR], [TokenType.AND], [TokenType.OR]] ∧
    (∀ a ∈ leftAssociativeLevels, ∀ b ∈ leftAssociativeLevels, a ≠ b →
      ∀ t ∈ terminalsOf a.context, t ∈ terminalsOf b.context →
        (t = TokenType.LT ∨ t = TokenType.GT) ∧
        (a = Rule.RuleShiftExpression ∧ b = Rule.RuleRelationalExpression ∨
          a = Rule.RuleRelationalExpression ∧ b = Rule.RuleShiftExpression)) ∧
    (∀ t ∈ [TokenType.LT, TokenType.GT],
      t ∈ terminalsOf Context.ShiftExpressionContext ∧
      t ∈ terminalsOf Context.RelationalExpressionContext) ∧
    leftAssociativeLevels.reverse = (operatorLevels.drop 2).take 10 := by
  rw [operatorLevels_eq]
  decide!

/-- C29: the assignment level accepts exactly twelve operator terminals: `ASSIGN`, of code 87,
and the eleven token types of codes 110 to 120, which are exactly the token types of the
vocabulary whose name ends in `_ASSIGN`. -/
theorem assignment_operators :
    (terminalsOf Context.AssignmentExpressionContext).length = 12 ∧
    tokenTypes.filter (fun t => (terminalsOf Context.AssignmentExpressionContext).contains t) =
      [TokenType.ASSIGN, TokenType.ADD_ASSIGN, TokenType.SUB_ASSIGN, TokenType.MUL_ASSIGN,
       TokenType.DIV_ASSIGN, TokenType.AND_ASSIGN, TokenType.OR_ASSIGN, TokenType.XOR_ASSIGN,
       TokenType.MOD_ASSIGN, TokenType.LSHIFT_ASSIGN, TokenType.RSHIFT_ASSIGN,
       TokenType.URSHIFT_ASSIGN] ∧
    (tokenTypes.filter fun t =>
      (terminalsOf Context.AssignmentExpressionContext).contains t).map TokenType.code =
      87 :: List.range' 110 11 ∧
    tokenTypes.filter (fun t => t.nameEndsIn "_ASSIGN") =
      tokenTypes.filter (fun t => 110 ≤ t.code && t.code ≤ 120) ∧
    (∀ a ∈ accessorsOf Context.AssignmentExpressionContext, a.form = AccessorForm.single) := by
  decide!

/-- C30: an identifier node accepts `IDENTIFIER` and the 15 contextual keywords `MODULE`,
`OPEN`, `REQUIRES`, `EXPORTS`, `OPENS`, `TO`, `USES`, `PROVIDES`, `WITH`, `TRANSITIVE`, `YIELD`,
`SEALED`, `PERMITS`, `RECORD`, `VAR`, and nothing else; a type-identifier node accepts exactly
the same token types except `YIELD` and `VAR`, a strict subset. -/
theorem identifier_tokens :
    accessorsOf Context.IdentifierContext =
      [TokenType.IDENTIFIER, TokenType.MODULE, TokenType.OPEN, TokenType.REQUIRES,
       TokenType.EXPORTS, TokenType.OPENS, TokenType.TO, TokenType.USES, TokenType.PROVIDES,
       TokenType.WITH, TokenType.TRANSITIVE, TokenType.YIELD, TokenType.SEALED,
       TokenType.PERMITS, TokenType.RECORD, TokenType.VAR].map tok ∧
    (terminalsOf Context.IdentifierContext).length = 16 ∧
    accessorsOf Context.TypeIdentifierContext =
      ((terminalsOf Context.IdentifierContext).filter
        fun t => t != TokenType.YIELD && t != TokenType.VAR).map tok ∧
    (terminalsOf Context.TypeIdentifierContext).length = 14 ∧
    (∀ t ∈ terminalsOf Context.TypeIdentifierContext,
      t ∈ terminalsOf Context.IdentifierContext) ∧
    (∀ t ∈ [TokenType.YIELD, TokenType.VAR],
      t ∈ terminalsOf Context.IdentifierContext ∧
      t ∉ terminalsOf Context.TypeIdentifierContext) := by
  decide!

/-! ## Disambiguation in the precedence engine -/

/-- C16: cast disambiguation in the precedence engine of the specification, with the precedence
table of the header, the right-hand side parsed at either level and any fuel from 30 on:
`(Foo) bar` parses as the cast of `bar`, `(Foo) + bar` as the group `(Foo)` added to `bar`;
the engine never commits to a cast when `+` follows the closing parenthesis, and in every tree
it returns the operand of every cast node begins with a token other than `+`. -/
theorem cast_disambiguation :
    (∀ rhs ∈ [specRhs precedenceTable, strongerRhs precedenceTable], ∀ more,
      parseLevel precedenceTable rhs (30 + more) 0
          [TokenType.LPAREN, TokenType.IDENTIFIER, TokenType.RPAREN, TokenType.IDENTIFIER] =
        Except.ok (SyntaxNode.cast TokenType.IDENTIFIER
          (SyntaxNode.operand TokenType.IDENTIFIER), []) ∧
      parseLevel precedenceTable rhs (30 + more) 0
          [TokenType.LPAREN, TokenType.IDENTIFIER, TokenType.RPAREN, TokenType.ADD,
           TokenType.IDENTIFIER] =
        Except.ok (SyntaxNode.binary TokenType.ADD
          (SyntaxNode.group (SyntaxNode.operand TokenType.IDENTIFIER))
          (SyntaxNode.operand TokenType.IDENTIFIER), [])) ∧
    (∀ (type : TokenType) (rest : List TokenType),
      castTarget precedenceTable (type :: TokenType.RPAREN :: TokenType.ADD :: rest) = none) ∧
    (∀ (rhs : Nat → Nat) (fuel level : Nat) (tokens : List TokenType) (node : SyntaxNode)
      (rest : List TokenType),
      parseLevel precedenceTable rhs fuel level tokens = Except.ok (node, rest) →
      node.castOperandsBegin (fun t => t != TokenType.ADD) = true) := by
  have hadd : continuesPrimary precedenceTable TokenType.ADD = true := by decide!
  refine ⟨?_, ?_, ?_⟩
  · intro rhs hrhs more
    simp only [List.mem_cons, List.mem_singleton, List.not_mem_nil, or_false] at hrhs
    rcases hrhs with rfl | rfl
    · exact ⟨parseLevel_fuel _ _ 30 more 0 _ _ (by decide!),
        parseLevel_fuel _ _ 30 more 0 _ _ (by decide!)⟩
    · exact ⟨parseLevel_fuel _ _ 30 more 0 _ _ (by decide!),
        parseLevel_fuel _ _ 30 more 0 _ _ (by decide!)⟩
  · intro type rest
    simp [castTarget, hadd]
  · intro rhs fuel level tokens node rest h
    refine castOperandsBegin_mono _ _ ?_ node (parseLevel_casts _ _ _ _ _ _ _ h)
    intro t ht
    simp only [Bool.and_eq_true, Bool.not_eq_true, Bool.not_eq_eq_eq_not] at ht
    simp only [bne_iff_ne, ne_eq]
    intro heq
    rw [heq, hadd] at ht
    simp at ht

/-- C17: lambda disambiguation. In the header an expression node holds an assignment
expression or a lambda expression, a lambda expression its parameters, an `ARROW` and a body,
and the parenthesised alternative of `primary` a `(`, an expression and a `)`. In the
precedence engine of the specification, with the right-hand side parsed at either level and
any fuel from 30 on, `(x) -> x + 1` parses as the lambda with the parameters `(x)` and the body `x + 1`, `(x)`
alone as the group of the identifier, and `(x) ->` before any expression parses as the lambda
of that expression. -/
theorem lambda_disambiguation :
    accessorsOf Context.ExpressionContext =
      [one Context.AssignmentExpressionContext, one Context.LambdaExpressionContext] ∧
    accessorsOf Context.LambdaExpressionContext =
      [one Context.LambdaParametersContext, tok TokenType.ARROW,
       one Context.LambdaBodyContext] ∧
    accessorsOf Context.ParExprContext =
      [tok TokenType.LPAREN, one Context.ExpressionContext, tok TokenType.RPAREN] ∧
    Context.ParExprContext.declaration.base = some Context.PrimaryContext ∧
    (∀ rhs ∈ [specRhs precedenceTable, strongerRhs precedenceTable], ∀ more,
      parseLevel precedenceTable rhs (30 + more) 0
          [TokenType.LPAREN, TokenType.IDENTIFIER, TokenType.RPAREN, TokenType.ARROW,
           TokenType.IDENTIFIER, TokenType.ADD, TokenType.DECIMAL_LITERAL] =
        Except.ok (SyntaxNode.lambda
          [TokenType.LPAREN, TokenType.IDENTIFIER, TokenType.RPAREN]
          (SyntaxNode.binary TokenType.ADD (SyntaxNode.operand TokenType.IDENTIFIER)
            (SyntaxNode.operand TokenType.DECIMAL_LITERAL)), []) ∧
      parseLevel precedenceTable rhs (30 + more) 0
          [TokenType.LPAREN, TokenType.IDENTIFIER, TokenType.RPAREN] =
        Except.ok (SyntaxNode.group (SyntaxNode.operand TokenType.IDENTIFIER), [])) ∧
    (∀ (table : List PrecedenceLevel) (rhs : Nat → Nat) (fuel : Nat) (tokens : List TokenType)
      (body : SyntaxNode) (rest : List TokenType),
      parseLevel table rhs fuel 0 tokens = Except.ok (body, rest) →
      parseLevel table rhs (fuel + 1) 0
          (TokenType.LPAREN :: TokenType.IDENTIFIER :: TokenType.RPAREN :: TokenType.ARROW ::
            tokens) =
        Except.ok (SyntaxNode.lambda [TokenType.LPAREN, TokenType.IDENTIFIER, TokenType.RPAREN]
          body, rest)) := by
  refine ⟨by decide!, by decide!, by decide!, by decide!, ?_, ?_⟩
  · intro rhs hrhs more
    simp only [List.mem_cons, List.mem_singleton, List.not_mem_nil, or_false] at hrhs
    rcases hrhs with rfl | rfl
    · exact ⟨parseLevel_fuel _ _ 30 more 0 _ _ (by decide!),
        parseLevel_fuel _ _ 30 more 0 _ _ (by decide!)⟩
    · exact ⟨parseLevel_fuel _ _ 30 more 0 _ _ (by decide!),
        parseLevel_fuel _ _ 30 more 0 _ _ (by decide!)⟩
  · intro table rhs fuel tokens body rest h
    rw [parseLevel_step]
    have hhead : lambdaHead (TokenType.LPAREN :: TokenType.IDENTIFIER :: TokenType.RPAREN ::
        TokenType.ARROW :: tokens) =
        some ([TokenType.LPAREN, TokenType.IDENTIFIER, TokenType.RPAREN], tokens) := by
      simp [lambdaHead, scanParameters]
    simp only [if_true, hhead, h]
/-! ## The level of the right operand -/

/-- C12: a module declaration is an alternate top-level form. In the header a compilation unit
holds an ordinary or a modular compilation unit (and `EOF`); a modular compilation unit has a
single-valued slot for the module declaration, repeated slots for the import declarations (and
`SEMI`) and no slot for a type or a package declaration, and an ordinary one has no slot for a
module declaration. `parseCompilationUnit` of the specification, whatever the parsers of the
declarations, returns a compilation unit that holds either an ordinary unit, of at most one
package declaration, the imports and the type declarations, or a modular unit, of the imports
and exactly one module declaration, and never both. Over sample parsers of the declarations,
`import x; module m { }` is the modular unit of the import and the module declaration,
`package p; import x; import y; class A { } class B { }` the ordinary unit of the five
declarations, both conforming to the header, and a module declaration followed by a type
declaration, or after a package declaration, is rejected at the offending token. -/
theorem module_declaration_alternate_form :
    childClasses Context.CompilationUnitContext =
      [Context.OrdinaryCompilationUnitContext, Context.ModularCompilationUnitContext] ∧
    accessorsOf Context.ModularCompilationUnitContext =
      [one Context.ModuleDeclarationContext] ++ many Context.ImportDeclarationContext ++
        toks TokenType.SEMI ∧
    Context.ModuleDeclarationContext ∉ childClasses Context.OrdinaryCompilationUnitContext ∧
    (∀ children : List ParseTree,
      conforms Context.ModularCompilationUnitContext children = true →
      (children.filter (one Context.ModuleDeclarationContext).yields).length ≤ 1 ∧
      ∀ cs, ParseTree.context Context.TypeDeclarationContext cs ∉ children ∧
        ParseTree.context Context.PackageDeclarationContext cs ∉ children) ∧
    (∀ (packageDeclaration importDeclaration typeDeclaration moduleDeclaration :
        List TokenType → ParsedTree) (fuel : Nat) (tokens : List TokenType) (node : ParseTree),
      parseCompilationUnit packageDeclaration importDeclaration typeDeclaration
        moduleDeclaration fuel tokens = Except.ok node →
      (∃ package imports types,
        node = ParseTree.context Context.CompilationUnitContext
          [ParseTree.context Context.OrdinaryCompilationUnitContext
            (package ++ (imports ++ types)), ParseTree.EOF] ∧
        package.length ≤ 1 ∧
        (∀ d ∈ package, ∃ ts r, packageDeclaration ts = Except.ok (d, r)) ∧
        (∀ d ∈ imports, ∃ ts r, importDeclaration ts = Except.ok (d, r)) ∧
        (∀ d ∈ types, ∃ ts r, typeDeclaration ts = Except.ok (d, r))) ∨
      (∃ imports module,
        node = ParseTree.context Context.CompilationUnitContext
          [ParseTree.context Context.ModularCompilationUnitContext (imports ++ [module]),
           ParseTree.EOF] ∧
        (∀ d ∈ imports, ∃ ts r, importDeclaration ts = Except.ok (d, r)) ∧
        (∃ ts, moduleDeclaration ts = Except.ok (module, [])))) ∧
    parseSampleUnit modularUnitTokens =
      Except.ok (ParseTree.context Context.CompilationUnitContext
        [ParseTree.context Context.ModularCompilationUnitContext [importNode, moduleNode],
         ParseTree.EOF]) ∧
    parseSampleUnit ordinaryUnitTokens =
      Except.ok (ParseTree.context Context.CompilationUnitContext
        [ParseTree.context Context.OrdinaryCompilationUnitContext
          [packageNode, importNode, importNode, classNode, classNode],
         ParseTree.EOF]) ∧
    parseSampleUnit (modularUnitTokens ++
        [TokenType.CLASS, TokenType.IDENTIFIER, TokenType.LBRACE, TokenType.RBRACE]) =
      Except.error (SyntaxError.UnexpectedToken
        [TokenType.CLASS, TokenType.IDENTIFIER, TokenType.LBRACE, TokenType.RBRACE]) ∧
    parseSampleUnit
        [TokenType.PACKAGE, TokenType.IDENTIFIER, TokenType.SEMI, TokenType.MODULE,
         TokenType.IDENTIFIER, TokenType.LBRACE, TokenType.RBRACE] =
      Except.error (SyntaxError.UnexpectedToken
        [TokenType.MODULE, TokenType.IDENTIFIER, TokenType.LBRACE, TokenType.RBRACE]) ∧
    conforms Context.ModularCompilationUnitContext [importNode, moduleNode] = true ∧
    conforms Context.OrdinaryCompilationUnitContext
      [packageNode, importNode, importNode, classNode, classNode] = true ∧
    conforms Context.CompilationUnitContext
      [ParseTree.context Context.ModularCompilationUnitContext [importNode, moduleNode],
       ParseTree.EOF] = true := by
  have hacc : accessorsOf Context.ModularCompilationUnitContext =
      [one Context.ModuleDeclarationContext] ++ many Context.ImportDeclarationContext ++
        toks TokenType.SEMI := by decide!
  have hch : childClasses Context.ModularCompilationUnitContext =
      [Context.ModuleDeclarationContext, Context.ImportDeclarationContext] := by decide!
  refine ⟨by decide!, hacc, by decide!, ?_, ?_, by rfl, by rfl, by rfl, by rfl, by decide!,
    by decide!, by decide!⟩
  · intro children h
    refine ⟨conforms_single (by rw [hacc]; simp) rfl h, ?_⟩
    intro cs
    constructor
    · intro hmem
      obtain ⟨b, hb, hd⟩ := conforms_child h hmem
      rw [hch] at hb
      simp only [List.mem_cons, List.mem_singleton, List.not_mem_nil, or_false] at hb
      rcases hb with rfl | rfl <;> exact absurd (derivesFrom_eq (by decide) hd) (by decide)
    · intro hmem
      obtain ⟨b, hb, hd⟩ := conforms_child h hmem
      rw [hch] at hb
      simp only [List.mem_cons, List.mem_singleton, List.not_mem_nil, or_false] at hb
      rcases hb with rfl | rfl <;> exact absurd (derivesFrom_eq (by decide) hd) (by decide)
  · intro packageDeclaration importDeclaration typeDeclaration moduleDeclaration fuel tokens
      node h
    unfold parseCompilationUnit at h
    split at h
    · simp at h
    · rename_i package rest hpackage
      have hp := parseOptional_items _ _ _ _ _ hpackage
      split at h
      · simp at h
      · rename_i imports rest' himports
        have hi := parseWhile_items _ _ _ _ _ _ himports
        split at h
        · split at h
          · split at h
            · rename_i module hmodule
              simp only [Except.ok.injEq] at h
              exact Or.inr ⟨imports, module, h.symm, hi, _, hmodule⟩
            · simp at h
            · simp at h
          · simp at h
        · split at h
          · rename_i types after htypes
            have ht := parseWhile_items _ _ _ _ _ _ htypes
            simp only [Except.ok.injEq] at h
            exact Or.inl ⟨package, imports, types, h.symm, hp.1, hp.2, hi, ht⟩
          · simp at h

/-- C15: the `try` statement of the specification, whatever the parsers of its parts. A node
it returns holds the `try`, then the resource specification if any, the block, the catch
clauses and the finally block if any, each returned by its parser, and at least one of the
resource specification, a catch clause and the finally block is there; a `try` followed only
by a block, with no `(` after `try` and no `catch` or `finally` after the block, is rejected
at the token after the block. With the empty block as the block, `try { }` is rejected and
`try { } finally { }` is a node. -/
theorem try_statement_parts :
    (∀ (resourceSpecification block catchClause finallyBlock : List TokenType → ParsedTree)
      (fuel : Nat) (tokens : List TokenType) (node : ParseTree) (rest : List TokenType),
      parseTryStatement resourceSpecification block catchClause finallyBlock fuel tokens =
        Except.ok (node, rest) →
      ∃ resources body catches finalizer,
        node = ParseTree.context Context.StatementContext
          (ParseTree.terminal TokenType.TRY :: (resources ++ body :: (catches ++ finalizer))) ∧
        (resources ≠ [] ∨ catches ≠ [] ∨ finalizer ≠ []) ∧
        resources.length ≤ 1 ∧ finalizer.length ≤ 1 ∧
        (∀ d ∈ resources, ∃ ts r, resourceSpecification ts = Except.ok (d, r)) ∧
        (∃ ts r, block ts = Except.ok (body, r)) ∧
        (∀ d ∈ catches, ∃ ts r, catchClause ts = Except.ok (d, r)) ∧
        (∀ d ∈ finalizer, ∃ ts r, finallyBlock ts = Except.ok (d, r))) ∧
    (∀ (resourceSpecification block catchClause finallyBlock : List TokenType → ParsedTree)
      (fuel : Nat) (rest after : List TokenType) (body : ParseTree),
      nextIs TokenType.LPAREN rest = false → block rest = Except.ok (body, after) →
      nextIs TokenType.CATCH after = false → nextIs TokenType.FINALLY after = false →
      parseTryStatement resourceSpecification block catchClause finallyBlock (fuel + 1)
        (TokenType.TRY :: rest) = Except.error (SyntaxError.UnexpectedToken after)) ∧
    parseTryStatement (parseBraces Context.ResourceSpecificationContext) parseEmptyBlock
        (parseKeywordBlock TokenType.CATCH Context.CatchClauseContext)
        (parseKeywordBlock TokenType.FINALLY Context.FinallyBlockContext) 5
        [TokenType.TRY, TokenType.LBRACE, TokenType.RBRACE] =
      Except.error (SyntaxError.UnexpectedToken []) ∧
    parseTryStatement (parseBraces Context.ResourceSpecificationContext) parseEmptyBlock
        (parseKeywordBlock TokenType.CATCH Context.CatchClauseContext)
        (parseKeywordBlock TokenType.FINALLY Context.FinallyBlockContext) 5
        [TokenType.TRY, TokenType.LBRACE, TokenType.RBRACE, TokenType.FINALLY,
         TokenType.LBRACE, TokenType.RBRACE] =
      Except.ok (ParseTree.context Context.StatementContext
        [ParseTree.terminal TokenType.TRY,
         ParseTree.context Context.BlockContext
           [ParseTree.terminal TokenType.LBRACE, ParseTree.terminal TokenType.RBRACE],
         ParseTree.context Context.FinallyBlockContext
           [ParseTree.terminal TokenType.FINALLY,
            ParseTree.context Context.BlockContext
              [ParseTree.terminal TokenType.LBRACE, ParseTree.terminal TokenType.RBRACE]]],
        []) ∧
    [tok TokenType.TRY, one Context.FinallyBlockContext,
      one Context.ResourceSpecificationContext] ++ many Context.CatchClauseContext ⊆
      accessorsOf Context.StatementContext := by
  refine ⟨?_, ?_, by rfl, by rfl, by decide!⟩
  · intro resourceSpecification block catchClause finallyBlock fuel tokens node rest h
    cases tokens with
    | nil => simp [parseTryStatement] at h
    | cons keyword tail =>
      simp only [parseTryStatement] at h
      split at h
      · split at h
        · simp at h
        · rename_i resources rest1 hres
          have hr := parseOptional_items _ _ _ _ _ hres
          split at h
          · simp at h
          · rename_i body rest2 hbody
            split at h
            · simp at h
            · rename_i catches rest3 hcatch
              have hc := parseWhile_items _ _ _ _ _ _ hcatch
              split at h
              · simp at h
              · rename_i finalizer rest4 hfin
                have hf := parseOptional_items _ _ _ _ _ hfin
                split at h
                · simp at h
                · rename_i hsome
                  simp only [Except.ok.injEq, Prod.mk.injEq] at h
                  refine ⟨resources, body, catches, finalizer, h.1.symm, ?_, hr.1, hf.1, hr.2,
                    ⟨_, _, hbody⟩, hc, hf.2⟩
                  simp only [Bool.and_eq_true, List.isEmpty_iff, not_and] at hsome
                  by_cases h1 : resources = []
                  · by_cases h2 : catches = []
                    · exact Or.inr (Or.inr (hsome ⟨h1, h2⟩))
                    · exact Or.inr (Or.inl h2)
                  · exact Or.inl h1
      · simp at h
  · intro resourceSpecification block catchClause finallyBlock fuel rest after body hl hb hc hf
    simp only [parseTryStatement, beq_self_eq_true, if_true]
    rw [parseOptional_absent _ _ _ hl]
    simp only [hb]
    rw [parseWhile_absent _ _ _ _ hc]
    simp only
    rw [parseOptional_absent _ _ _ hf]
    simp

/-- C18: the class declaration of the specification, whatever the parser of the rest of the
declaration. `class {`, with any tokens after it, fails with `UnexpectedToken` at the `{`: the
error holds the tokens from the `{` on. Every node that is returned holds the `class` and
then the identifier node of a token of the identifier context, the slot `identifier()` of the
header; `class A { }` is such a node. -/
theorem class_without_identifier :
    (∀ (remainder : List TokenType → ParsedTrees) (rest : List TokenType),
      parseClassDeclaration remainder (TokenType.CLASS :: TokenType.LBRACE :: rest) =
        Except.error (SyntaxError.UnexpectedToken (TokenType.LBRACE :: rest))) ∧
    (∀ (remainder : List TokenType → ParsedTrees) (tokens : List TokenType) (node : ParseTree)
      (rest : List TokenType),
      parseClassDeclaration remainder tokens = Except.ok (node, rest) →
      ∃ name members after,
        tokens = TokenType.CLASS :: name :: after ∧
        name ∈ terminalsOf Context.IdentifierContext ∧
        remainder after = Except.ok (members, rest) ∧
        node = ParseTree.context Context.ClassDeclarationContext
          (ParseTree.terminal TokenType.CLASS ::
            ParseTree.context Context.IdentifierContext [ParseTree.terminal name] ::
            members)) ∧
    parseClassDeclaration (parseOptional (fun _ => true) (parseBraces Context.ClassBodyContext))
        [TokenType.CLASS, TokenType.IDENTIFIER, TokenType.LBRACE, TokenType.RBRACE] =
      Except.ok (ParseTree.context Context.ClassDeclarationContext
        [ParseTree.terminal TokenType.CLASS,
         ParseTree.context Context.IdentifierContext [ParseTree.terminal TokenType.IDENTIFIER],
         ParseTree.context Context.ClassBodyContext
           [ParseTree.terminal TokenType.LBRACE, ParseTree.terminal TokenType.RBRACE]], []) ∧
    one Context.IdentifierContext ∈ accessorsOf Context.ClassDeclarationContext ∧
    tok TokenType.CLASS ∈ accessorsOf Context.ClassDeclarationContext ∧
    TokenType.LBRACE ∉ terminalsOf Context.IdentifierContext := by
  refine ⟨?_, ?_, by rfl, by decide!, by decide!, by decide!⟩
  · intro remainder rest
    have hl : TokenType.LBRACE ∉ terminalsOf Context.IdentifierContext := by decide!
    simp [parseClassDeclaration, hl]
  · intro remainder tokens node rest h
    cases tokens with
    | nil => simp [parseClassDeclaration] at h
    | cons keyword tail =>
      simp only [parseClassDeclaration] at h
      split at h
      · rename_i hk
        have hk' : keyword = TokenType.CLASS := eq_of_beq hk
        subst hk'
        cases tail with
        | nil => simp at h
        | cons name after =>
          simp only at h
          split at h
          · rename_i hname
            split at h
            · rename_i members rest' hrem
              simp only [Except.ok.injEq, Prod.mk.injEq] at h
              refine ⟨name, members, after, rfl, ?_, ?_, h.1.symm⟩
              · simpa using hname
              · rw [hrem, h.2]
            · simp at h
          · simp at h
      · simp at h

/-! ## Type arguments and literals -/

/-- C24: nested generic argument lists are closed by single `>` tokens. A node that conforms
to the type-argument list of the header has at most one `LT` and one `GT`, its accessors being
single-valued, and every node that the type-argument parser of the specification returns has
exactly one of each, around its arguments; the arguments of `Map<String, List<Integer>>` parse
with each list consuming one `GT`. No token type is named `LSHIFT`, `RSHIFT` or `URSHIFT`, the
only ones whose name holds `SHIFT` being the three compound assignments, and the accessors of
the shift-expression node for its operator are the repeated `LT` and `GT`. -/
theorem generic_arguments_closed_by_single_tokens :
    (∀ children : List ParseTree, conforms Context.TypeArgumentsContext children = true →
      terminalCount TokenType.LT children ≤ 1 ∧ terminalCount TokenType.GT children ≤ 1) ∧
    (∀ (fuel : Nat) (tokens : List TokenType) (node : ParseTree) (rest : List TokenType),
      parseTypeArguments fuel tokens = Except.ok (node, rest) →
      ∃ arguments, node = ParseTree.context Context.TypeArgumentsContext
          (ParseTree.terminal TokenType.LT ::
            (arguments ++ [ParseTree.terminal TokenType.GT])) ∧
        terminalCount TokenType.LT (ParseTree.terminal TokenType.LT ::
          (arguments ++ [ParseTree.terminal TokenType.GT])) = 1 ∧
        terminalCount TokenType.GT (ParseTree.terminal TokenType.LT ::
          (arguments ++ [ParseTree.terminal TokenType.GT])) = 1 ∧
        typeArgumentList fuel tokens.tail = Except.ok (arguments, TokenType.GT :: rest)) ∧
    parseTypeArguments 10 nestedArgumentsTokens = Except.ok (nestedArgumentsNode, []) ∧
    tokenTypes.filter (fun t => t.nameEndsIn "SHIFT") = [] ∧
    tokenTypes.filter (fun t => t.nameEndsIn "SHIFT_ASSIGN") =
      [TokenType.LSHIFT_ASSIGN, TokenType.RSHIFT_ASSIGN, TokenType.URSHIFT_ASSIGN] ∧
    accessorsOf Context.TypeArgumentsContext =
      [tok TokenType.LT] ++ many Context.TypeArgumentContext ++ [tok TokenType.GT] ++
        toks TokenType.COMMA ∧
    accessorsOf Context.ShiftExpressionContext =
      [one Context.AdditiveExpressionContext, one Context.ShiftExpressionContext] ++
        toks TokenType.LT ++ toks TokenType.GT := by
  have hacc : accessorsOf Context.TypeArgumentsContext =
      [tok TokenType.LT] ++ many Context.TypeArgumentContext ++ [tok TokenType.GT] ++
        toks TokenType.COMMA := by decide!
  refine ⟨?_, ?_, by rfl, by decide!, by decide!, hacc, by decide!⟩
  · intro children h
    exact ⟨conforms_single (by rw [hacc]; simp) rfl h,
      conforms_single (by rw [hacc]; simp) rfl h⟩
  · intro fuel tokens node rest h
    cases tokens with
    | nil => simp [parseTypeArguments] at h
    | cons opening tail =>
      simp only [parseTypeArguments] at h
      split at h
      · obtain ⟨arguments, hlist, hnode⟩ := closeTypeArguments_node _ _ _ h
        have hcount := typeArgumentList_terminals _ _ _ _ hlist
        refine ⟨arguments, hnode, ?_, ?_, hlist⟩
        · have h1 := hcount.1
          unfold terminalCount at h1 ⊢
          rw [List.filter_cons_of_pos (by rfl), List.filter_append, List.length_cons,
            List.length_append, h1]
          rfl
        · have h2 := hcount.2
          unfold terminalCount at h2 ⊢
          rw [List.filter_cons_of_neg (by decide), List.filter_append, List.length_append, h2]
          rfl
      · simp at h

/-- C26: integer and float literals are passed through as opaque tokens. In the header the
integer-literal node has the four terminal accessors `DECIMAL_LITERAL`, `HEX_LITERAL`,
`OCT_LITERAL` and `BINARY_LITERAL` and nothing else, the float-literal node the two
`FLOAT_LITERAL` and `HEX_FLOAT_LITERAL`, and neither they nor the literal node declare a field.
The literal parser of the specification consumes one token and returns a literal node whose
integer-literal or float-literal node holds exactly that token as its one child, or which holds
the token itself. -/
theorem literals_are_opaque_tokens :
    accessorsOf Context.IntegerLiteralContext =
      [tok TokenType.DECIMAL_LITERAL, tok TokenType.HEX_LITERAL, tok TokenType.OCT_LITERAL,
       tok TokenType.BINARY_LITERAL] ∧
    accessorsOf Context.FloatLiteralContext =
      [tok TokenType.FLOAT_LITERAL, tok TokenType.HEX_FLOAT_LITERAL] ∧
    accessorsOf Context.LiteralContext =
      [one Context.IntegerLiteralContext, one Context.FloatLiteralContext,
       tok TokenType.CHAR_LITERAL, tok TokenType.STRING_LITERAL, tok TokenType.BOOL_LITERAL,
       tok TokenType.NULL_LITERAL, tok TokenType.TEXT_BLOCK] ∧
    Context.IntegerLiteralContext.declaration.labels = [] ∧
    Context.FloatLiteralContext.declaration.labels = [] ∧
    Context.LiteralContext.declaration.labels = [] ∧
    (∀ (tokens : List TokenType) (node : ParseTree) (rest : List TokenType),
      parseLiteral tokens = Except.ok (node, rest) →
      ∃ token, tokens = token :: rest ∧
        ((token ∈ terminalsOf Context.IntegerLiteralContext ∧
            node = ParseTree.context Context.LiteralContext
              [ParseTree.context Context.IntegerLiteralContext [ParseTree.terminal token]]) ∨
          (token ∈ terminalsOf Context.FloatLiteralContext ∧
            node = ParseTree.context Context.LiteralContext
              [ParseTree.context Context.FloatLiteralContext [ParseTree.terminal token]]) ∨
          (token ∈ terminalsOf Context.LiteralContext ∧
            node = ParseTree.context Context.LiteralContext [ParseTree.terminal token]))) ∧
    (∀ token ∈ terminalsOf Context.IntegerLiteralContext,
      conforms Context.IntegerLiteralContext [ParseTree.terminal token] = true ∧
      ∀ other ∈ terminalsOf Context.IntegerLiteralContext,
        conforms Context.IntegerLiteralContext
          [ParseTree.terminal token, ParseTree.terminal token] = false ∧
        admits Context.IntegerLiteralContext (ParseTree.terminal other) = true) ∧
    parseLiteral [TokenType.HEX_LITERAL] =
      Except.ok (ParseTree.context Context.LiteralContext
        [ParseTree.context Context.IntegerLiteralContext
          [ParseTree.terminal TokenType.HEX_LITERAL]], []) := by
  refine ⟨by decide!, by decide!, by decide!, by decide!, by decide!, by decide!, ?_,
    by decide!, by rfl⟩
  intro tokens node rest h
  cases tokens with
  | nil => simp [parseLiteral] at h
  | cons token tail =>
    simp only [parseLiteral] at h
    split at h
    · rename_i hi
      simp only [Except.ok.injEq, Prod.mk.injEq] at h
      exact ⟨token, by rw [h.2], Or.inl ⟨by simpa using hi, h.1.symm⟩⟩
    · split at h
      · rename_i hf
        simp only [Except.ok.injEq, Prod.mk.injEq] at h
        exact ⟨token, by rw [h.2], Or.inr (Or.inl ⟨by simpa using hf, h.1.symm⟩)⟩
      · split at h
        · rename_i hl
          simp only [Except.ok.injEq, Prod.mk.injEq] at h
          exact ⟨token, by rw [h.2], Or.inr (Or.inr ⟨by simpa using hl, h.1.symm⟩)⟩
        · simp at h
end JavaParser
